import Mathlib

/-!
Quantum air hockey: wire codec, session manager and simulation core.

A shallow embedding of `Game.hpp` / `Game.cpp` (and the key handling of
`PlayMode.cpp`), followed by theorems about it.

Conventions of the embedding

* A byte (`uint8_t`) is a `Fin 256`; wider machine integers are `Nat` with an
  explicit `% 2 ^ w` wherever the source truncates.
* A `Connection` is its two byte buffers.  `connection.send(x)` appends the
  object representation of `x` to `send_buffer`.
* A C++ function that may `throw` returns an `Outcome`: either the returned
  `bool` or the thrown message, each together with the state the call leaves
  behind (an exception leaves the objects as they were at the `throw`).
* Diagnostics written to `std::cerr` / `std::cout` are not modelled.
* The simulation is embedded over exact arithmetic in an ordered field; a
  division by zero yields 0 there, where `float` yields an infinity or a NaN.
-/

set_option autoImplicit false

/-! ## Bytes and connections -/

/-- One `uint8_t`. -/
abbrev Byte := Fin 256

/-- The conversion `uint8_t(n)` of an unsigned value: truncation modulo 256. -/
def toU8 (n : Nat) : Byte := ⟨n % 256, Nat.mod_lt n (by decide)⟩

/-- Modelled from the spec: `struct Connection` (declared in `Connection.hpp`,
not among the sources), "a byte-stream connection object exposing an
append-only outgoing buffer (`send(bytes)`) and an append-only incoming buffer
(`recv_buffer`) that the Wire Codec reads from and trims". -/
structure Connection where
  send_buffer : List Byte
  recv_buffer : List Byte
deriving DecidableEq, Repr

/-- Modelled from the spec: `Connection::send` (defined in `Connection.hpp`,
not among the sources) appends the bytes of its argument, `sizeof` of them in
memory order, to the outgoing buffer. -/
def Connection.send (c : Connection) (bytes : List Byte) : Connection :=
  { c with send_buffer := c.send_buffer ++ bytes }

/-- Values of `enum class Message : uint8_t`. -/
def Message.C2S_Controls : Byte := 1

/-- The state message tag, the character `'s'`. -/
def Message.S2C_State : Byte := 115

/-- Result of a call that may throw `std::runtime_error`. -/
inductive Outcome (σ : Type) where
  | returned (value : Bool) (state : σ)
  | threw (what : String) (state : σ)
deriving DecidableEq, Repr

/-- The 24-bit length field read by both decoders:
`(uint32_t(b[3]) << 16) | (uint32_t(b[2]) << 8) | uint32_t(b[1])`. -/
def declared_size (recv_buffer : List Byte) : Nat :=
  ((recv_buffer.getD 3 0).val <<< 16) ||| ((recv_buffer.getD 2 0).val <<< 8)
    ||| (recv_buffer.getD 1 0).val

/-! ## Buttons and controls -/

/-- Type `struct Button`: `downs` is a `uint8_t` counter, `pressed` the held state. -/
structure Button where
  downs : Byte := 0
  pressed : Bool := false
deriving DecidableEq, Repr

/-- Type `struct Player::Controls`. -/
structure Controls where
  left : Button := {}
  right : Button := {}
  up : Button := {}
  down : Button := {}
  jump : Button := {}
deriving DecidableEq, Repr

/-- The lambda `send_button` of `send_controls_message`: the byte put on the
wire for one button. -/
def send_button (b : Button) : Byte :=
  toU8 ((if b.pressed then 0x80 else 0x00) ||| (b.downs.val &&& 0x7f))

/-- Member function `Player::Controls::send_controls_message` (a `const` member: the controls
are read only, the connection is the only object written). -/
def Controls.send_controls_message (c : Controls) (connection : Connection) : Connection :=
  let size : Nat := 5
  let connection := connection.send [Message.C2S_Controls]
  let connection := connection.send [toU8 size]
  let connection := connection.send [toU8 (size >>> 8)]
  let connection := connection.send [toU8 (size >>> 16)]
  let connection := connection.send [send_button c.left]
  let connection := connection.send [send_button c.right]
  let connection := connection.send [send_button c.up]
  let connection := connection.send [send_button c.down]
  connection.send [send_button c.jump]

/-- The lambda `recv_button` of `recv_controls_message`; the `uint32_t` sum of
two values below 256 cannot overflow. -/
def recv_button (byte : Byte) (button : Button) : Button :=
  let d : Nat := button.downs.val + (byte.val &&& 0x7f)
  let d : Nat := if d > 255 then 255 else d
  { pressed := (byte.val &&& 0x80) != 0, downs := toU8 d }

/-- Member function `Player::Controls::recv_controls_message`. -/
def Controls.recv_controls_message (c : Controls) (connection : Connection) :
    Outcome (Controls × Connection) :=
  let recv_buffer := connection.recv_buffer
  if recv_buffer.length < 4 then .returned false (c, connection)
  else if recv_buffer.getD 0 0 ≠ Message.C2S_Controls then .returned false (c, connection)
  else
    let size := declared_size recv_buffer
    if size ≠ 5 then
      .threw ("Controls message with size " ++ toString size ++ " != 5!") (c, connection)
    else if recv_buffer.length < 4 + size then .returned false (c, connection)
    else
      let c := { c with left := recv_button (recv_buffer.getD (4 + 0) 0) c.left }
      let c := { c with right := recv_button (recv_buffer.getD (4 + 1) 0) c.right }
      let c := { c with up := recv_button (recv_buffer.getD (4 + 2) 0) c.up }
      let c := { c with down := recv_button (recv_buffer.getD (4 + 3) 0) c.down }
      let c := { c with jump := recv_button (recv_buffer.getD (4 + 4) 0) c.jump }
      .returned true (c, { connection with recv_buffer := recv_buffer.drop (4 + size) })

/-- Member function `Player::Controls::reset`. -/
def Controls.reset (c : Controls) : Controls :=
  { left := { c.left with downs := 0 },
    right := { c.right with downs := 0 },
    up := { c.up with downs := 0 },
    down := { c.down with downs := 0 },
    jump := { c.jump with downs := 0 } }

/-! ## Entities -/

/-- Type `enum PlayerType`: an unscoped enumeration, held as its underlying integer
(an object of this type filled by `memcpy` can hold any value of that integer
type, not only the three enumerators). -/
abbrev PlayerType := Nat

/-- Enumerator `NEUTRAL`. -/
abbrev NEUTRAL : PlayerType := 0

/-- Enumerator `PLAYER_0`. -/
abbrev PLAYER_0 : PlayerType := 1

/-- Enumerator `PLAYER_1`. -/
abbrev PLAYER_1 : PlayerType := 2

/-- Library function `glm::vec2` over a scalar type `F`. -/
structure Vec2 (F : Type) where
  x : F
  y : F
deriving DecidableEq, Repr

/-- Type `struct Player`; `score` is an `unsigned int`. -/
structure Player (F : Type) where
  controls : Controls
  position : Vec2 F
  velocity : Vec2 F
  type : PlayerType
  score : Nat
deriving DecidableEq, Repr

/-- Type `struct Puck`. -/
structure Puck (F : Type) where
  position : Vec2 F
  velocity : Vec2 F
  prev_pos : Vec2 F
  last_hit : PlayerType
deriving DecidableEq, Repr

/-- Type `struct Game`.  `pucks` is the `std::array< Puck, NUM_PUCKS >` in storage
order; `spectators` is the `std::list< Player >`, each node paired with the
identity (address) of the node, which is what a `Player *` to it denotes. -/
structure Game (F : Type) where
  pucks : List (Puck F)
  player_0 : Player F
  player_1 : Player F
  spectators : List (Nat × Player F)
  next_player : PlayerType
  to_serve : PlayerType
  grace_period : F
deriving DecidableEq, Repr

/-- Macro `#define NUM_PUCKS 5`. -/
abbrev NUM_PUCKS : Nat := 5

/-! ## State message codec

The state message copies object representations with `memcpy`, so here a
`float` is its four bytes in memory order (`F32`): two floats are the same bit
for bit exactly when they are equal as `F32`.  Integers are laid out little
endian; `sizeof(unsigned int) = sizeof(float) = 4`, and `sizeof(PlayerType)`,
which the language leaves to the implementation, is a parameter. -/

/-- The object representation of a `float`. -/
structure F32 where
  b0 : Byte
  b1 : Byte
  b2 : Byte
  b3 : Byte
deriving DecidableEq, Repr

/-- Bytes of a `float`, in memory order. -/
def F32.toBytes (f : F32) : List Byte := [f.b0, f.b1, f.b2, f.b3]

/-- The `float` whose memory holds the given four bytes. -/
def F32.ofBytes (bs : List Byte) : F32 :=
  ⟨bs.getD 0 0, bs.getD 1 0, bs.getD 2 0, bs.getD 3 0⟩

/-- Bytes of a `glm::vec2`: `x` then `y`. -/
def Vec2.toBytes (v : Vec2 F32) : List Byte := v.x.toBytes ++ v.y.toBytes

/-- The `glm::vec2` whose memory holds the given eight bytes. -/
def Vec2.ofBytes (bs : List Byte) : Vec2 F32 :=
  ⟨F32.ofBytes (bs.take 4), F32.ofBytes (bs.drop 4)⟩

/-- Object representation of an unsigned integer object of `n` bytes holding
`v` (little endian). -/
def leBytes : Nat → Nat → List Byte
  | 0, _ => []
  | n + 1, v => toU8 v :: leBytes n (v / 256)

/-- Value of an unsigned integer object whose memory holds the given bytes
(little endian). -/
def ofLeBytes : List Byte → Nat
  | [] => 0
  | b :: bs => b.val + 256 * ofLeBytes bs

/-- The helper `send_player` of `send_state_message`. -/
def send_player (sizeof_PlayerType : Nat) (connection : Connection) (player : Player F32) :
    Connection :=
  let connection := connection.send player.position.toBytes
  let connection := connection.send player.velocity.toBytes
  let connection := connection.send (leBytes sizeof_PlayerType player.type)
  connection.send (leBytes 4 player.score)

/-- The helper `send_puck` of `send_state_message`. -/
def send_puck (sizeof_PlayerType : Nat) (connection : Connection) (puck : Puck F32) :
    Connection :=
  let connection := connection.send puck.position.toBytes
  let connection := connection.send puck.velocity.toBytes
  connection.send (leBytes sizeof_PlayerType puck.last_hit)

/-- Member function `Game::send_state_message` (a `const` member; its second argument
`connection_player` is never used by the body and is left out). -/
def Game.send_state_message (sizeof_PlayerType : Nat) (g : Game F32) (connection : Connection) :
    Connection :=
  let connection := connection.send [Message.S2C_State]
  let connection := connection.send [toU8 0]
  let connection := connection.send [toU8 0]
  let connection := connection.send [toU8 0]
  let mark := connection.send_buffer.length
  let connection := connection.send g.grace_period.toBytes
  let connection := send_player sizeof_PlayerType connection g.player_0
  let connection := send_player sizeof_PlayerType connection g.player_1
  let connection := g.pucks.foldl (send_puck sizeof_PlayerType) connection
  let size := (connection.send_buffer.length - mark) % 2 ^ 32
  let send_buffer := connection.send_buffer.set (mark - 3) (toU8 size)
  let send_buffer := send_buffer.set (mark - 2) (toU8 (size >>> 8))
  let send_buffer := send_buffer.set (mark - 1) (toU8 (size >>> 16))
  { connection with send_buffer := send_buffer }

/-- One call of the lambda `read` of `recv_state_message` for an object of `n`
bytes: `none` is the `throw`, otherwise the bytes copied and the new `at`. -/
def read_bytes (recv_buffer : List Byte) (size at_ n : Nat) : Option (List Byte × Nat) :=
  if at_ + n > size then none
  else some ((recv_buffer.drop (4 + at_)).take n, at_ + n)

/-- The four `read` calls that fill one player; an error carries the player as
it is when `read` throws. -/
def read_player (sizeof_PlayerType : Nat) (recv_buffer : List Byte) (size : Nat)
    (player : Player F32) (at_ : Nat) : Except (Player F32) (Player F32 × Nat) :=
  match read_bytes recv_buffer size at_ 8 with
  | none => .error player
  | some (bs, at_) =>
    let player := { player with position := Vec2.ofBytes bs }
    match read_bytes recv_buffer size at_ 8 with
    | none => .error player
    | some (bs, at_) =>
      let player := { player with velocity := Vec2.ofBytes bs }
      match read_bytes recv_buffer size at_ sizeof_PlayerType with
      | none => .error player
      | some (bs, at_) =>
        let player := { player with type := ofLeBytes bs }
        match read_bytes recv_buffer size at_ 4 with
        | none => .error player
        | some (bs, at_) => .ok ({ player with score := ofLeBytes bs }, at_)

/-- The three `read` calls that fill one puck. -/
def read_puck (sizeof_PlayerType : Nat) (recv_buffer : List Byte) (size : Nat)
    (puck : Puck F32) (at_ : Nat) : Except (Puck F32) (Puck F32 × Nat) :=
  match read_bytes recv_buffer size at_ 8 with
  | none => .error puck
  | some (bs, at_) =>
    let puck := { puck with position := Vec2.ofBytes bs }
    match read_bytes recv_buffer size at_ 8 with
    | none => .error puck
    | some (bs, at_) =>
      let puck := { puck with velocity := Vec2.ofBytes bs }
      match read_bytes recv_buffer size at_ sizeof_PlayerType with
      | none => .error puck
      | some (bs, at_) => .ok ({ puck with last_hit := ofLeBytes bs }, at_)

/-- The loop `for (auto &puck : pucks)` of `recv_state_message`. -/
def read_pucks (sizeof_PlayerType : Nat) (recv_buffer : List Byte) (size : Nat) :
    List (Puck F32) → Nat → Except (List (Puck F32)) (List (Puck F32) × Nat)
  | [], at_ => .ok ([], at_)
  | puck :: rest, at_ =>
    match read_puck sizeof_PlayerType recv_buffer size puck at_ with
    | .error puck => .error (puck :: rest)
    | .ok (puck, at_) =>
      match read_pucks sizeof_PlayerType recv_buffer size rest at_ with
      | .error rest => .error (puck :: rest)
      | .ok (rest, at_) => .ok (puck :: rest, at_)

/-- All `read` calls of `recv_state_message`, in order, starting from `at = 0`. -/
def read_state (sizeof_PlayerType : Nat) (recv_buffer : List Byte) (size : Nat)
    (g : Game F32) : Except (Game F32) (Game F32 × Nat) :=
  match read_bytes recv_buffer size 0 4 with
  | none => .error g
  | some (bs, at_) =>
    let g := { g with grace_period := F32.ofBytes bs }
    match read_player sizeof_PlayerType recv_buffer size g.player_0 at_ with
    | .error player => .error { g with player_0 := player }
    | .ok (player, at_) =>
      let g := { g with player_0 := player }
      match read_player sizeof_PlayerType recv_buffer size g.player_1 at_ with
      | .error player => .error { g with player_1 := player }
      | .ok (player, at_) =>
        let g := { g with player_1 := player }
        match read_pucks sizeof_PlayerType recv_buffer size g.pucks at_ with
        | .error pucks => .error { g with pucks := pucks }
        | .ok (pucks, at_) => .ok ({ g with pucks := pucks }, at_)

/-- Member function `Game::recv_state_message`. -/
def Game.recv_state_message (sizeof_PlayerType : Nat) (g : Game F32) (connection : Connection) :
    Outcome (Game F32 × Connection) :=
  let recv_buffer := connection.recv_buffer
  if recv_buffer.length < 4 then .returned false (g, connection)
  else if recv_buffer.getD 0 0 ≠ Message.S2C_State then .returned false (g, connection)
  else
    let size := declared_size recv_buffer
    if recv_buffer.length < 4 + size then .returned false (g, connection)
    else
      match read_state sizeof_PlayerType recv_buffer size g with
      | .error g => .threw "Ran out of bytes reading state message." (g, connection)
      | .ok (g, at_) =>
        if at_ ≠ size then .threw "Trailing data in state message." (g, connection)
        else .returned true (g, { connection with recv_buffer := recv_buffer.drop (4 + size) })

/-- Size in bytes of one player record on the wire. -/
def PLAYER_RECORD_SIZE (sizeof_PlayerType : Nat) : Nat := 8 + 8 + sizeof_PlayerType + 4

/-- Size in bytes of one puck record on the wire. -/
def PUCK_RECORD_SIZE (sizeof_PlayerType : Nat) : Nat := 8 + 8 + sizeof_PlayerType

/-- Size in bytes of the state payload: `grace_period`, two player records,
`NUM_PUCKS` puck records. -/
def STATE_PAYLOAD_SIZE (sizeof_PlayerType : Nat) : Nat :=
  4 + 2 * PLAYER_RECORD_SIZE sizeof_PlayerType + NUM_PUCKS * PUCK_RECORD_SIZE sizeof_PlayerType

/-! ## Arithmetic of the simulation

The simulation is written in `float`.  It is embedded over an arbitrary
linearly ordered field `F` of scalars; the functions of the C++ maths library
that are not field operations are supplied by a `FloatOps F`.  Statements made
"over exact real arithmetic" take `F = ℝ` with the real functions. -/

/-- The library functions used by the simulation: `std::sqrt`, `std::pow`,
`std::cos`, `std::sin` and the constant π (for `glm::radians`). -/
structure FloatOps (F : Type) where
  sqrt : F → F
  pow : F → F → F
  cos : F → F
  sin : F → F
  pi : F

section Arithmetic

variable {F : Type} [LinearOrderedField F]

instance : Add (Vec2 F) := ⟨fun a b => ⟨a.x + b.x, a.y + b.y⟩⟩
instance : Sub (Vec2 F) := ⟨fun a b => ⟨a.x - b.x, a.y - b.y⟩⟩

/-- The product `v * s` of a vector and a scalar. -/
def Vec2.scale (v : Vec2 F) (s : F) : Vec2 F := ⟨v.x * s, v.y * s⟩

/-- The product `s * v` of a scalar and a vector. -/
def Vec2.lscale (s : F) (v : Vec2 F) : Vec2 F := ⟨s * v.x, s * v.y⟩

/-- The quotient `v / s` of a vector by a scalar. -/
def Vec2.sdiv (v : Vec2 F) (s : F) : Vec2 F := ⟨v.x / s, v.y / s⟩

/-- Library function `glm::dot`. -/
def glm.dot (a b : Vec2 F) : F := a.x * b.x + a.y * b.y

/-- Library function `glm::length2`. -/
def glm.length2 (a : Vec2 F) : F := glm.dot a a

/-- Library function `glm::normalize`: `v * inversesqrt(dot(v, v))`. -/
def glm.normalize (ops : FloatOps F) (v : Vec2 F) : Vec2 F :=
  v.scale (1 / ops.sqrt (glm.dot v v))

/-- Library function `glm::mix` on scalars: `x * (1 - a) + y * a`. -/
def glm.mix (x y a : F) : F := x * (1 - a) + y * a

/-- Library function `glm::mix` on vectors with a scalar weight. -/
def glm.mix2 (x y : Vec2 F) (a : F) : Vec2 F := x.scale (1 - a) + y.scale a

/-- Library function `glm::radians`. -/
def glm.radians (ops : FloatOps F) (degrees : F) : F := degrees * (ops.pi / 180)

/-- Library function `glm::rotate` of a 2D vector by an angle in radians. -/
def glm.rotate (ops : FloatOps F) (v : Vec2 F) (angle : F) : Vec2 F :=
  ⟨v.x * ops.cos angle - v.y * ops.sin angle, v.x * ops.sin angle + v.y * ops.cos angle⟩

/-! ### Constants of `Game.hpp` -/

/-- Macro `#define PUCK_FAN_ANGLE 10.0f`. -/
def PUCK_FAN_ANGLE : F := 10

/-- Macro `#define GRACE_PERIOD 3.0f`. -/
def GRACE_PERIOD : F := 3

/-- Constant `Game::Player0Min`. -/
def Player0Min : F := -2

/-- Constant `Game::Player0Max`. -/
def Player0Max : F := -(1 / 2)

/-- Constant `Game::Player1Min`. -/
def Player1Min : F := 1 / 2

/-- Constant `Game::Player1Max`. -/
def Player1Max : F := 2

/-- Constant `Game::ArenaMin`. -/
def ArenaMin : Vec2 F := ⟨-1, Player0Min⟩

/-- Constant `Game::ArenaMax`. -/
def ArenaMax : Vec2 F := ⟨1, Player1Max⟩

/-- Constant `Game::GoalRadius`. -/
def GoalRadius : F := 27 / 100

/-- Constant `Game::PlayerRadius`. -/
def PlayerRadius : F := 9 / 100

/-- Constant `Game::PlayerSpeed`. -/
def PlayerSpeed : F := 3

/-- Constant `Game::PlayerAccelHalflife`. -/
def PlayerAccelHalflife : F := 5 / 100

/-- Constant `Game::PuckRadius`. -/
def PuckRadius : F := 5 / 100

/-- Constant `Game::PuckSpeed`. -/
def PuckSpeed : F := 3

/-- Constant `Game::PuckRetain`. -/
def PuckRetain : F := 75 / 100

/-! ## Session manager -/

/-- Member function `Game::reset`. -/
def Game.reset (g : Game F) (type : PlayerType) : Game F :=
  let g := { g with player_0 := { g.player_0 with position := ⟨0, -(175 / 100)⟩ } }
  let g := { g with player_0 := { g.player_0 with controls := g.player_0.controls.reset } }
  let g := { g with player_1 := { g.player_1 with position := ⟨0, 175 / 100⟩ } }
  let g := { g with player_1 := { g.player_1 with controls := g.player_1.controls.reset } }
  let y : F := if type = PLAYER_0 then -(75 / 100) else 75 / 100
  { g with pucks := g.pucks.map fun puck =>
      { puck with position := ⟨0, y⟩, last_hit := NEUTRAL } }

/-- Member function `Game::Game()`: the default member initialisers, then `reset(PLAYER_0)`.
`Player::type` and `Puck::prev_pos` have no initialiser, so what they hold in a
new `Game` is whatever the memory held: `type_0`, `type_1`, `prev_pos`
(`Puck::last_hit` has none either, but `reset` assigns it). -/
def Game.construct (type_0 type_1 : PlayerType) (prev_pos : Fin NUM_PUCKS → Vec2 F) : Game F :=
  let g : Game F :=
    { pucks := List.ofFn fun i =>
        { position := ⟨0, 0⟩, velocity := ⟨0, 0⟩, prev_pos := prev_pos i, last_hit := NEUTRAL },
      player_0 := { controls := {}, position := ⟨0, 0⟩, velocity := ⟨0, 0⟩,
                    type := type_0, score := 0 },
      player_1 := { controls := {}, position := ⟨0, 0⟩, velocity := ⟨0, 0⟩,
                    type := type_1, score := 0 },
      spectators := [],
      next_player := PLAYER_0,
      to_serve := PLAYER_0,
      grace_period := 0 }
  g.reset PLAYER_0

/-- What a `Player *` handed out by `spawn_player` points to: one of the two
slots, or a node of the spectator list. -/
inductive PlayerRef where
  | player_0
  | player_1
  | spectator (node : Nat)
deriving DecidableEq, Repr

/-- A node identity not used by any live node of the list (what the allocation
inside `emplace_back` provides). -/
def fresh_node (spectators : List (Nat × Player F)) : Nat :=
  (spectators.map Prod.fst).foldr max 0 + 1

/-- Member function `Game::spawn_player`: the new state and the pointer returned. -/
def Game.spawn_player (g : Game F) : Game F × PlayerRef :=
  if g.next_player = PLAYER_0 then
    let g := { g with player_0 := { g.player_0 with type := PLAYER_0 } }
    let g := { g with next_player := if g.player_1.type = PLAYER_1 then NEUTRAL else PLAYER_1 }
    (g, .player_0)
  else if g.next_player = PLAYER_1 then
    let g := { g with player_1 := { g.player_1 with type := PLAYER_1 } }
    let g := { g with next_player := if g.player_0.type = PLAYER_0 then NEUTRAL else PLAYER_0 }
    (g, .player_1)
  else
    let node := fresh_node g.spectators
    let player : Player F :=
      { controls := {}, position := ⟨0, 0⟩, velocity := ⟨0, 0⟩, type := 0, score := 0 }
    let player := { player with type := NEUTRAL }
    ({ g with spectators := g.spectators ++ [(node, player)] }, .spectator node)

/-- The search loop of `remove_player`: erase the first node with the given
identity; `none` when there is none (`found` stays `false`). -/
def erase_spectator (node : Nat) : List (Nat × Player F) → Option (List (Nat × Player F))
  | [] => none
  | s :: rest =>
    if s.1 = node then some rest
    else (erase_spectator node rest).map fun rest => s :: rest

/-- Member function `Game::remove_player`; `none` is the failure of `assert(found)`. -/
def Game.remove_player (g : Game F) (player : PlayerRef) : Option (Game F) :=
  match player with
  | .player_0 =>
    some { g with player_0 := { g.player_0 with type := NEUTRAL }, next_player := PLAYER_0 }
  | .player_1 =>
    some { g with player_1 := { g.player_1 with type := NEUTRAL }, next_player := PLAYER_1 }
  | .spectator node =>
    (erase_spectator node g.spectators).map fun spectators => { g with spectators := spectators }

/-- The player object a `Player *` points to in a given state. -/
def Game.deref (g : Game F) : PlayerRef → Option (Player F)
  | .player_0 => some g.player_0
  | .player_1 => some g.player_1
  | .spectator node => (g.spectators.find? fun s => s.1 = node).map Prod.snd

/-! ## Simulation engine -/

/-- Member function `Game::update_player`; `velocity` is the value either branch of the
`if (dir == glm::vec2(0.0f))` assigns to `p.velocity`. -/
def update_player (ops : FloatOps F) (p : Player F) (elapsed y_min y_max : F) : Player F :=
  let dir : Vec2 F := ⟨0, 0⟩
  let dir : Vec2 F := if p.controls.left.pressed then { dir with x := dir.x - 1 } else dir
  let dir : Vec2 F := if p.controls.right.pressed then { dir with x := dir.x + 1 } else dir
  let dir : Vec2 F := if p.controls.down.pressed then { dir with y := dir.y - 1 } else dir
  let dir : Vec2 F := if p.controls.up.pressed then { dir with y := dir.y + 1 } else dir
  let velocity : Vec2 F :=
    if dir = ⟨0, 0⟩ then
      let amt := 1 - ops.pow (1 / 2) (elapsed / ((PlayerAccelHalflife : F) * 2))
      glm.mix2 p.velocity ⟨0, 0⟩ amt
    else
      let dir := glm.normalize ops dir
      let amt := 1 - ops.pow (1 / 2) (elapsed / (PlayerAccelHalflife : F))
      let along := glm.dot p.velocity dir
      let along := if along < (PlayerSpeed : F) then glm.mix along (PlayerSpeed : F) amt else along
      let perp := glm.dot p.velocity ⟨-dir.y, dir.x⟩
      let perp := glm.mix perp 0 amt
      dir.scale along + (⟨-dir.y, dir.x⟩ : Vec2 F).scale perp
  let p : Player F := { p with velocity := velocity }
  let p : Player F := { p with position := p.position + p.velocity.scale elapsed }
  let p : Player F := { p with controls := p.controls.reset }
  let p : Player F :=
    if p.position.x < (ArenaMin : Vec2 F).x + (PlayerRadius : F) then
      { p with position := { p.position with x := (ArenaMin : Vec2 F).x + (PlayerRadius : F) },
               velocity := { p.velocity with x := abs p.velocity.x } }
    else p
  let p : Player F :=
    if p.position.x > (ArenaMax : Vec2 F).x - (PlayerRadius : F) then
      { p with position := { p.position with x := (ArenaMax : Vec2 F).x - (PlayerRadius : F) },
               velocity := { p.velocity with x := -(abs p.velocity.x) } }
    else p
  let p : Player F :=
    if p.position.y < y_min + (PlayerRadius : F) then
      { p with position := { p.position with y := y_min + (PlayerRadius : F) },
               velocity := { p.velocity with y := abs p.velocity.y } }
    else p
  let p : Player F :=
    if p.position.y > y_max - (PlayerRadius : F) then
      { p with position := { p.position with y := y_max - (PlayerRadius : F) },
               velocity := { p.velocity with y := -(abs p.velocity.y) } }
    else p
  p

/-- Member function `Game::check_collision`: the returned `bool` and the puck as the call
leaves it (the player is `const`).  The quotient `disp / dist` is the quotient of
the field, which is 0 for `dist = 0`; the code's float quotient is then `0 / 0`,
not a number.  `check_collision_zero_divisor` below tells when that happens, and
what this function returns in that case is not what the code computes. -/
def check_collision (ops : FloatOps F) (puck : Puck F) (player : Player F) : Bool × Puck F :=
  let disp := player.position - puck.position
  let dist := ops.sqrt (glm.length2 disp)
  if dist > (PlayerRadius : F) + (PuckRadius : F) then (false, puck)
  else
    let dir := disp.sdiv dist
    let v12 := player.velocity - puck.velocity
    let delta_v12 := dir.scale (glm.dot dir v12)
    let puck : Puck F := { puck with velocity := puck.velocity + delta_v12.scale 2 }
    let puck : Puck F :=
      { puck with position :=
          player.position - Vec2.lscale ((PlayerRadius : F) + (PuckRadius : F) + 1 / 100) dir }
    (true, puck)

/-- The loop of `fork_pucks` from storage index `i` on, with loop variable
`cnt`; `root` is the pointed-to puck (which the loop skips and so never
changes) and `root_index` its place in the array. -/
def fork_loop (ops : FloatOps F) (root : Puck F) (root_index : Nat) :
    List (Puck F) → Nat → Int → List (Puck F)
  | [], _, _ => []
  | puck :: rest, i, cnt =>
    if i = root_index then puck :: fork_loop ops root root_index rest (i + 1) cnt
    else
      let puck : Puck F :=
        { puck with
            position := root.position,
            velocity := glm.rotate ops root.velocity (glm.radians ops (PUCK_FAN_ANGLE * (cnt : F))),
            last_hit := root.last_hit }
      let cnt := cnt + 1
      let cnt := if cnt = 0 then cnt + 1 else cnt
      puck :: fork_loop ops root root_index rest (i + 1) cnt

/-- Member function `Game::fork_pucks`, the argument being `&pucks[root]`. -/
def Game.fork_pucks (ops : FloatOps F) (g : Game F) (root : Nat) : Game F :=
  match g.pucks[root]? with
  | none => g
  | some r =>
    let cnt : Int := Int.tdiv (-((NUM_PUCKS : Int) - 1)) 2
    { g with pucks := fork_loop ops r root g.pucks 0 cnt }

/-- Member function `Game::handle_scored`, the first argument being `&pucks[scored]`.  The
`default` branch of the `switch` evaluates a comparison and discards it. -/
def Game.handle_scored (g : Game F) (scored : Nat) (type : PlayerType) : Game F :=
  match g.pucks[scored]? with
  | none => g
  | some s =>
    let g : Game F := { g with grace_period := (GRACE_PERIOD : F) }
    let g : Game F := { g with pucks := g.pucks.map fun puck =>
      { puck with position := s.position, velocity := ⟨0, 0⟩ } }
    if type = PLAYER_0 then
      let g : Game F := { g with player_0 := { g.player_0 with score := (g.player_0.score + 1) % 2 ^ 32 } }
      { g with to_serve := if g.player_1.type = NEUTRAL then PLAYER_0 else PLAYER_1 }
    else if type = PLAYER_1 then
      let g : Game F := { g with player_1 := { g.player_1 with score := (g.player_1.score + 1) % 2 ^ 32 } }
      { g with to_serve := if g.player_0.type = NEUTRAL then PLAYER_1 else PLAYER_0 }
    else g

/-- Body of the first puck loop of `update` (position / velocity update). -/
def integrate_puck (ops : FloatOps F) (elapsed : F) (puck : Puck F) : Puck F :=
  let puck : Puck F := { puck with prev_pos := puck.position }
  let puck : Puck F := { puck with position := puck.position + puck.velocity.scale elapsed }
  let speed := ops.sqrt (glm.length2 puck.velocity)
  if (PuckSpeed : F) < speed then
    let factor := ((PuckSpeed : F) + (speed - (PuckSpeed : F)) * (PuckRetain : F)) / speed
    { puck with velocity := puck.velocity.scale factor }
  else puck

/-- The collision loop of `update` from storage index `i` on: the pucks as the
loop leaves them and `collide_puck` (an index, `none` for `nullptr`). -/
def collision_loop (ops : FloatOps F) (player_0 player_1 : Player F) :
    List (Puck F) → Nat → List (Puck F) × Option Nat
  | [], _ => ([], none)
  | puck :: rest, i =>
    match check_collision ops puck player_0 with
    | (true, puck) => ({ puck with last_hit := player_0.type } :: rest, some i)
    | (false, puck) =>
      match check_collision ops puck player_1 with
      | (true, puck) => ({ puck with last_hit := player_1.type } :: rest, some i)
      | (false, puck) =>
        let r := collision_loop ops player_0 player_1 rest (i + 1)
        (puck :: r.1, r.2)

/-- Body of the arena loop of `update` up to the goal test: walls and goal
posts for one puck. -/
def arena_collide (puck : Puck F) : Puck F :=
  let puck : Puck F :=
    if puck.position.x < (ArenaMin : Vec2 F).x + (PuckRadius : F) then
      { puck with position := { puck.position with x := (ArenaMin : Vec2 F).x + (PuckRadius : F) },
                  velocity := { puck.velocity with x := abs puck.velocity.x } }
    else puck
  let puck : Puck F :=
    if puck.position.x > (ArenaMax : Vec2 F).x - (PuckRadius : F) then
      { puck with position := { puck.position with x := (ArenaMax : Vec2 F).x - (PuckRadius : F) },
                  velocity := { puck.velocity with x := -(abs puck.velocity.x) } }
    else puck
  let x_goal_min : Bool := puck.position.x < -(GoalRadius : F) + (PuckRadius : F)
  let x_goal_max : Bool := puck.position.x > (GoalRadius : F) - (PuckRadius : F)
  let y_min : Bool := puck.position.y < (ArenaMin : Vec2 F).y + (PuckRadius : F)
  let y_max : Bool := puck.position.y > (ArenaMax : Vec2 F).y - (PuckRadius : F)
  let puck : Puck F :=
    if x_goal_min || x_goal_max then
      let puck : Puck F :=
        if y_min then
          { puck with position := { puck.position with y := (ArenaMin : Vec2 F).y + (PuckRadius : F) },
                      velocity := { puck.velocity with y := abs puck.velocity.y } }
        else puck
      let puck : Puck F :=
        if y_max then
          { puck with position := { puck.position with y := (ArenaMax : Vec2 F).y - (PuckRadius : F) },
                      velocity := { puck.velocity with y := -(abs puck.velocity.y) } }
        else puck
      puck
    else puck
  let puck : Puck F :=
    if y_min || y_max then
      let puck : Puck F :=
        if x_goal_min && decide (puck.prev_pos.x ≥ -(GoalRadius : F) + (PuckRadius : F)) then
          { puck with position := { puck.position with x := -(GoalRadius : F) + (PuckRadius : F) },
                      velocity := { puck.velocity with x := abs puck.velocity.x } }
        else puck
      let puck : Puck F :=
        if x_goal_max && decide (puck.prev_pos.x < (GoalRadius : F) - (PuckRadius : F)) then
          { puck with position := { puck.position with x := (GoalRadius : F) - (PuckRadius : F) },
                      velocity := { puck.velocity with x := -(abs puck.velocity.x) } }
        else puck
      puck
    else puck
  puck

/-- The arena loop of `update` from storage index `i` on, up to its `break`:
the pucks as the loop leaves them and, when the loop ends at a goal test, the
index of that puck and whether it is past the top line (`true`, the call
`handle_scored(&puck, player_0.type)`) or the bottom line (`false`, the call
`handle_scored(&puck, player_1.type)`). -/
def arena_loop : List (Puck F) → Nat → List (Puck F) × Option (Nat × Bool)
  | [], _ => ([], none)
  | puck :: rest, i =>
    let puck : Puck F := arena_collide puck
    if puck.position.y < (ArenaMin : Vec2 F).y - (PuckRadius : F) then (puck :: rest, some (i, false))
    else if puck.position.y > (ArenaMax : Vec2 F).y + (PuckRadius : F) then
      (puck :: rest, some (i, true))
    else
      let r := arena_loop rest (i + 1)
      (puck :: r.1, r.2)

/-- The blocks "collision resolution" and "was a collision, respawn all pucks
from the one that collided" of `update`. -/
def Game.resolve_collisions (ops : FloatOps F) (g : Game F) : Game F :=
  let collided := collision_loop ops g.player_0 g.player_1 g.pucks 0
  let g : Game F := { g with pucks := collided.1 }
  match collided.2 with
  | some collide_puck => g.fork_pucks ops collide_puck
  | none => g

/-- The block "puck/arena collisions" of `update`.  The call of
`handle_scored` is the last statement the loop executes (it is followed by
`break`), so it is applied to the state in which `arena_loop` stops. -/
def Game.arena_collisions (g : Game F) : Game F :=
  let walls := arena_loop g.pucks 0
  let g : Game F := { g with pucks := walls.1 }
  match walls.2 with
  | some (scored, true) => g.handle_scored scored g.player_0.type
  | some (scored, false) => g.handle_scored scored g.player_1.type
  | none => g

/-- Member function `Game::update`. -/
def Game.update (ops : FloatOps F) (g : Game F) (elapsed : F) : Game F :=
  let was_grace : Bool := g.grace_period > 0
  let g : Game F :=
    if was_grace then { g with grace_period := max 0 (g.grace_period - elapsed) } else g
  if g.grace_period > 0 then g
  else
    let g : Game F := if was_grace then g.reset g.to_serve else g
    let g : Game F :=
      { g with player_0 := update_player ops g.player_0 elapsed Player0Min Player0Max }
    let g : Game F :=
      { g with player_1 := update_player ops g.player_1 elapsed Player1Min Player1Max }
    let g : Game F := { g with pucks := g.pucks.map (integrate_puck ops elapsed) }
    let g : Game F := g.resolve_collisions ops
    g.arena_collisions

end Arithmetic

/-! ## Vocabulary of the statements -/

/-- Controls with taps on some buttons and some buttons held. -/
def sample_controls : Controls :=
  { left := ⟨127, true⟩, right := ⟨0, false⟩, up := ⟨3, false⟩, down := ⟨1, true⟩,
    jump := ⟨100, true⟩ }

/-- Controls with no taps; two buttons are held. -/
def idle_controls : Controls :=
  { left := ⟨0, true⟩, right := ⟨0, false⟩, up := ⟨0, false⟩, down := ⟨0, true⟩,
    jump := ⟨0, false⟩ }

/-- The declared payload length of a buffered frame, as the protocol words it:
the three bytes after the type byte, read as a little-endian number. -/
def declared_length (recv_buffer : List Byte) : Nat :=
  (recv_buffer.getD 1 0).val + 256 * (recv_buffer.getD 2 0).val
    + 65536 * (recv_buffer.getD 3 0).val

/-- The byte the wire format prescribes for a button, as a number: `pressed`
in the high bit, the low seven bits of `downs` below it. -/
def button_byte (b : Button) : Nat :=
  (if b.pressed then 0x80 else 0) ||| (b.downs.val &&& 0x7f)

/-- The control frame for given controls: type byte, length 5 in three
little-endian bytes, one byte per button. -/
def controls_frame (c : Controls) : List Byte :=
  [1, 5, 0, 0, send_button c.left, send_button c.right, send_button c.up,
    send_button c.down, send_button c.jump]

/-- The wire record of a player: position, velocity, type, score. -/
def player_record (sizeof_PlayerType : Nat) (p : Player F32) : List Byte :=
  p.position.toBytes ++ p.velocity.toBytes ++ leBytes sizeof_PlayerType p.type
    ++ leBytes 4 p.score

/-- The wire record of a puck: position, velocity, last_hit. -/
def puck_record (sizeof_PlayerType : Nat) (p : Puck F32) : List Byte :=
  p.position.toBytes ++ p.velocity.toBytes ++ leBytes sizeof_PlayerType p.last_hit

/-- The state payload: `grace_period`, `player_0`, `player_1`, then the pucks
in storage order. -/
def state_payload (sizeof_PlayerType : Nat) (g : Game F32) : List Byte :=
  g.grace_period.toBytes ++ player_record sizeof_PlayerType g.player_0
    ++ player_record sizeof_PlayerType g.player_1
    ++ (g.pucks.map (puck_record sizeof_PlayerType)).flatten

/-- The bytes `start, start + 1, .., start + n - 1` of a buffer. -/
def byte_range (buffer : List Byte) (start n : Nat) : List Byte :=
  (buffer.drop start).take n

/-- The player the four `read` calls of a player record produce from the
payload offset `at_` when none of them throws. -/
def decode_player (sizeof_PlayerType : Nat) (recv_buffer : List Byte) (player : Player F32)
    (at_ : Nat) : Player F32 :=
  { player with
    position := Vec2.ofBytes (byte_range recv_buffer (4 + at_) 8),
    velocity := Vec2.ofBytes (byte_range recv_buffer (4 + (at_ + 8)) 8),
    type := ofLeBytes (byte_range recv_buffer (4 + (at_ + 8 + 8)) sizeof_PlayerType),
    score := ofLeBytes (byte_range recv_buffer (4 + (at_ + 8 + 8 + sizeof_PlayerType)) 4) }

/-- The puck the three `read` calls of a puck record produce from the payload
offset `at_` when none of them throws. -/
def decode_puck (sizeof_PlayerType : Nat) (recv_buffer : List Byte) (puck : Puck F32)
    (at_ : Nat) : Puck F32 :=
  { puck with
    position := Vec2.ofBytes (byte_range recv_buffer (4 + at_) 8),
    velocity := Vec2.ofBytes (byte_range recv_buffer (4 + (at_ + 8)) 8),
    last_hit := ofLeBytes (byte_range recv_buffer (4 + (at_ + 8 + 8)) sizeof_PlayerType) }

/-- The pucks the puck loop of the decoder produces from the payload offset
`at_` when no `read` throws. -/
def decode_pucks (sizeof_PlayerType : Nat) (recv_buffer : List Byte) :
    List (Puck F32) → Nat → List (Puck F32)
  | [], _ => []
  | puck :: rest, at_ =>
    decode_puck sizeof_PlayerType recv_buffer puck at_
      :: decode_pucks sizeof_PlayerType recv_buffer rest (at_ + PUCK_RECORD_SIZE sizeof_PlayerType)

/-- The game the decoder produces when no `read` throws. -/
def decode_state (sizeof_PlayerType : Nat) (recv_buffer : List Byte) (g : Game F32) : Game F32 :=
  { g with
    grace_period := F32.ofBytes (byte_range recv_buffer (4 + 0) 4),
    player_0 := decode_player sizeof_PlayerType recv_buffer g.player_0 4,
    player_1 := decode_player sizeof_PlayerType recv_buffer g.player_1
      (4 + PLAYER_RECORD_SIZE sizeof_PlayerType),
    pucks := decode_pucks sizeof_PlayerType recv_buffer g.pucks
      (4 + PLAYER_RECORD_SIZE sizeof_PlayerType + PLAYER_RECORD_SIZE sizeof_PlayerType) }

/-- A player of the receiving game after it took the transmitted fields of `p`. -/
def Player.with_wire (p0 p : Player F32) : Player F32 :=
  { p0 with position := p.position, velocity := p.velocity, type := p.type, score := p.score }

/-- A puck of the receiving game after it took the transmitted fields of `q`. -/
def Puck.with_wire (q0 q : Puck F32) : Puck F32 :=
  { q0 with position := q.position, velocity := q.velocity, last_hit := q.last_hit }

/-- A complete well-formed control frame: type byte 1, declared length 5, and
exactly the five payload bytes after the header. -/
def IsControlsFrame (frame : List Byte) : Prop :=
  frame.head? = some Message.C2S_Controls ∧ declared_length frame = 5 ∧ frame.length = 4 + 5

/-- A complete well-formed state frame: type byte `'s'`, declared length equal
to the size of the state payload, and exactly that many bytes after the header. -/
def IsStateFrame (sizeof_PlayerType : Nat) (frame : List Byte) : Prop :=
  frame.head? = some Message.S2C_State ∧
    declared_length frame = STATE_PAYLOAD_SIZE sizeof_PlayerType ∧
    frame.length = 4 + STATE_PAYLOAD_SIZE sizeof_PlayerType

/-- A game state in `float` bit patterns, used as a concrete input. -/
def sample_state : Game F32 :=
  { pucks := [⟨⟨⟨0, 0, 128, 63⟩, ⟨0, 0, 0, 64⟩⟩, ⟨⟨1, 2, 3, 4⟩, ⟨5, 6, 7, 8⟩⟩,
                ⟨⟨9, 9, 9, 9⟩, ⟨9, 9, 9, 9⟩⟩, PLAYER_0⟩,
              ⟨⟨⟨10, 0, 128, 63⟩, ⟨0, 0, 0, 64⟩⟩, ⟨⟨1, 2, 3, 4⟩, ⟨5, 6, 7, 8⟩⟩,
                ⟨⟨9, 9, 9, 9⟩, ⟨9, 9, 9, 9⟩⟩, PLAYER_1⟩,
              ⟨⟨⟨20, 0, 128, 63⟩, ⟨0, 0, 0, 64⟩⟩, ⟨⟨1, 2, 3, 4⟩, ⟨5, 6, 7, 8⟩⟩,
                ⟨⟨9, 9, 9, 9⟩, ⟨9, 9, 9, 9⟩⟩, NEUTRAL⟩,
              ⟨⟨⟨30, 0, 128, 63⟩, ⟨0, 0, 0, 64⟩⟩, ⟨⟨1, 2, 3, 4⟩, ⟨5, 6, 7, 8⟩⟩,
                ⟨⟨9, 9, 9, 9⟩, ⟨9, 9, 9, 9⟩⟩, PLAYER_0⟩,
              ⟨⟨⟨40, 0, 128, 63⟩, ⟨0, 0, 0, 64⟩⟩, ⟨⟨1, 2, 3, 4⟩, ⟨5, 6, 7, 8⟩⟩,
                ⟨⟨9, 9, 9, 9⟩, ⟨9, 9, 9, 9⟩⟩, PLAYER_0⟩],
    player_0 := ⟨sample_controls, ⟨⟨0, 0, 0, 0⟩, ⟨0, 0, 224, 191⟩⟩,
      ⟨⟨0, 0, 64, 64⟩, ⟨0, 0, 0, 128⟩⟩, PLAYER_0, 7⟩,
    player_1 := ⟨idle_controls, ⟨⟨0, 0, 0, 0⟩, ⟨0, 0, 224, 63⟩⟩,
      ⟨⟨0, 0, 0, 0⟩, ⟨0, 0, 0, 0⟩⟩, PLAYER_1, 4294967295⟩,
    spectators := [],
    next_player := NEUTRAL,
    to_serve := PLAYER_1,
    grace_period := ⟨0, 0, 64, 64⟩ }

/-- A receiving game: all fields zero, five pucks. -/
def blank_state : Game F32 :=
  { pucks := List.replicate NUM_PUCKS
      ⟨⟨⟨0, 0, 0, 0⟩, ⟨0, 0, 0, 0⟩⟩, ⟨⟨0, 0, 0, 0⟩, ⟨0, 0, 0, 0⟩⟩,
        ⟨⟨0, 0, 0, 0⟩, ⟨0, 0, 0, 0⟩⟩, NEUTRAL⟩,
    player_0 := ⟨{}, ⟨⟨0, 0, 0, 0⟩, ⟨0, 0, 0, 0⟩⟩, ⟨⟨0, 0, 0, 0⟩, ⟨0, 0, 0, 0⟩⟩, NEUTRAL, 0⟩,
    player_1 := ⟨{}, ⟨⟨0, 0, 0, 0⟩, ⟨0, 0, 0, 0⟩⟩, ⟨⟨0, 0, 0, 0⟩, ⟨0, 0, 0, 0⟩⟩, NEUTRAL, 0⟩,
    spectators := [],
    next_player := PLAYER_0,
    to_serve := PLAYER_0,
    grace_period := ⟨0, 0, 0, 0⟩ }

/-- The values a `Game` object can hold in its transmitted integer fields: five
pucks, scores that fit an `unsigned int`, enumeration values that fit an object
of `sizeof(PlayerType)` bytes. -/
def Game.Representable (sizeof_PlayerType : Nat) (g : Game F32) : Prop :=
  g.pucks.length = NUM_PUCKS ∧
  g.player_0.type < 256 ^ sizeof_PlayerType ∧ g.player_1.type < 256 ^ sizeof_PlayerType ∧
  g.player_0.score < 2 ^ 32 ∧ g.player_1.score < 2 ^ 32 ∧
  ∀ q ∈ g.pucks, q.last_hit < 256 ^ sizeof_PlayerType

instance (sizeof_PlayerType : Nat) (g : Game F32) :
    Decidable (g.Representable sizeof_PlayerType) := by
  unfold Game.Representable
  infer_instance

instance (frame : List Byte) : Decidable (IsControlsFrame frame) := by
  unfold IsControlsFrame
  infer_instance

instance (sizeof_PlayerType : Nat) (frame : List Byte) :
    Decidable (IsStateFrame sizeof_PlayerType frame) := by
  unfold IsStateFrame
  infer_instance

/-- The state frame of `sample_state` for `sizeof(PlayerType) = 4`. -/
def sample_state_frame : List Byte := (sample_state.send_state_message 4 ⟨[], []⟩).send_buffer

/-- The state frame of `blank_state` for `sizeof(PlayerType) = 4`. -/
def blank_state_frame : List Byte := (blank_state.send_state_message 4 ⟨[], []⟩).send_buffer

section Kinematics

variable {F : Type} [LinearOrderedField F]

/-- The library functions are exact: `sqrt` is the non-negative square root of
a non-negative number and `pow` gives 1 for the exponent 0.  The real
functions satisfy this; it is what "over exact real arithmetic" asks of the
library. -/
structure FloatOps.Exact (ops : FloatOps F) : Prop where
  sqrt_nonneg : ∀ x : F, 0 ≤ ops.sqrt x
  sqrt_mul_self : ∀ x : F, 0 ≤ x → ops.sqrt x * ops.sqrt x = x
  pow_zero : ∀ b : F, ops.pow b 0 = 1

/-- The player is inside the rectangle `update_player` clamps it to. -/
def Player.InBounds (p : Player F) (y_min y_max : F) : Prop :=
  (ArenaMin : Vec2 F).x + (PlayerRadius : F) ≤ p.position.x ∧
  p.position.x ≤ (ArenaMax : Vec2 F).x - (PlayerRadius : F) ∧
  y_min + (PlayerRadius : F) ≤ p.position.y ∧
  p.position.y ≤ y_max - (PlayerRadius : F)

/-- The puck is not faster than `PuckSpeed`. -/
def Puck.WithinSpeedCap (q : Puck F) : Prop :=
  glm.length2 q.velocity ≤ (PuckSpeed : F) * (PuckSpeed : F)

/-- The centres of the puck and the player are more than
`PlayerRadius + PuckRadius` apart. -/
def Puck.Clear (q : Puck F) (p : Player F) : Prop :=
  ((PlayerRadius : F) + (PuckRadius : F)) * ((PlayerRadius : F) + (PuckRadius : F))
    < glm.length2 (p.position - q.position)

/-- The puck is between the side walls, between the back walls unless its `x`
is inside the goal mouth, and not past a goal line. -/
def Puck.InArena (q : Puck F) : Prop :=
  (ArenaMin : Vec2 F).x + (PuckRadius : F) ≤ q.position.x ∧
  q.position.x ≤ (ArenaMax : Vec2 F).x - (PuckRadius : F) ∧
  ((q.position.x < -(GoalRadius : F) + (PuckRadius : F) ∨
      (GoalRadius : F) - (PuckRadius : F) < q.position.x) →
    (ArenaMin : Vec2 F).y + (PuckRadius : F) ≤ q.position.y ∧
    q.position.y ≤ (ArenaMax : Vec2 F).y - (PuckRadius : F)) ∧
  (ArenaMin : Vec2 F).y - (PuckRadius : F) ≤ q.position.y ∧
  q.position.y ≤ (ArenaMax : Vec2 F).y + (PuckRadius : F)

/-- Nothing in the state is subject to an instantaneous correction of
`update`: both players are inside their rectangles, and every puck is within
the speed cap, clear of both players and inside the arena. -/
def Game.Settled (g : Game F) : Prop :=
  g.player_0.InBounds Player0Min Player0Max ∧
  g.player_1.InBounds Player1Min Player1Max ∧
  ∀ q ∈ g.pucks, q.WithinSpeedCap ∧ q.Clear g.player_0 ∧ q.Clear g.player_1 ∧ q.InArena

/-- The input direction `update_player` builds from the held buttons. -/
def player_input_dir (c : Controls) : Vec2 F :=
  let dir : Vec2 F := ⟨0, 0⟩
  let dir : Vec2 F := if c.left.pressed then { dir with x := dir.x - 1 } else dir
  let dir : Vec2 F := if c.right.pressed then { dir with x := dir.x + 1 } else dir
  let dir : Vec2 F := if c.down.pressed then { dir with y := dir.y - 1 } else dir
  let dir : Vec2 F := if c.up.pressed then { dir with y := dir.y + 1 } else dir
  dir

/-- The velocity `update_player` computes from the old velocity and the input
direction. -/
def player_steer (ops : FloatOps F) (velocity dir : Vec2 F) (elapsed : F) : Vec2 F :=
  if dir = ⟨0, 0⟩ then
    let amt := 1 - ops.pow (1 / 2) (elapsed / ((PlayerAccelHalflife : F) * 2))
    glm.mix2 velocity ⟨0, 0⟩ amt
  else
    let dir := glm.normalize ops dir
    let amt := 1 - ops.pow (1 / 2) (elapsed / (PlayerAccelHalflife : F))
    let along := glm.dot velocity dir
    let along := if along < (PlayerSpeed : F) then glm.mix along (PlayerSpeed : F) amt else along
    let perp := glm.dot velocity ⟨-dir.y, dir.x⟩
    let perp := glm.mix perp 0 amt
    dir.scale along + (⟨-dir.y, dir.x⟩ : Vec2 F).scale perp

/-- The player / arena collisions at the end of `update_player`. -/
def player_clamp (p : Player F) (y_min y_max : F) : Player F :=
  let p : Player F :=
    if p.position.x < (ArenaMin : Vec2 F).x + (PlayerRadius : F) then
      { p with position := { p.position with x := (ArenaMin : Vec2 F).x + (PlayerRadius : F) },
               velocity := { p.velocity with x := abs p.velocity.x } }
    else p
  let p : Player F :=
    if p.position.x > (ArenaMax : Vec2 F).x - (PlayerRadius : F) then
      { p with position := { p.position with x := (ArenaMax : Vec2 F).x - (PlayerRadius : F) },
               velocity := { p.velocity with x := -(abs p.velocity.x) } }
    else p
  let p : Player F :=
    if p.position.y < y_min + (PlayerRadius : F) then
      { p with position := { p.position with y := y_min + (PlayerRadius : F) },
               velocity := { p.velocity with y := abs p.velocity.y } }
    else p
  let p : Player F :=
    if p.position.y > y_max - (PlayerRadius : F) then
      { p with position := { p.position with y := y_max - (PlayerRadius : F) },
               velocity := { p.velocity with y := -(abs p.velocity.y) } }
    else p
  p

/-- A state at the start of play: both players at home and idle, no grace
period, the five pucks at the centre of the arena with a common velocity. -/
def centre_state (velocity : Vec2 F) : Game F :=
  { pucks := List.replicate NUM_PUCKS
      { position := ⟨0, 0⟩, velocity := velocity, prev_pos := ⟨0, 0⟩, last_hit := NEUTRAL },
    player_0 := { controls := {}, position := ⟨0, -(175 / 100)⟩, velocity := ⟨0, 0⟩,
                  type := PLAYER_0, score := 0 },
    player_1 := { controls := {}, position := ⟨0, 175 / 100⟩, velocity := ⟨0, 0⟩,
                  type := PLAYER_1, score := 0 },
    spectators := [],
    next_player := NEUTRAL,
    to_serve := PLAYER_0,
    grace_period := 0 }

end Kinematics

section TickVocabulary

variable {F : Type} [LinearOrderedField F]

/-- The player as `update_player` has it after steering, moving and clearing
the tap counters, just before the player / arena collisions. -/
def player_move (ops : FloatOps F) (p : Player F) (elapsed : F) : Player F :=
  { controls := p.controls.reset,
    position := p.position
      + (player_steer ops p.velocity (player_input_dir p.controls) elapsed).scale elapsed,
    velocity := player_steer ops p.velocity (player_input_dir p.controls) elapsed,
    type := p.type,
    score := p.score }

/-- The state in which the arena loop of `update` starts when the tick is run
on `g`: players updated, pucks integrated, collisions resolved. -/
def Game.before_arena (ops : FloatOps F) (g : Game F) (elapsed : F) : Game F :=
  Game.resolve_collisions ops
    { g with
      player_0 := update_player ops g.player_0 elapsed Player0Min Player0Max,
      player_1 := update_player ops g.player_1 elapsed Player1Min Player1Max,
      pucks := g.pucks.map (integrate_puck ops elapsed) }

/-- The physics of one tick, that is everything `update` does after the grace
period handling, run on `g`. -/
def Game.tick_physics (ops : FloatOps F) (g : Game F) (elapsed : F) : Game F :=
  (g.before_arena ops elapsed).arena_collisions

/-- The call `update(elapsed)` is cut short by an active grace period: the
grace period is running and still positive after the decrement, so `update`
returns early. -/
def Game.CutShort (g : Game F) (elapsed : F) : Prop :=
  0 < g.grace_period ∧ 0 < g.grace_period - elapsed

/-- The states reachable from the state `g0` by calls of `spawn_player` and
calls of `remove_player` on pointers handed out by `spawn_player` since then
and not yet removed; the list holds these live pointers. -/
inductive Game.ReachableFrom (g0 : Game F) : Game F → List PlayerRef → Prop where
  | start : Game.ReachableFrom g0 g0 []
  | spawn {g : Game F} {live : List PlayerRef} :
      Game.ReachableFrom g0 g live →
      Game.ReachableFrom g0 g.spawn_player.1 (g.spawn_player.2 :: live)
  | remove {g g' : Game F} {live : List PlayerRef} {p : PlayerRef} :
      Game.ReachableFrom g0 g live → p ∈ live → g.remove_player p = some g' →
      Game.ReachableFrom g0 g' (live.erase p)

/-- The states reachable from a freshly constructed game, whatever the memory
it is constructed in holds for the members `Game::Game()` does not initialise
(`Player::type` of both slots, `Puck::prev_pos`). -/
def Game.Reachable (g : Game F) (live : List PlayerRef) : Prop :=
  ∃ (type_0 type_1 : PlayerType) (prev_pos : Fin NUM_PUCKS → Vec2 F),
    Game.ReachableFrom (Game.construct type_0 type_1 prev_pos) g live

/-- The position of a puck satisfies the wall constraint: between the side
walls, and between the back walls unless its `x` is inside the goal mouth. -/
def Puck.WithinWalls (q : Puck F) : Prop :=
  ((ArenaMin : Vec2 F).x + (PuckRadius : F) ≤ q.position.x ∧
    q.position.x ≤ (ArenaMax : Vec2 F).x - (PuckRadius : F)) ∧
  ((q.position.x < -(GoalRadius : F) + (PuckRadius : F) ∨
      (GoalRadius : F) - (PuckRadius : F) < q.position.x) →
    (ArenaMin : Vec2 F).y + (PuckRadius : F) ≤ q.position.y ∧
    q.position.y ≤ (ArenaMax : Vec2 F).y - (PuckRadius : F))

/-- A state with players at home, idle and at rest, and the five pucks at rest
at one point with a recorded previous position. -/
def still_state (grace_period : F) (type_0 type_1 : PlayerType) (score_0 : Nat)
    (position prev_pos : Vec2 F) : Game F :=
  { pucks := List.replicate NUM_PUCKS
      { position := position, velocity := ⟨0, 0⟩, prev_pos := prev_pos, last_hit := NEUTRAL },
    player_0 := { controls := {}, position := ⟨0, -(175 / 100)⟩, velocity := ⟨0, 0⟩,
                  type := type_0, score := score_0 },
    player_1 := { controls := {}, position := ⟨0, 175 / 100⟩, velocity := ⟨0, 0⟩,
                  type := type_1, score := 0 },
    spectators := [],
    next_player := NEUTRAL,
    to_serve := PLAYER_0,
    grace_period := grace_period }

end TickVocabulary

section CollisionVocabulary

variable {F : Type} [LinearOrderedField F]

/-- A player at rest at the origin. -/
def origin_player : Player F :=
  { controls := {}, position := ⟨0, 0⟩, velocity := ⟨0, 0⟩, type := PLAYER_0, score := 0 }

/-- A puck at `(0, 0.1)` moving straight towards the origin at speed 1. -/
def incoming_puck : Puck F :=
  { position := ⟨0, 1 / 10⟩, velocity := ⟨0, -1⟩, prev_pos := ⟨0, 2 / 10⟩, last_hit := NEUTRAL }

end CollisionVocabulary

section SessionVocabulary

variable {F : Type}

/-- The bookkeeping of `spawn_player` / `remove_player` is consistent with the
list `live` of pointers handed out and not yet removed: each slot is vacant
(`NEUTRAL`) or occupied by its own player, it is occupied exactly when its
pointer is live, `next_player` is `NEUTRAL` exactly when both slots are
occupied and otherwise names a vacant slot, no pointer is live twice, and every
live spectator pointer is a node of the spectator list. -/
structure Game.SlotInvariant (g : Game F) (live : List PlayerRef) : Prop where
  type_0 : g.player_0.type = NEUTRAL ∨ g.player_0.type = PLAYER_0
  type_1 : g.player_1.type = NEUTRAL ∨ g.player_1.type = PLAYER_1
  next : g.next_player = NEUTRAL ∨ g.next_player = PLAYER_0 ∨ g.next_player = PLAYER_1
  full : g.next_player = NEUTRAL ↔ (g.player_0.type = PLAYER_0 ∧ g.player_1.type = PLAYER_1)
  vacant_0 : g.next_player = PLAYER_0 → g.player_0.type = NEUTRAL
  vacant_1 : g.next_player = PLAYER_1 → g.player_1.type = NEUTRAL
  live_0 : PlayerRef.player_0 ∈ live ↔ g.player_0.type = PLAYER_0
  live_1 : PlayerRef.player_1 ∈ live ↔ g.player_1.type = PLAYER_1
  nodup : live.Nodup
  nodes : ∀ node, PlayerRef.spectator node ∈ live → node ∈ g.spectators.map Prod.fst

end SessionVocabulary

section WallVocabulary

variable {F : Type} [LinearOrderedField F]

/-- The side-wall collisions at the start of the arena loop body of `update`. -/
def side_walls (puck : Puck F) : Puck F :=
  let puck : Puck F :=
    if puck.position.x < (ArenaMin : Vec2 F).x + (PuckRadius : F) then
      { puck with position := { puck.position with x := (ArenaMin : Vec2 F).x + (PuckRadius : F) },
                  velocity := { puck.velocity with x := abs puck.velocity.x } }
    else puck
  let puck : Puck F :=
    if puck.position.x > (ArenaMax : Vec2 F).x - (PuckRadius : F) then
      { puck with position := { puck.position with x := (ArenaMax : Vec2 F).x - (PuckRadius : F) },
                  velocity := { puck.velocity with x := -(abs puck.velocity.x) } }
    else puck
  puck

/-- The block `if (x_goal_min || x_goal_max)` of the arena loop body of
`update`, with the four booleans computed before it. -/
def back_walls (x_goal_min x_goal_max y_min y_max : Bool) (puck : Puck F) : Puck F :=
  if x_goal_min || x_goal_max then
    let puck : Puck F :=
      if y_min then
        { puck with position := { puck.position with y := (ArenaMin : Vec2 F).y + (PuckRadius : F) },
                    velocity := { puck.velocity with y := abs puck.velocity.y } }
      else puck
    let puck : Puck F :=
      if y_max then
        { puck with position := { puck.position with y := (ArenaMax : Vec2 F).y - (PuckRadius : F) },
                    velocity := { puck.velocity with y := -(abs puck.velocity.y) } }
      else puck
    puck
  else puck

/-- The block `if (y_min || y_max)` of the arena loop body of `update`, with
the four booleans computed before the back-wall block. -/
def goal_posts (x_goal_min x_goal_max y_min y_max : Bool) (puck : Puck F) : Puck F :=
  if y_min || y_max then
    let puck : Puck F :=
      if x_goal_min && decide (puck.prev_pos.x ≥ -(GoalRadius : F) + (PuckRadius : F)) then
        { puck with position := { puck.position with x := -(GoalRadius : F) + (PuckRadius : F) },
                    velocity := { puck.velocity with x := abs puck.velocity.x } }
      else puck
    let puck : Puck F :=
      if x_goal_max && decide (puck.prev_pos.x < (GoalRadius : F) - (PuckRadius : F)) then
        { puck with position := { puck.position with x := (GoalRadius : F) - (PuckRadius : F) },
                    velocity := { puck.velocity with x := -(abs puck.velocity.x) } }
      else puck
    puck
  else puck

end WallVocabulary

section ClampVocabulary

variable {F : Type} [LinearOrderedField F]

/-- What a clamp of `update_player` does to `before`, the player as it is just
before the player / arena collisions, in terms of `after`, the player as
`update_player` leaves it: a coordinate beyond a bound is put on the bound, and
the matching velocity component keeps its magnitude and does not point out of
the allowed region (not negative at a low bound, not positive at a high one). -/
def Player.ClampReflects (before after : Player F) (y_min y_max : F) : Prop :=
  (before.position.x < (ArenaMin : Vec2 F).x + (PlayerRadius : F) →
    after.position.x = (ArenaMin : Vec2 F).x + (PlayerRadius : F) ∧
    abs after.velocity.x = abs before.velocity.x ∧ 0 ≤ after.velocity.x) ∧
  (before.position.x > (ArenaMax : Vec2 F).x - (PlayerRadius : F) →
    after.position.x = (ArenaMax : Vec2 F).x - (PlayerRadius : F) ∧
    abs after.velocity.x = abs before.velocity.x ∧ after.velocity.x ≤ 0) ∧
  (before.position.y < y_min + (PlayerRadius : F) →
    after.position.y = y_min + (PlayerRadius : F) ∧
    abs after.velocity.y = abs before.velocity.y ∧ 0 ≤ after.velocity.y) ∧
  (before.position.y > y_max - (PlayerRadius : F) →
    after.position.y = y_max - (PlayerRadius : F) ∧
    abs after.velocity.y = abs before.velocity.y ∧ after.velocity.y ≤ 0)

/-- A player outside the rectangle on the low `x` and the high `y` side, moving
outwards, with no button held. -/
def stray_player : Player F :=
  { controls := {}, position := ⟨-5, 5⟩, velocity := ⟨-1, 1⟩, type := PLAYER_0, score := 0 }

end ClampVocabulary

/-! ## Client input -/

/-- Library type `SDL_Event` (SDL2, not among the sources), reduced to the
members `handle_event` reads: `type`, `key.repeat` and `key.keysym.sym`. -/
structure SDL_Event where
  type : Nat
  key_repeat : Nat
  key_sym : Int
deriving DecidableEq, Repr

/-- Library enumerator `SDL_KEYDOWN` (SDL2). -/
abbrev SDL_KEYDOWN : Nat := 0x300

/-- Library enumerator `SDL_KEYUP` (SDL2). -/
abbrev SDL_KEYUP : Nat := 0x301

/-- Library enumerator `SDLK_a` (SDL2): the character code of the key. -/
abbrev SDLK_a : Int := 97

/-- Library enumerator `SDLK_d` (SDL2). -/
abbrev SDLK_d : Int := 100

/-- Library enumerator `SDLK_w` (SDL2). -/
abbrev SDLK_w : Int := 119

/-- Library enumerator `SDLK_s` (SDL2). -/
abbrev SDLK_s : Int := 115

/-- Library enumerator `SDLK_SPACE` (SDL2). -/
abbrev SDLK_SPACE : Int := 32

/-- The statements `b.downs += 1; b.pressed = true;` on a `Button`: `downs` is a
`uint8_t`, so the sum is converted back to `uint8_t`. -/
def Button.key_down (b : Button) : Button :=
  let b : Button := { b with downs := toU8 (b.downs.val + 1) }
  { b with pressed := true }

/-- Member function `PlayMode::handle_event`, on the member `controls` (the only
member it touches; the parameter `window_size` is not used): the controls
after the call and the value returned. -/
def PlayMode.handle_event (controls : Controls) (evt : SDL_Event) : Controls × Bool :=
  if evt.type = SDL_KEYDOWN then
    if evt.key_repeat ≠ 0 then (controls, false)
    else if evt.key_sym = SDLK_a then ({ controls with left := controls.left.key_down }, true)
    else if evt.key_sym = SDLK_d then ({ controls with right := controls.right.key_down }, true)
    else if evt.key_sym = SDLK_w then ({ controls with up := controls.up.key_down }, true)
    else if evt.key_sym = SDLK_s then ({ controls with down := controls.down.key_down }, true)
    else if evt.key_sym = SDLK_SPACE then
      ({ controls with jump := controls.jump.key_down }, true)
    else (controls, false)
  else if evt.type = SDL_KEYUP then
    if evt.key_sym = SDLK_a then
      ({ controls with left := { controls.left with pressed := false } }, true)
    else if evt.key_sym = SDLK_d then
      ({ controls with right := { controls.right with pressed := false } }, true)
    else if evt.key_sym = SDLK_w then
      ({ controls with up := { controls.up with pressed := false } }, true)
    else if evt.key_sym = SDLK_s then
      ({ controls with down := { controls.down with pressed := false } }, true)
    else if evt.key_sym = SDLK_SPACE then
      ({ controls with jump := { controls.jump with pressed := false } }, true)
    else (controls, false)
  else (controls, false)

/-- Controls in which the `A` key has been tapped 255 times since the counters
were last cleared. -/
def tapped_out : Controls :=
  { left := { downs := 255, pressed := false } }

section DivisionVocabulary

variable {F : Type} [LinearOrderedField F]

/-- The call `check_collision(puck, player)` divides by zero: it gets past the
distance test with `dist == 0.0f`, so that `disp / dist` is `0 / 0`. -/
def check_collision_zero_divisor (ops : FloatOps F) (puck : Puck F) (player : Player F) : Bool :=
  let disp := player.position - puck.position
  let dist := ops.sqrt (glm.length2 disp)
  if dist > (PlayerRadius : F) + (PuckRadius : F) then false
  else decide (dist = 0)

/-- One of the calls of `check_collision` that the collision loop of `update`
makes, up to its `break`, divides by zero. -/
def collision_loop_zero_divisor (ops : FloatOps F) (player_0 player_1 : Player F) :
    List (Puck F) → Bool
  | [] => false
  | puck :: rest =>
    if check_collision_zero_divisor ops puck player_0 then true
    else if (check_collision ops puck player_0).1 then false
    else if check_collision_zero_divisor ops puck player_1 then true
    else if (check_collision ops puck player_1).1 then false
    else collision_loop_zero_divisor ops player_0 player_1 rest

/-- The physics of a tick run on `g` divides by zero in a call of
`check_collision`. -/
def Game.tick_zero_divisor (ops : FloatOps F) (g : Game F) (elapsed : F) : Bool :=
  collision_loop_zero_divisor ops
    (update_player ops g.player_0 elapsed Player0Min Player0Max)
    (update_player ops g.player_1 elapsed Player1Min Player1Max)
    (g.pucks.map (integrate_puck ops elapsed))

/-- The call `update(elapsed)` divides by zero in a call of `check_collision`
(it follows `Game.update` up to the collision loop). -/
def Game.update_zero_divisor (ops : FloatOps F) (g : Game F) (elapsed : F) : Bool :=
  let was_grace : Bool := g.grace_period > 0
  let g : Game F :=
    if was_grace then { g with grace_period := max 0 (g.grace_period - elapsed) } else g
  if g.grace_period > 0 then false
  else
    let g : Game F := if was_grace then g.reset g.to_serve else g
    g.tick_zero_divisor ops elapsed

end DivisionVocabulary

/-! # Theorems -/

/-! ## Bytes -/

theorem toU8_val (n : Nat) : (toU8 n).val = n % 256 := rfl

set_option maxRecDepth 100000 in
theorem byte_and_7f : ∀ b : Byte, (b.val &&& 0x7f) = b.val % 128 := by decide

set_option maxRecDepth 100000 in
theorem byte_and_80 : ∀ b : Byte, ((b.val &&& 0x80) != 0) = decide (128 ≤ b.val) := by decide

set_option maxRecDepth 100000 in
theorem byte_or_80 : ∀ b : Byte, (0x80 ||| (b.val &&& 0x7f)) = 128 + b.val % 128 := by decide

set_option maxRecDepth 100000 in
theorem byte_or_00 : ∀ b : Byte, (0x00 ||| (b.val &&& 0x7f)) = b.val % 128 := by decide

/-- The wire byte of a button, arithmetically. -/
theorem send_button_val (b : Button) :
    (send_button b).val = (if b.pressed then 128 else 0) + b.downs.val % 128 := by
  unfold send_button
  have := b.downs.isLt
  cases hp : b.pressed
  · simp only [Bool.false_eq_true, if_false, toU8_val, byte_or_00]; omega
  · simp only [if_true, toU8_val, byte_or_80]; omega

/-- What `recv_button` stores, arithmetically. -/
theorem recv_button_eq (byte : Byte) (button : Button) :
    recv_button byte button =
      { pressed := decide (128 ≤ byte.val),
        downs := toU8 (min 255 (button.downs.val + byte.val % 128)) } := by
  unfold recv_button
  simp only [byte_and_7f, byte_and_80]
  congr 2
  split <;> omega

/-- Decoding the byte of a button with at most 127 taps into a button with no
taps gives the button back. -/
theorem recv_send_button (b b0 : Button) (h : b.downs.val ≤ 127) (h0 : b0.downs = 0) :
    recv_button (send_button b) b0 = b := by
  rw [recv_button_eq, send_button_val, h0]
  obtain ⟨d, p⟩ := b
  simp only at h
  have hd : (0 : Byte).val = 0 := rfl
  cases p
  · simp only [Bool.false_eq_true, if_false, hd, Button.mk.injEq]
    refine ⟨?_, by simp; omega⟩
    apply Fin.ext
    rw [toU8_val]
    omega
  · simp only [if_true, hd, Button.mk.injEq]
    refine ⟨?_, by simp⟩
    apply Fin.ext
    rw [toU8_val]
    omega

/-! ## Control message -/

theorem send_controls_message_eq (c : Controls) (connection : Connection) :
    c.send_controls_message connection =
      { connection with send_buffer := connection.send_buffer ++ controls_frame c } := by
  simp [Controls.send_controls_message, Connection.send, controls_frame, toU8,
    Message.C2S_Controls]

/-- Decoding a buffer that starts with a complete control frame. -/
theorem recv_controls_message_frame (c : Controls) (sb : List Byte) (b0 b1 b2 b3 b4 : Byte)
    (rest : List Byte) :
    c.recv_controls_message ⟨sb, [1, 5, 0, 0, b0, b1, b2, b3, b4] ++ rest⟩ =
      .returned true
        ({ left := recv_button b0 c.left, right := recv_button b1 c.right,
           up := recv_button b2 c.up, down := recv_button b3 c.down,
           jump := recv_button b4 c.jump }, ⟨sb, rest⟩) := by
  have h5 : ((5 : Byte) : Nat) = 5 := rfl
  have h0 : ((0 : Byte) : Nat) = 0 := rfl
  have hlt : ¬ (rest.length + 1 + 1 + 1 + 1 + 1 + 1 + 1 + 1 + 1 < 4) := by omega
  have hlt9 : ¬ (rest.length + 1 + 1 + 1 + 1 + 1 + 1 + 1 + 1 + 1 < 4 + 5) := by omega
  simp [Controls.recv_controls_message, declared_size, Message.C2S_Controls, h5, h0, hlt, hlt9]

theorem declared_size_eq (recv_buffer : List Byte) :
    declared_size recv_buffer = declared_length recv_buffer := by
  unfold declared_size declared_length
  generalize recv_buffer.getD 1 0 = l0
  generalize recv_buffer.getD 2 0 = l1
  generalize recv_buffer.getD 3 0 = l2
  have h0 := l0.isLt
  have h1 := l1.isLt
  have h2 := l2.isLt
  rw [Nat.shiftLeft_eq, Nat.shiftLeft_eq]
  have e1 : l2.val * 2 ^ 16 ||| l1.val * 2 ^ 8 = 2 ^ 16 * l2.val + l1.val * 2 ^ 8 := by
    rw [Nat.mul_comm l2.val]
    exact (Nat.mul_add_lt_is_or (by omega) _).symm
  rw [e1]
  have e2 : 2 ^ 16 * l2.val + l1.val * 2 ^ 8 = 2 ^ 8 * (256 * l2.val + l1.val) := by omega
  rw [e2, ← Nat.mul_add_lt_is_or (by omega)]
  omega

/-- C1. Controls round trip: when every button of `c` has `downs ≤ 127`, the
bytes that `send_controls_message` appends, placed alone in a receive buffer
and decoded into controls whose five `downs` are 0, make
`recv_controls_message` return `true` with controls equal to `c` (same
`pressed` and `downs` for left, right, up, down, jump). -/
theorem C1_controls_round_trip (c c0 : Controls) (out : Connection) (sb : List Byte)
    (h : c.left.downs.val ≤ 127 ∧ c.right.downs.val ≤ 127 ∧ c.up.downs.val ≤ 127 ∧
      c.down.downs.val ≤ 127 ∧ c.jump.downs.val ≤ 127)
    (h0 : c0.left.downs = 0 ∧ c0.right.downs = 0 ∧ c0.up.downs = 0 ∧
      c0.down.downs = 0 ∧ c0.jump.downs = 0) :
    c0.recv_controls_message
        ⟨sb, (c.send_controls_message out).send_buffer.drop out.send_buffer.length⟩
      = .returned true (c, ⟨sb, []⟩) := by
  obtain ⟨hl, hr, hu, hd, hj⟩ := h
  obtain ⟨zl, zr, zu, zd, zj⟩ := h0
  rw [send_controls_message_eq]
  simp only [List.drop_left]
  have := recv_controls_message_frame c0 sb (send_button c.left) (send_button c.right)
    (send_button c.up) (send_button c.down) (send_button c.jump) []
  rw [List.append_nil] at this
  rw [controls_frame, this, recv_send_button _ _ hl zl, recv_send_button _ _ hr zr,
    recv_send_button _ _ hu zu, recv_send_button _ _ hd zd, recv_send_button _ _ hj zj]

/-- Witness of C1: controls with taps and held buttons, decoded into idle
controls. -/
theorem C1_controls_round_trip_witness :
    (sample_controls.left.downs.val ≤ 127 ∧ sample_controls.right.downs.val ≤ 127 ∧
      sample_controls.up.downs.val ≤ 127 ∧ sample_controls.down.downs.val ≤ 127 ∧
      sample_controls.jump.downs.val ≤ 127) ∧
    (idle_controls.left.downs = 0 ∧ idle_controls.right.downs = 0 ∧ idle_controls.up.downs = 0 ∧
      idle_controls.down.downs = 0 ∧ idle_controls.jump.downs = 0) ∧
    idle_controls.recv_controls_message
        ⟨[], (sample_controls.send_controls_message ⟨[7], []⟩).send_buffer.drop
          (⟨[7], []⟩ : Connection).send_buffer.length⟩
      = .returned true (sample_controls, ⟨[], []⟩) :=
  ⟨by decide, by decide,
   C1_controls_round_trip sample_controls idle_controls ⟨[7], []⟩ [] (by decide) (by decide)⟩

/-- The `uint8_t` conversion in `send_button` never truncates: the byte sent
is the number the format prescribes. -/
theorem send_button_val_eq_button_byte (b : Button) : (send_button b).val = button_byte b := by
  have h := send_button_val b
  unfold button_byte
  rw [h]
  cases b.pressed
  · simp only [Bool.false_eq_true, if_false, byte_or_00]; omega
  · simp only [if_true, byte_or_80]

/-- C9. Control frame layout: `send_controls_message` appends exactly nine
bytes to the outgoing buffer and touches nothing else of the connection: the
type byte 1, the length 5 as the three little-endian bytes 5, 0, 0, then one
byte for each of left, right, up, down, jump in this order, each with the value
`(pressed ? 0x80 : 0) | (downs & 0x7f)`.  The controls are an input only (the
member is `const`), so they are not modified. -/
theorem C9_control_frame_layout (c : Controls) (connection : Connection) :
    ∃ l r u d j : Byte,
      (c.send_controls_message connection).send_buffer
        = connection.send_buffer ++ [1, 5, 0, 0, l, r, u, d, j] ∧
      ((c.send_controls_message connection).send_buffer.drop connection.send_buffer.length).length
        = 9 ∧
      (c.send_controls_message connection).recv_buffer = connection.recv_buffer ∧
      l.val = button_byte c.left ∧ r.val = button_byte c.right ∧ u.val = button_byte c.up ∧
      d.val = button_byte c.down ∧ j.val = button_byte c.jump := by
  refine ⟨send_button c.left, send_button c.right, send_button c.up, send_button c.down,
    send_button c.jump, ?_, ?_, ?_, send_button_val_eq_button_byte _,
    send_button_val_eq_button_byte _, send_button_val_eq_button_byte _,
    send_button_val_eq_button_byte _, send_button_val_eq_button_byte _⟩
  · rw [send_controls_message_eq]; rfl
  · rw [send_controls_message_eq]; simp [controls_frame]
  · rw [send_controls_message_eq]

/-- C8. Control decode accumulates with saturation: decoding a complete
control frame with payload bytes `b0 .. b4` (followed by anything) into any
prior controls leaves each button with `downs = min(255, previous downs + low
seven bits of its byte)`, so without wrap-around, and with `pressed` equal to
the high bit of its byte, whatever the previous flag was. -/
theorem C8_control_decode_saturates (c : Controls) (sb : List Byte) (b0 b1 b2 b3 b4 : Byte)
    (rest : List Byte) :
    ∃ c' connection',
      c.recv_controls_message ⟨sb, [1, 5, 0, 0, b0, b1, b2, b3, b4] ++ rest⟩
        = .returned true (c', connection') ∧
      c'.left.downs.val = min 255 (c.left.downs.val + b0.val % 128) ∧
      c'.right.downs.val = min 255 (c.right.downs.val + b1.val % 128) ∧
      c'.up.downs.val = min 255 (c.up.downs.val + b2.val % 128) ∧
      c'.down.downs.val = min 255 (c.down.downs.val + b3.val % 128) ∧
      c'.jump.downs.val = min 255 (c.jump.downs.val + b4.val % 128) ∧
      c'.left.pressed = decide (128 ≤ b0.val) ∧
      c'.right.pressed = decide (128 ≤ b1.val) ∧
      c'.up.pressed = decide (128 ≤ b2.val) ∧
      c'.down.pressed = decide (128 ≤ b3.val) ∧
      c'.jump.pressed = decide (128 ≤ b4.val) := by
  refine ⟨_, _, recv_controls_message_frame c sb b0 b1 b2 b3 b4 rest, ?_⟩
  simp only [recv_button_eq, toU8_val, and_true]
  refine ⟨?_, ?_, ?_, ?_, ?_⟩ <;> omega

/-- C4. Malformed control frame: when at least four bytes are buffered, the
first is the `C2S_Controls` type byte and the declared length is not 5,
`recv_controls_message` throws (so it returns neither `true` nor `false`),
however many bytes follow the header, and the controls and the connection are
as before the call. -/
theorem C4_malformed_control_frame (c : Controls) (connection : Connection)
    (hlen : 4 ≤ connection.recv_buffer.length)
    (htype : connection.recv_buffer.head? = some 1)
    (hsize : declared_length connection.recv_buffer ≠ 5) :
    ∃ what, c.recv_controls_message connection = .threw what (c, connection) := by
  obtain ⟨sb, rb⟩ := connection
  simp only at hlen htype hsize
  match rb, hlen, htype, hsize with
  | t :: rest, hlen, htype, hsize =>
    simp only [List.head?_cons, Option.some.injEq] at htype
    subst htype
    refine ⟨"Controls message with size " ++ toString (declared_length (1 :: rest)) ++ " != 5!",
      ?_⟩
    unfold Controls.recv_controls_message
    simp only [declared_size_eq]
    rw [if_neg (by omega), if_neg (by simp [Message.C2S_Controls]), if_pos hsize]

/-- Witness of C4: a header announcing six bytes, with the six bytes present. -/
theorem C4_malformed_control_frame_witness :
    4 ≤ (⟨[], [1, 6, 0, 0, 9, 9, 9, 9, 9, 9]⟩ : Connection).recv_buffer.length ∧
    (⟨[], [1, 6, 0, 0, 9, 9, 9, 9, 9, 9]⟩ : Connection).recv_buffer.head? = some 1 ∧
    declared_length (⟨[], [1, 6, 0, 0, 9, 9, 9, 9, 9, 9]⟩ : Connection).recv_buffer ≠ 5 ∧
    ∃ what, sample_controls.recv_controls_message ⟨[], [1, 6, 0, 0, 9, 9, 9, 9, 9, 9]⟩
      = .threw what (sample_controls, ⟨[], [1, 6, 0, 0, 9, 9, 9, 9, 9, 9]⟩) :=
  ⟨by decide, by decide, by decide,
   C4_malformed_control_frame sample_controls ⟨[], [1, 6, 0, 0, 9, 9, 9, 9, 9, 9]⟩
     (by decide) (by decide) (by decide)⟩

/-! ## State message: representations -/

theorem leBytes_length (n v : Nat) : (leBytes n v).length = n := by
  induction n generalizing v with
  | zero => rfl
  | succ n ih => simp [leBytes, ih]

theorem ofLeBytes_leBytes (n v : Nat) : ofLeBytes (leBytes n v) = v % 256 ^ n := by
  induction n generalizing v with
  | zero => simp [leBytes, ofLeBytes, Nat.mod_one]
  | succ n ih =>
    simp only [leBytes, ofLeBytes, ih, toU8_val]
    rw [Nat.pow_succ, Nat.mul_comm (256 ^ n) 256, Nat.mod_mul]

theorem ofLeBytes_leBytes_of_lt (n v : Nat) (h : v < 256 ^ n) : ofLeBytes (leBytes n v) = v := by
  rw [ofLeBytes_leBytes, Nat.mod_eq_of_lt h]

theorem F32.length_toBytes (f : F32) : f.toBytes.length = 4 := rfl

theorem F32.ofBytes_toBytes4 (f : F32) : F32.ofBytes f.toBytes = f := rfl

theorem Vec2.length_toBytes8 (v : Vec2 F32) : v.toBytes.length = 8 := rfl

theorem Vec2.ofBytes_toBytes (v : Vec2 F32) : Vec2.ofBytes v.toBytes = v := rfl

theorem player_record_length (E : Nat) (p : Player F32) :
    (player_record E p).length = PLAYER_RECORD_SIZE E := by
  simp only [player_record, PLAYER_RECORD_SIZE, leBytes_length, Vec2.length_toBytes8,
    List.length_append]

theorem puck_record_length (E : Nat) (p : Puck F32) :
    (puck_record E p).length = PUCK_RECORD_SIZE E := by
  simp only [puck_record, PUCK_RECORD_SIZE, leBytes_length, Vec2.length_toBytes8,
    List.length_append]

theorem puck_records_length (E : Nat) (pucks : List (Puck F32)) :
    ((pucks.map (puck_record E)).flatten).length = pucks.length * PUCK_RECORD_SIZE E := by
  induction pucks with
  | nil => simp
  | cons p ps ih =>
    simp only [List.map_cons, List.flatten_cons, List.length_append, ih, puck_record_length,
      List.length_cons]
    rw [Nat.add_mul, Nat.one_mul, Nat.add_comm]

theorem state_payload_length (E : Nat) (g : Game F32) (h : g.pucks.length = NUM_PUCKS) :
    (state_payload E g).length = STATE_PAYLOAD_SIZE E := by
  simp only [state_payload, List.length_append, player_record_length, puck_records_length, h,
    F32.length_toBytes, STATE_PAYLOAD_SIZE]
  omega

/-! ## State message: encoder -/

theorem send_player_eq (E : Nat) (connection : Connection) (p : Player F32) :
    send_player E connection p =
      { connection with send_buffer := connection.send_buffer ++ player_record E p } := by
  simp [send_player, Connection.send, player_record, List.append_assoc]

theorem send_puck_eq (E : Nat) (connection : Connection) (p : Puck F32) :
    send_puck E connection p =
      { connection with send_buffer := connection.send_buffer ++ puck_record E p } := by
  simp [send_puck, Connection.send, puck_record, List.append_assoc]

theorem foldl_send_puck_eq (E : Nat) (pucks : List (Puck F32)) (connection : Connection) :
    pucks.foldl (send_puck E) connection =
      { connection with
        send_buffer := connection.send_buffer ++ (pucks.map (puck_record E)).flatten } := by
  induction pucks generalizing connection with
  | nil => simp
  | cons p ps ih => simp [List.foldl_cons, ih, send_puck_eq, List.append_assoc]

/-- The header bytes stay where `send_state_message` patches them. -/
theorem patch_header (sb payload : List Byte) (t z0 z1 z2 a b c : Byte) :
    (((sb ++ t :: z0 :: z1 :: z2 :: payload).set (sb.length + 4 - 3) a).set
      (sb.length + 4 - 2) b).set (sb.length + 4 - 1) c
      = sb ++ t :: a :: b :: c :: payload := by
  have e3 : sb.length + 4 - 3 = sb.length + 1 := by omega
  have e2 : sb.length + 4 - 2 = sb.length + 2 := by omega
  have e1 : sb.length + 4 - 1 = sb.length + 3 := by omega
  rw [e3, e2, e1]
  simp [List.set_append]

/-- The state frame `send_state_message` appends: type byte, the payload
length in three little-endian bytes, the payload. -/
theorem send_state_message_eq (E : Nat) (g : Game F32) (connection : Connection) :
    g.send_state_message E connection =
      { connection with
        send_buffer := connection.send_buffer ++
          Message.S2C_State :: toU8 ((state_payload E g).length % 2 ^ 32)
            :: toU8 (((state_payload E g).length % 2 ^ 32) >>> 8)
            :: toU8 (((state_payload E g).length % 2 ^ 32) >>> 16) :: state_payload E g } := by
  unfold Game.send_state_message
  simp only [send_player_eq, foldl_send_puck_eq, Connection.send]
  have hmark : (connection.send_buffer ++ [Message.S2C_State] ++ [toU8 0] ++ [toU8 0]
      ++ [toU8 0]).length = connection.send_buffer.length + 4 := by simp
  have hbuf : connection.send_buffer ++ [Message.S2C_State] ++ [toU8 0] ++ [toU8 0]
      ++ [toU8 0] ++ g.grace_period.toBytes ++ player_record E g.player_0
      ++ player_record E g.player_1 ++ (List.map (puck_record E) g.pucks).flatten
      = connection.send_buffer ++
        Message.S2C_State :: toU8 0 :: toU8 0 :: toU8 0 :: state_payload E g := by
    simp [state_payload, List.append_assoc]
  have hsz : (connection.send_buffer ++
      Message.S2C_State :: toU8 0 :: toU8 0 :: toU8 0 :: state_payload E g).length
      - (connection.send_buffer.length + 4) = (state_payload E g).length := by
    simp only [List.length_append, List.length_cons]
    omega
  rw [hmark, hbuf, hsz, patch_header]

/-! ## State message: decoder -/

theorem read_bytes_ok (buf : List Byte) (size at_ n : Nat) (h : at_ + n ≤ size) :
    read_bytes buf size at_ n = some (byte_range buf (4 + at_) n, at_ + n) := by
  unfold read_bytes byte_range
  rw [if_neg (by omega)]

theorem read_bytes_err (buf : List Byte) (size at_ n : Nat) (h : size < at_ + n) :
    read_bytes buf size at_ n = none := by
  unfold read_bytes
  rw [if_pos (by omega)]

theorem read_player_ok (E : Nat) (buf : List Byte) (size : Nat) (p : Player F32) (at_ : Nat)
    (h : at_ + PLAYER_RECORD_SIZE E ≤ size) :
    read_player E buf size p at_ =
      .ok (decode_player E buf p at_, at_ + PLAYER_RECORD_SIZE E) := by
  unfold PLAYER_RECORD_SIZE at h
  unfold read_player
  rw [read_bytes_ok _ _ _ _ (by omega : at_ + 8 ≤ size)]
  simp only
  rw [read_bytes_ok _ _ _ _ (by omega : at_ + 8 + 8 ≤ size)]
  simp only
  rw [read_bytes_ok _ _ _ _ (by omega : at_ + 8 + 8 + E ≤ size)]
  simp only
  rw [read_bytes_ok _ _ _ _ (by omega : at_ + 8 + 8 + E + 4 ≤ size)]
  simp only [decode_player, PLAYER_RECORD_SIZE]
  congr 2
  omega

theorem read_player_err (E : Nat) (buf : List Byte) (size : Nat) (p : Player F32) (at_ : Nat)
    (h : size < at_ + PLAYER_RECORD_SIZE E) :
    ∃ p', read_player E buf size p at_ = .error p' := by
  unfold PLAYER_RECORD_SIZE at h
  unfold read_player
  by_cases h0 : at_ + 8 ≤ size
  · rw [read_bytes_ok _ _ _ _ h0]
    simp only
    by_cases h1 : at_ + 8 + 8 ≤ size
    · rw [read_bytes_ok _ _ _ _ h1]
      simp only
      by_cases h2 : at_ + 8 + 8 + E ≤ size
      · rw [read_bytes_ok _ _ _ _ h2]
        simp only
        rw [read_bytes_err _ _ _ _ (by omega)]
        exact ⟨_, rfl⟩
      · rw [read_bytes_err _ _ _ _ (by omega)]
        exact ⟨_, rfl⟩
    · rw [read_bytes_err _ _ _ _ (by omega)]
      exact ⟨_, rfl⟩
  · rw [read_bytes_err _ _ _ _ (by omega)]
    exact ⟨_, rfl⟩

theorem read_puck_ok (E : Nat) (buf : List Byte) (size : Nat) (p : Puck F32) (at_ : Nat)
    (h : at_ + PUCK_RECORD_SIZE E ≤ size) :
    read_puck E buf size p at_ = .ok (decode_puck E buf p at_, at_ + PUCK_RECORD_SIZE E) := by
  unfold PUCK_RECORD_SIZE at h
  unfold read_puck
  rw [read_bytes_ok _ _ _ _ (by omega : at_ + 8 ≤ size)]
  simp only
  rw [read_bytes_ok _ _ _ _ (by omega : at_ + 8 + 8 ≤ size)]
  simp only
  rw [read_bytes_ok _ _ _ _ (by omega : at_ + 8 + 8 + E ≤ size)]
  simp only [decode_puck, PUCK_RECORD_SIZE]
  congr 2
  omega

theorem read_puck_err (E : Nat) (buf : List Byte) (size : Nat) (p : Puck F32) (at_ : Nat)
    (h : size < at_ + PUCK_RECORD_SIZE E) :
    ∃ p', read_puck E buf size p at_ = .error p' := by
  unfold PUCK_RECORD_SIZE at h
  unfold read_puck
  by_cases h0 : at_ + 8 ≤ size
  · rw [read_bytes_ok _ _ _ _ h0]
    simp only
    by_cases h1 : at_ + 8 + 8 ≤ size
    · rw [read_bytes_ok _ _ _ _ h1]
      simp only
      rw [read_bytes_err _ _ _ _ (by omega)]
      exact ⟨_, rfl⟩
    · rw [read_bytes_err _ _ _ _ (by omega)]
      exact ⟨_, rfl⟩
  · rw [read_bytes_err _ _ _ _ (by omega)]
    exact ⟨_, rfl⟩

theorem read_pucks_ok (E : Nat) (buf : List Byte) (size : Nat) (pucks : List (Puck F32))
    (at_ : Nat) (h : at_ + pucks.length * PUCK_RECORD_SIZE E ≤ size) :
    read_pucks E buf size pucks at_ =
      .ok (decode_pucks E buf pucks at_, at_ + pucks.length * PUCK_RECORD_SIZE E) := by
  induction pucks generalizing at_ with
  | nil => simp [read_pucks, decode_pucks]
  | cons p ps ih =>
    simp only [List.length_cons, Nat.add_mul, Nat.one_mul] at h
    unfold read_pucks
    rw [read_puck_ok _ _ _ _ _ (by omega)]
    simp only
    rw [ih _ (by omega)]
    simp only [decode_pucks, List.length_cons, Nat.add_mul, Nat.one_mul]
    congr 2
    omega

theorem read_pucks_err (E : Nat) (buf : List Byte) (size : Nat) (pucks : List (Puck F32))
    (at_ : Nat) (hat : at_ ≤ size) (h : size < at_ + pucks.length * PUCK_RECORD_SIZE E) :
    ∃ ps', read_pucks E buf size pucks at_ = .error ps' := by
  induction pucks generalizing at_ with
  | nil => simp at h; omega
  | cons p ps ih =>
    simp only [List.length_cons, Nat.add_mul, Nat.one_mul] at h
    unfold read_pucks
    by_cases hp : at_ + PUCK_RECORD_SIZE E ≤ size
    · rw [read_puck_ok _ _ _ _ _ hp]
      simp only
      obtain ⟨ps', hps⟩ := ih (at_ + PUCK_RECORD_SIZE E) hp (by omega)
      rw [hps]
      exact ⟨_, rfl⟩
    · obtain ⟨p', hp'⟩ := read_puck_err E buf size p at_ (by omega)
      rw [hp']
      exact ⟨_, rfl⟩

theorem read_state_ok (E : Nat) (buf : List Byte) (size : Nat) (g : Game F32)
    (hp : g.pucks.length = NUM_PUCKS) (h : STATE_PAYLOAD_SIZE E ≤ size) :
    read_state E buf size g = .ok (decode_state E buf g, STATE_PAYLOAD_SIZE E) := by
  unfold STATE_PAYLOAD_SIZE at h
  unfold read_state
  rw [read_bytes_ok _ _ _ _ (by omega : 0 + 4 ≤ size)]
  simp only
  rw [read_player_ok _ _ _ _ _ (by omega)]
  simp only
  rw [read_player_ok _ _ _ _ _ (by omega)]
  simp only
  rw [read_pucks_ok _ _ _ _ _ (by rw [hp]; omega)]
  simp only [decode_state, STATE_PAYLOAD_SIZE, hp]
  congr 2
  omega

theorem read_state_err (E : Nat) (buf : List Byte) (size : Nat) (g : Game F32)
    (hp : g.pucks.length = NUM_PUCKS) (h : size < STATE_PAYLOAD_SIZE E) :
    ∃ g', read_state E buf size g = .error g' := by
  unfold STATE_PAYLOAD_SIZE at h
  unfold read_state
  by_cases h0 : 0 + 4 ≤ size
  · rw [read_bytes_ok _ _ _ _ h0]
    simp only
    by_cases h1 : 0 + 4 + PLAYER_RECORD_SIZE E ≤ size
    · rw [read_player_ok _ _ _ _ _ h1]
      simp only
      by_cases h2 : 0 + 4 + PLAYER_RECORD_SIZE E + PLAYER_RECORD_SIZE E ≤ size
      · rw [read_player_ok _ _ _ _ _ h2]
        simp only
        obtain ⟨ps', hps⟩ := read_pucks_err E buf size g.pucks
          (0 + 4 + PLAYER_RECORD_SIZE E + PLAYER_RECORD_SIZE E) h2 (by rw [hp]; omega)
        rw [hps]
        exact ⟨_, rfl⟩
      · obtain ⟨p', hp'⟩ := read_player_err E buf size g.player_1
          (0 + 4 + PLAYER_RECORD_SIZE E) (by omega)
        rw [hp']
        exact ⟨_, rfl⟩
    · obtain ⟨p', hp'⟩ := read_player_err E buf size g.player_0 (0 + 4) (by omega)
      rw [hp']
      exact ⟨_, rfl⟩
  · rw [read_bytes_err _ _ _ _ (by omega)]
    exact ⟨_, rfl⟩

/-- The three ways `recv_state_message` ends once a complete frame of the
right type is buffered. -/
theorem recv_state_message_complete (E : Nat) (g : Game F32) (connection : Connection)
    (hp : g.pucks.length = NUM_PUCKS)
    (htype : connection.recv_buffer.head? = some Message.S2C_State)
    (hlen : 4 + declared_length connection.recv_buffer ≤ connection.recv_buffer.length) :
    (declared_length connection.recv_buffer = STATE_PAYLOAD_SIZE E →
      g.recv_state_message E connection = .returned true
        (decode_state E connection.recv_buffer g,
          { connection with
            recv_buffer := connection.recv_buffer.drop (4 + STATE_PAYLOAD_SIZE E) })) ∧
    (declared_length connection.recv_buffer < STATE_PAYLOAD_SIZE E →
      ∃ g', g.recv_state_message E connection
        = .threw "Ran out of bytes reading state message." (g', connection)) ∧
    (STATE_PAYLOAD_SIZE E < declared_length connection.recv_buffer →
      g.recv_state_message E connection
        = .threw "Trailing data in state message."
            (decode_state E connection.recv_buffer g, connection)) := by
  obtain ⟨sb, rb⟩ := connection
  simp only at htype hlen ⊢
  match rb, htype, hlen with
  | t :: rest, htype, hlen =>
    simp only [List.head?_cons, Option.some.injEq] at htype
    subst htype
    have hget : (Message.S2C_State :: rest).getD 0 0 = Message.S2C_State := rfl
    refine ⟨fun h => ?_, fun h => ?_, fun h => ?_⟩
    · unfold Game.recv_state_message
      simp only [declared_size_eq, hget]
      rw [if_neg (by omega), if_neg (by simp), if_neg (by omega),
        read_state_ok E _ _ g hp (by omega)]
      simp only
      rw [if_neg (by simp [h]), h]
    · obtain ⟨g', hg'⟩ := read_state_err E (Message.S2C_State :: rest)
        (declared_length (Message.S2C_State :: rest)) g hp h
      refine ⟨g', ?_⟩
      unfold Game.recv_state_message
      simp only [declared_size_eq, hget]
      rw [if_neg (by omega), if_neg (by simp), if_neg (by omega), hg']
    · unfold Game.recv_state_message
      simp only [declared_size_eq, hget]
      rw [if_neg (by omega), if_neg (by simp), if_neg (by omega),
        read_state_ok E _ _ g hp (by omega)]
      simp only
      rw [if_pos (by omega)]

/-- C6. State frame length check: when the buffer starts with the `S2C_State`
type byte and holds at least `4 + L` bytes, `L` being the declared length,
`recv_state_message` returns `true` exactly when `L` is the fixed size of the
state payload; for a smaller `L` it throws "Ran out of bytes reading state
message." and for a larger `L` it throws "Trailing data in state message.", so
it never returns `true` then. -/
theorem C6_state_frame_length_check (E : Nat) (g : Game F32) (connection : Connection)
    (hp : g.pucks.length = NUM_PUCKS)
    (htype : connection.recv_buffer.head? = some Message.S2C_State)
    (hlen : 4 + declared_length connection.recv_buffer ≤ connection.recv_buffer.length) :
    ((∃ s, g.recv_state_message E connection = .returned true s) ↔
      declared_length connection.recv_buffer = STATE_PAYLOAD_SIZE E) ∧
    (declared_length connection.recv_buffer < STATE_PAYLOAD_SIZE E →
      ∃ s, g.recv_state_message E connection
        = .threw "Ran out of bytes reading state message." s) ∧
    (STATE_PAYLOAD_SIZE E < declared_length connection.recv_buffer →
      ∃ s, g.recv_state_message E connection = .threw "Trailing data in state message." s) := by
  obtain ⟨hok, hshort, hlong⟩ := recv_state_message_complete E g connection hp htype hlen
  refine ⟨⟨fun ⟨s, hs⟩ => ?_, fun h => ⟨_, hok h⟩⟩, fun h => ?_, fun h => ⟨_, hlong h⟩⟩
  · rcases Nat.lt_trichotomy (declared_length connection.recv_buffer) (STATE_PAYLOAD_SIZE E)
      with h | h | h
    · obtain ⟨g', hg'⟩ := hshort h
      rw [hg'] at hs
      cases hs
    · exact h
    · rw [hlong h] at hs
      cases hs
  · obtain ⟨g', hg'⟩ := hshort h
    exact ⟨_, hg'⟩

/-- Witness of C6: a complete frame that declares three payload bytes. -/
theorem C6_state_frame_length_check_witness :
    blank_state.pucks.length = NUM_PUCKS ∧
    (⟨[], [115, 3, 0, 0, 1, 2, 3]⟩ : Connection).recv_buffer.head? = some Message.S2C_State ∧
    4 + declared_length (⟨[], [115, 3, 0, 0, 1, 2, 3]⟩ : Connection).recv_buffer
      ≤ (⟨[], [115, 3, 0, 0, 1, 2, 3]⟩ : Connection).recv_buffer.length ∧
    (((∃ s, blank_state.recv_state_message 4 ⟨[], [115, 3, 0, 0, 1, 2, 3]⟩ = .returned true s) ↔
      declared_length (⟨[], [115, 3, 0, 0, 1, 2, 3]⟩ : Connection).recv_buffer
        = STATE_PAYLOAD_SIZE 4) ∧
    (declared_length (⟨[], [115, 3, 0, 0, 1, 2, 3]⟩ : Connection).recv_buffer
        < STATE_PAYLOAD_SIZE 4 →
      ∃ s, blank_state.recv_state_message 4 ⟨[], [115, 3, 0, 0, 1, 2, 3]⟩
        = .threw "Ran out of bytes reading state message." s) ∧
    (STATE_PAYLOAD_SIZE 4
        < declared_length (⟨[], [115, 3, 0, 0, 1, 2, 3]⟩ : Connection).recv_buffer →
      ∃ s, blank_state.recv_state_message 4 ⟨[], [115, 3, 0, 0, 1, 2, 3]⟩
        = .threw "Trailing data in state message." s)) :=
  ⟨by decide, by decide, by decide,
   C6_state_frame_length_check 4 blank_state ⟨[], [115, 3, 0, 0, 1, 2, 3]⟩
     (by decide) (by decide) (by decide)⟩

/-- C5. No-message cases: each decoder returns `false` without throwing, and
leaves the buffer and the decoded-into object as they were, when fewer than 4
bytes are buffered, or the first byte is not its type byte, or the header is
well formed (for controls: declared length 5) but fewer than 4 + declared
length bytes are buffered; and whenever a decoder returns `false`, the
connection and the controls / game are exactly as before the call. -/
theorem C5_no_message_cases (E : Nat) (c : Controls) (g : Game F32) (connection : Connection) :
    ((connection.recv_buffer.length < 4 ∨
        connection.recv_buffer.head? ≠ some Message.C2S_Controls ∨
        (declared_length connection.recv_buffer = 5 ∧
          connection.recv_buffer.length < 4 + declared_length connection.recv_buffer)) →
      c.recv_controls_message connection = .returned false (c, connection)) ∧
    ((connection.recv_buffer.length < 4 ∨
        connection.recv_buffer.head? ≠ some Message.S2C_State ∨
        connection.recv_buffer.length < 4 + declared_length connection.recv_buffer) →
      g.recv_state_message E connection = .returned false (g, connection)) ∧
    (∀ s, c.recv_controls_message connection = .returned false s → s = (c, connection)) ∧
    (∀ s, g.recv_state_message E connection = .returned false s → s = (g, connection)) := by
  have hhead : ∀ (t : Byte), 4 ≤ connection.recv_buffer.length →
      (connection.recv_buffer.getD 0 0 ≠ t ↔ connection.recv_buffer.head? ≠ some t) := by
    intro t h4
    cases hb : connection.recv_buffer with
    | nil => rw [hb] at h4; simp at h4
    | cons a l => simp
  refine ⟨?_, ?_, ?_, ?_⟩
  · intro h
    unfold Controls.recv_controls_message
    simp only [declared_size_eq]
    by_cases h4 : connection.recv_buffer.length < 4
    · rw [if_pos h4]
    · rw [if_neg h4]
      by_cases ht : connection.recv_buffer.getD 0 0 ≠ Message.C2S_Controls
      · rw [if_pos ht]
      · rw [if_neg ht]
        rcases h with h | h | ⟨h5, h⟩
        · exact absurd h h4
        · exact absurd ((hhead _ (by omega)).mpr h) ht
        · rw [if_neg (by simp [h5]), if_pos h]
  · intro h
    unfold Game.recv_state_message
    simp only [declared_size_eq]
    by_cases h4 : connection.recv_buffer.length < 4
    · rw [if_pos h4]
    · rw [if_neg h4]
      by_cases ht : connection.recv_buffer.getD 0 0 ≠ Message.S2C_State
      · rw [if_pos ht]
      · rw [if_neg ht]
        rcases h with h | h | h
        · exact absurd h h4
        · exact absurd ((hhead _ (by omega)).mpr h) ht
        · rw [if_pos h]
  · intro s hs
    unfold Controls.recv_controls_message at hs
    simp only at hs
    split_ifs at hs <;> first | (cases hs; rfl) | cases hs
  · intro s hs
    unfold Game.recv_state_message at hs
    simp only at hs
    split_ifs at hs
    · cases hs; rfl
    · cases hs; rfl
    · cases hs; rfl
    · split at hs
      · cases hs
      · split_ifs at hs
        cases hs

/-- Witness of C5: five buffered bytes of a control frame are no message for
either decoder. -/
theorem C5_no_message_cases_witness :
    sample_controls.recv_controls_message ⟨[], [1, 5, 0, 0, 9]⟩
      = .returned false (sample_controls, ⟨[], [1, 5, 0, 0, 9]⟩) ∧
    blank_state.recv_state_message 4 ⟨[], [1, 5, 0, 0, 9]⟩
      = .returned false (blank_state, ⟨[], [1, 5, 0, 0, 9]⟩) :=
  ⟨(C5_no_message_cases 4 sample_controls blank_state ⟨[], [1, 5, 0, 0, 9]⟩).1 (by decide),
   (C5_no_message_cases 4 sample_controls blank_state ⟨[], [1, 5, 0, 0, 9]⟩).2.1 (by decide)⟩

/-! ## State message: round trip -/

theorem byte_range_of_drop (buf : List Byte) (start : Nat) (chunk tail : List Byte)
    (h : buf.drop start = chunk ++ tail) : byte_range buf start chunk.length = chunk := by
  unfold byte_range
  rw [h, List.take_left]

theorem drop_of_drop_append (buf : List Byte) (start : Nat) (chunk tail : List Byte)
    (h : buf.drop start = chunk ++ tail) : buf.drop (start + chunk.length) = tail := by
  rw [← List.drop_drop, h, List.drop_left]

theorem decode_player_record (E : Nat) (buf : List Byte) (p0 p : Player F32) (at_ : Nat)
    (tail : List Byte) (h : buf.drop (4 + at_) = player_record E p ++ tail)
    (ht : p.type < 256 ^ E) (hs : p.score < 2 ^ 32) :
    decode_player E buf p0 at_ = p0.with_wire p := by
  have h1 : buf.drop (4 + at_) = p.position.toBytes ++
      (p.velocity.toBytes ++ (leBytes E p.type ++ (leBytes 4 p.score ++ tail))) := by
    rw [h]; simp [player_record, List.append_assoc]
  have h2 : buf.drop (4 + (at_ + 8)) =
      p.velocity.toBytes ++ (leBytes E p.type ++ (leBytes 4 p.score ++ tail)) := by
    have := drop_of_drop_append _ _ _ _ h1
    rwa [Vec2.length_toBytes8, Nat.add_assoc] at this
  have h3 : buf.drop (4 + (at_ + 8 + 8)) = leBytes E p.type ++ (leBytes 4 p.score ++ tail) := by
    have := drop_of_drop_append _ _ _ _ h2
    rwa [Vec2.length_toBytes8, Nat.add_assoc] at this
  have h4 : buf.drop (4 + (at_ + 8 + 8 + E)) = leBytes 4 p.score ++ tail := by
    have := drop_of_drop_append _ _ _ _ h3
    rwa [leBytes_length, Nat.add_assoc] at this
  have r1 := byte_range_of_drop _ _ _ _ h1
  have r2 := byte_range_of_drop _ _ _ _ h2
  have r3 := byte_range_of_drop _ _ _ _ h3
  have r4 := byte_range_of_drop _ _ _ _ h4
  rw [Vec2.length_toBytes8] at r1 r2
  rw [leBytes_length] at r3 r4
  unfold decode_player Player.with_wire
  rw [r1, r2, r3, r4, Vec2.ofBytes_toBytes, Vec2.ofBytes_toBytes,
    ofLeBytes_leBytes_of_lt _ _ ht, ofLeBytes_leBytes_of_lt _ _ (by simpa using hs)]

theorem decode_puck_record (E : Nat) (buf : List Byte) (q0 q : Puck F32) (at_ : Nat)
    (tail : List Byte) (h : buf.drop (4 + at_) = puck_record E q ++ tail)
    (ht : q.last_hit < 256 ^ E) :
    decode_puck E buf q0 at_ = q0.with_wire q := by
  have h1 : buf.drop (4 + at_) = q.position.toBytes ++
      (q.velocity.toBytes ++ (leBytes E q.last_hit ++ tail)) := by
    rw [h]; simp [puck_record, List.append_assoc]
  have h2 : buf.drop (4 + (at_ + 8)) = q.velocity.toBytes ++ (leBytes E q.last_hit ++ tail) := by
    have := drop_of_drop_append _ _ _ _ h1
    rwa [Vec2.length_toBytes8, Nat.add_assoc] at this
  have h3 : buf.drop (4 + (at_ + 8 + 8)) = leBytes E q.last_hit ++ tail := by
    have := drop_of_drop_append _ _ _ _ h2
    rwa [Vec2.length_toBytes8, Nat.add_assoc] at this
  have r1 := byte_range_of_drop _ _ _ _ h1
  have r2 := byte_range_of_drop _ _ _ _ h2
  have r3 := byte_range_of_drop _ _ _ _ h3
  rw [Vec2.length_toBytes8] at r1 r2
  rw [leBytes_length] at r3
  unfold decode_puck Puck.with_wire
  rw [r1, r2, r3, Vec2.ofBytes_toBytes, Vec2.ofBytes_toBytes, ofLeBytes_leBytes_of_lt _ _ ht]

theorem decode_pucks_records (E : Nat) (buf : List Byte) (qs0 qs : List (Puck F32)) (at_ : Nat)
    (tail : List Byte) (hl : qs0.length = qs.length)
    (h : buf.drop (4 + at_) = (qs.map (puck_record E)).flatten ++ tail)
    (ht : ∀ q ∈ qs, q.last_hit < 256 ^ E) :
    decode_pucks E buf qs0 at_ = List.zipWith Puck.with_wire qs0 qs := by
  induction qs0 generalizing qs at_ with
  | nil => simp [decode_pucks]
  | cons q0 qs0 ih =>
    match qs, hl, h, ht with
    | q :: qs, hl, h, ht =>
      simp only [List.map_cons, List.flatten_cons, List.append_assoc] at h
      have hnext := drop_of_drop_append _ _ _ _ h
      rw [puck_record_length, Nat.add_assoc] at hnext
      simp only [decode_pucks, List.zipWith_cons_cons]
      rw [decode_puck_record E buf q0 q at_ _ h (ht q (List.mem_cons_self _ _)),
        ih qs (at_ + PUCK_RECORD_SIZE E) (by simpa using hl) hnext
          (fun q' hq' => ht q' (List.mem_cons_of_mem _ hq'))]

theorem decode_state_payload (E : Nat) (buf : List Byte) (g0 g : Game F32) (tail : List Byte)
    (hl : g0.pucks.length = NUM_PUCKS) (hg : g.Representable E)
    (h : buf.drop 4 = state_payload E g ++ tail) :
    decode_state E buf g0 =
      { g0 with
        grace_period := g.grace_period,
        player_0 := g0.player_0.with_wire g.player_0,
        player_1 := g0.player_1.with_wire g.player_1,
        pucks := List.zipWith Puck.with_wire g0.pucks g.pucks } := by
  obtain ⟨hn, ht0, ht1, hs0, hs1, hq⟩ := hg
  have h0 : buf.drop (4 + 0) = g.grace_period.toBytes ++ (player_record E g.player_0 ++
      (player_record E g.player_1 ++ ((g.pucks.map (puck_record E)).flatten ++ tail))) := by
    rw [Nat.add_zero, h]; simp [state_payload, List.append_assoc]
  have h1 : buf.drop (4 + 4) = player_record E g.player_0 ++
      (player_record E g.player_1 ++ ((g.pucks.map (puck_record E)).flatten ++ tail)) := by
    have := drop_of_drop_append _ _ _ _ h0
    rwa [F32.length_toBytes] at this
  have h2 : buf.drop (4 + (4 + PLAYER_RECORD_SIZE E)) = player_record E g.player_1 ++
      ((g.pucks.map (puck_record E)).flatten ++ tail) := by
    have := drop_of_drop_append _ _ _ _ h1
    rwa [player_record_length, Nat.add_assoc] at this
  have h3 : buf.drop (4 + (4 + PLAYER_RECORD_SIZE E + PLAYER_RECORD_SIZE E)) =
      (g.pucks.map (puck_record E)).flatten ++ tail := by
    have := drop_of_drop_append _ _ _ _ h2
    rwa [player_record_length, Nat.add_assoc] at this
  have r0 := byte_range_of_drop _ _ _ _ h0
  rw [F32.length_toBytes] at r0
  unfold decode_state
  rw [r0, F32.ofBytes_toBytes4, decode_player_record E buf _ _ _ _ h1 ht0 hs0,
    decode_player_record E buf _ _ _ _ h2 ht1 hs1,
    decode_pucks_records E buf _ _ _ _ (by rw [hl, hn]) h3 hq]

theorem header_length_bytes (n : Nat) (h : n < 2 ^ 24) :
    (toU8 (n % 2 ^ 32)).val + 256 * (toU8 ((n % 2 ^ 32) >>> 8)).val
      + 65536 * (toU8 ((n % 2 ^ 32) >>> 16)).val = n := by
  simp only [toU8_val, Nat.shiftRight_eq_div_pow]
  omega

theorem zipWith_with_wire_fields (qs0 qs : List (Puck F32)) (hl : qs0.length = qs.length) :
    (List.zipWith Puck.with_wire qs0 qs).map (fun q => (q.position, q.velocity, q.last_hit))
      = qs.map (fun q => (q.position, q.velocity, q.last_hit)) := by
  induction qs0 generalizing qs with
  | nil =>
    cases qs with
    | nil => rfl
    | cons q qs => simp at hl
  | cons q0 qs0 ih =>
    cases qs with
    | nil => simp at hl
    | cons q qs =>
      simp only [List.zipWith_cons_cons, List.map_cons, List.cons.injEq]
      exact ⟨rfl, ih qs (by simpa using hl)⟩

/-- Decoding a buffer that starts with the frame `send_state_message` produces. -/
theorem recv_state_message_sent (E : Nat) (g g0 : Game F32) (sb rest : List Byte)
    (out : Connection) (hE : STATE_PAYLOAD_SIZE E < 2 ^ 24) (hg : g.Representable E)
    (hl : g0.pucks.length = NUM_PUCKS) :
    g0.recv_state_message E
        ⟨sb, (g.send_state_message E out).send_buffer.drop out.send_buffer.length ++ rest⟩
      = .returned true
          ({ g0 with
              grace_period := g.grace_period,
              player_0 := g0.player_0.with_wire g.player_0,
              player_1 := g0.player_1.with_wire g.player_1,
              pucks := List.zipWith Puck.with_wire g0.pucks g.pucks }, ⟨sb, rest⟩) := by
  have hlen := state_payload_length E g hg.1
  rw [send_state_message_eq]
  simp only [List.drop_left, List.cons_append]
  rw [hlen]
  have hdecl : declared_length
      (Message.S2C_State :: toU8 (STATE_PAYLOAD_SIZE E % 2 ^ 32)
        :: toU8 ((STATE_PAYLOAD_SIZE E % 2 ^ 32) >>> 8)
        :: toU8 ((STATE_PAYLOAD_SIZE E % 2 ^ 32) >>> 16) :: (state_payload E g ++ rest))
      = STATE_PAYLOAD_SIZE E := by
    simp only [declared_length, List.getD_cons_succ, List.getD_cons_zero]
    exact header_length_bytes _ hE
  have hcase := (recv_state_message_complete E g0
    ⟨sb, Message.S2C_State :: toU8 (STATE_PAYLOAD_SIZE E % 2 ^ 32)
        :: toU8 ((STATE_PAYLOAD_SIZE E % 2 ^ 32) >>> 8)
        :: toU8 ((STATE_PAYLOAD_SIZE E % 2 ^ 32) >>> 16) :: (state_payload E g ++ rest)⟩ hl rfl
    (by
      simp only [hdecl, List.length_cons, List.length_append, hlen]
      omega)).1 hdecl
  simp only at hcase
  rw [hcase, decode_state_payload E _ g0 g rest hl hg (by simp)]
  congr 2
  have : 4 + STATE_PAYLOAD_SIZE E = STATE_PAYLOAD_SIZE E + 4 := by omega
  rw [this, List.drop_succ_cons, List.drop_succ_cons, List.drop_succ_cons, List.drop_succ_cons,
    ← hlen, List.drop_left]

/-- C2. State round trip: for every game `g` (five pucks, integer fields within
their types), decoding with `recv_state_message` the bytes that
`send_state_message` appends, as the whole receive buffer, returns `true`,
empties the buffer, and leaves the receiving game with the `grace_period` of
`g`, the position, velocity, type and score of `player_0` and of `player_1`, and
the position, velocity and `last_hit` of each of the five pucks in storage
order; floats are compared as bit patterns. -/
theorem C2_state_round_trip (E : Nat) (g g0 : Game F32) (sb : List Byte) (out : Connection)
    (hE : STATE_PAYLOAD_SIZE E < 2 ^ 24) (hg : g.Representable E)
    (hl : g0.pucks.length = NUM_PUCKS) :
    ∃ g', g0.recv_state_message E
        ⟨sb, (g.send_state_message E out).send_buffer.drop out.send_buffer.length⟩
        = .returned true (g', ⟨sb, []⟩) ∧
      g'.grace_period = g.grace_period ∧
      g'.player_0.position = g.player_0.position ∧
      g'.player_0.velocity = g.player_0.velocity ∧
      g'.player_0.type = g.player_0.type ∧
      g'.player_0.score = g.player_0.score ∧
      g'.player_1.position = g.player_1.position ∧
      g'.player_1.velocity = g.player_1.velocity ∧
      g'.player_1.type = g.player_1.type ∧
      g'.player_1.score = g.player_1.score ∧
      g'.pucks.length = NUM_PUCKS ∧
      g'.pucks.map (fun q => (q.position, q.velocity, q.last_hit))
        = g.pucks.map (fun q => (q.position, q.velocity, q.last_hit)) := by
  have h := recv_state_message_sent E g g0 sb [] out hE hg hl
  rw [List.append_nil] at h
  refine ⟨_, h, rfl, rfl, rfl, rfl, rfl, rfl, rfl, rfl, rfl, ?_, ?_⟩
  · simp only [List.length_zipWith, hl, hg.1, Nat.min_self]
  · exact zipWith_with_wire_fields _ _ (by rw [hl, hg.1])

/-- Witness of C2: a sample state sent on a connection that already holds two
outgoing bytes, decoded into a blank game, with `sizeof(PlayerType) = 4`. -/
theorem C2_state_round_trip_witness :
    STATE_PAYLOAD_SIZE 4 < 2 ^ 24 ∧ sample_state.Representable 4 ∧
    blank_state.pucks.length = NUM_PUCKS ∧
    ∃ g', blank_state.recv_state_message 4
        ⟨[], (sample_state.send_state_message 4 ⟨[1, 2], []⟩).send_buffer.drop
          (⟨[1, 2], []⟩ : Connection).send_buffer.length⟩
        = .returned true (g', ⟨[], []⟩) ∧
      g'.grace_period = sample_state.grace_period ∧
      g'.player_0.position = sample_state.player_0.position ∧
      g'.player_0.velocity = sample_state.player_0.velocity ∧
      g'.player_0.type = sample_state.player_0.type ∧
      g'.player_0.score = sample_state.player_0.score ∧
      g'.player_1.position = sample_state.player_1.position ∧
      g'.player_1.velocity = sample_state.player_1.velocity ∧
      g'.player_1.type = sample_state.player_1.type ∧
      g'.player_1.score = sample_state.player_1.score ∧
      g'.pucks.length = NUM_PUCKS ∧
      g'.pucks.map (fun q => (q.position, q.velocity, q.last_hit))
        = sample_state.pucks.map (fun q => (q.position, q.velocity, q.last_hit)) :=
  ⟨by decide, by decide, by decide,
   C2_state_round_trip 4 sample_state blank_state [] ⟨[1, 2], []⟩
     (by decide) (by decide) (by decide)⟩

/-! ## Frames are consumed one at a time -/

theorem byte_range_append_left (a b : List Byte) (start n : Nat) (h : start + n ≤ a.length) :
    byte_range (a ++ b) start n = byte_range a start n := by
  unfold byte_range
  rw [List.drop_append_of_le_length (by omega),
    List.take_append_of_le_length (by rw [List.length_drop]; omega)]

theorem decode_player_append (E : Nat) (a b : List Byte) (p : Player F32) (at_ : Nat)
    (h : 4 + (at_ + PLAYER_RECORD_SIZE E) ≤ a.length) :
    decode_player E (a ++ b) p at_ = decode_player E a p at_ := by
  unfold PLAYER_RECORD_SIZE at h
  unfold decode_player
  rw [byte_range_append_left _ _ _ _ (by omega), byte_range_append_left _ _ _ _ (by omega),
    byte_range_append_left _ _ _ _ (by omega), byte_range_append_left _ _ _ _ (by omega)]

theorem decode_puck_append (E : Nat) (a b : List Byte) (q : Puck F32) (at_ : Nat)
    (h : 4 + (at_ + PUCK_RECORD_SIZE E) ≤ a.length) :
    decode_puck E (a ++ b) q at_ = decode_puck E a q at_ := by
  unfold PUCK_RECORD_SIZE at h
  unfold decode_puck
  rw [byte_range_append_left _ _ _ _ (by omega), byte_range_append_left _ _ _ _ (by omega),
    byte_range_append_left _ _ _ _ (by omega)]

theorem decode_pucks_append (E : Nat) (a b : List Byte) (qs : List (Puck F32)) (at_ : Nat)
    (h : 4 + (at_ + qs.length * PUCK_RECORD_SIZE E) ≤ a.length) :
    decode_pucks E (a ++ b) qs at_ = decode_pucks E a qs at_ := by
  induction qs generalizing at_ with
  | nil => rfl
  | cons q qs ih =>
    simp only [List.length_cons, Nat.add_mul, Nat.one_mul] at h
    simp only [decode_pucks]
    rw [decode_puck_append _ _ _ _ _ (by omega), ih _ (by omega)]

theorem decode_pucks_length (E : Nat) (buf : List Byte) (qs : List (Puck F32)) (at_ : Nat) :
    (decode_pucks E buf qs at_).length = qs.length := by
  induction qs generalizing at_ with
  | nil => rfl
  | cons q qs ih => simp [decode_pucks, ih]

theorem decode_state_append (E : Nat) (a b : List Byte) (g : Game F32)
    (hp : g.pucks.length = NUM_PUCKS) (h : 4 + STATE_PAYLOAD_SIZE E ≤ a.length) :
    decode_state E (a ++ b) g = decode_state E a g := by
  unfold STATE_PAYLOAD_SIZE at h
  unfold decode_state
  rw [byte_range_append_left _ _ _ _ (by omega), decode_player_append _ _ _ _ _ (by omega),
    decode_player_append _ _ _ _ _ (by omega),
    decode_pucks_append _ _ _ _ _ (by rw [hp]; omega)]

theorem controls_frame_bytes (frame : List Byte) (h : IsControlsFrame frame) :
    ∃ b0 b1 b2 b3 b4 : Byte, frame = [1, 5, 0, 0, b0, b1, b2, b3, b4] := by
  obtain ⟨ht, hd, hl⟩ := h
  match frame, ht, hd, hl with
  | [t, l0, l1, l2, b0, b1, b2, b3, b4], ht, hd, hl =>
    simp only [List.head?_cons, Option.some.injEq] at ht
    simp only [declared_length, List.getD_cons_succ, List.getD_cons_zero] at hd
    have h0 := l0.isLt
    have h1 := l1.isLt
    have h2 := l2.isLt
    have e0 : l0 = 5 := Fin.ext (by show l0.val = 5; omega)
    have e1 : l1 = 0 := Fin.ext (by show l1.val = 0; omega)
    have e2 : l2 = 0 := Fin.ext (by show l2.val = 0; omega)
    subst ht e0 e1 e2
    exact ⟨b0, b1, b2, b3, b4, rfl⟩

/-- A state frame at the front of the buffer is decoded and removed, whatever
follows it, and what it decodes to does not depend on what follows. -/
theorem recv_state_message_frame (E : Nat) (g : Game F32) (sb frame rest : List Byte)
    (hp : g.pucks.length = NUM_PUCKS) (hf : IsStateFrame E frame) :
    g.recv_state_message E ⟨sb, frame ++ rest⟩
      = .returned true (decode_state E frame g, ⟨sb, rest⟩) := by
  obtain ⟨ht, hd, hl⟩ := hf
  have hne : frame ≠ [] := by
    intro h; rw [h] at ht; simp at ht
  have hhead : (frame ++ rest).head? = some Message.S2C_State := by
    rw [List.head?_append, ht]; rfl
  have hdecl : declared_length (frame ++ rest) = declared_length frame := by
    unfold declared_length
    rw [List.getD_append _ _ _ _ (by omega), List.getD_append _ _ _ _ (by omega),
      List.getD_append _ _ _ _ (by omega)]
  have hcase := (recv_state_message_complete E g ⟨sb, frame ++ rest⟩ hp hhead
    (by simp only [hdecl, hd, List.length_append, hl]; omega)).1 (by rw [hdecl, hd])
  rw [hcase, decode_state_append E _ _ g hp (by omega)]
  congr 2
  simp only
  rw [← hl, List.drop_left]

/-- C7. A successful decode consumes exactly one frame: with a complete
well-formed control frame (respectively state frame) at the front of the
buffer and any bytes `rest` behind it, the decoder returns `true` and leaves
the buffer equal to `rest`; so with two frames back to back the first call
decodes the first frame (to the same result as if it stood alone) and leaves
the second frame and `rest`, and the second call decodes the second frame and
leaves `rest`. -/
theorem C7_decode_consumes_one_frame (E : Nat) (c : Controls) (g : Game F32)
    (sb cf1 cf2 sf1 sf2 rest : List Byte) (hp : g.pucks.length = NUM_PUCKS)
    (hcf1 : IsControlsFrame cf1) (hcf2 : IsControlsFrame cf2)
    (hsf1 : IsStateFrame E sf1) (hsf2 : IsStateFrame E sf2) :
    (∃ c1 c2,
      c.recv_controls_message ⟨sb, cf1 ++ rest⟩ = .returned true (c1, ⟨sb, rest⟩) ∧
      c.recv_controls_message ⟨sb, cf1 ++ (cf2 ++ rest)⟩
        = .returned true (c1, ⟨sb, cf2 ++ rest⟩) ∧
      c1.recv_controls_message ⟨sb, cf2 ++ rest⟩ = .returned true (c2, ⟨sb, rest⟩)) ∧
    (∃ g1 g2,
      g.recv_state_message E ⟨sb, sf1 ++ rest⟩ = .returned true (g1, ⟨sb, rest⟩) ∧
      g.recv_state_message E ⟨sb, sf1 ++ (sf2 ++ rest)⟩
        = .returned true (g1, ⟨sb, sf2 ++ rest⟩) ∧
      g1.recv_state_message E ⟨sb, sf2 ++ rest⟩ = .returned true (g2, ⟨sb, rest⟩)) := by
  constructor
  · obtain ⟨a0, a1, a2, a3, a4, rfl⟩ := controls_frame_bytes cf1 hcf1
    obtain ⟨b0, b1, b2, b3, b4, rfl⟩ := controls_frame_bytes cf2 hcf2
    exact ⟨_, _, recv_controls_message_frame c sb a0 a1 a2 a3 a4 rest,
      recv_controls_message_frame c sb a0 a1 a2 a3 a4 _,
      recv_controls_message_frame _ sb b0 b1 b2 b3 b4 rest⟩
  · have hp1 : (decode_state E sf1 g).pucks.length = NUM_PUCKS := by
      simp only [decode_state, decode_pucks_length, hp]
    exact ⟨_, _, recv_state_message_frame E g sb sf1 rest hp hsf1,
      recv_state_message_frame E g sb sf1 _ hp hsf1,
      recv_state_message_frame E _ sb sf2 rest hp1 hsf2⟩

set_option maxRecDepth 100000 in
/-- Witness of C7: two different control frames and two different state frames,
followed by three stray bytes. -/
theorem C7_decode_consumes_one_frame_witness :
    blank_state.pucks.length = NUM_PUCKS ∧
    IsControlsFrame (controls_frame sample_controls) ∧
    IsControlsFrame (controls_frame idle_controls) ∧
    IsStateFrame 4 sample_state_frame ∧ IsStateFrame 4 blank_state_frame ∧
    (∃ c1 c2,
      idle_controls.recv_controls_message ⟨[], controls_frame sample_controls ++ [7, 8, 9]⟩
        = .returned true (c1, ⟨[], [7, 8, 9]⟩) ∧
      idle_controls.recv_controls_message
          ⟨[], controls_frame sample_controls ++ (controls_frame idle_controls ++ [7, 8, 9])⟩
        = .returned true (c1, ⟨[], controls_frame idle_controls ++ [7, 8, 9]⟩) ∧
      c1.recv_controls_message ⟨[], controls_frame idle_controls ++ [7, 8, 9]⟩
        = .returned true (c2, ⟨[], [7, 8, 9]⟩)) ∧
    (∃ g1 g2,
      blank_state.recv_state_message 4 ⟨[], sample_state_frame ++ [7, 8, 9]⟩
        = .returned true (g1, ⟨[], [7, 8, 9]⟩) ∧
      blank_state.recv_state_message 4 ⟨[], sample_state_frame ++ (blank_state_frame ++ [7, 8, 9])⟩
        = .returned true (g1, ⟨[], blank_state_frame ++ [7, 8, 9]⟩) ∧
      g1.recv_state_message 4 ⟨[], blank_state_frame ++ [7, 8, 9]⟩
        = .returned true (g2, ⟨[], [7, 8, 9]⟩)) :=
  ⟨by decide, by decide, by decide, by decide, by decide,
   C7_decode_consumes_one_frame 4 idle_controls blank_state [] (controls_frame sample_controls)
     (controls_frame idle_controls) sample_state_frame blank_state_frame [7, 8, 9]
     (by decide) (by decide) (by decide) (by decide) (by decide)⟩

/-! ## Session manager -/

section Session

variable {F : Type} [LinearOrderedField F]

/-- C3. Slot assignment scenario: on a freshly constructed game with both slots
vacant (and `next_player = PLAYER_0`), the first `spawn_player()` returns the
`player_0` slot with type `PLAYER_0`, the second the distinct `player_1` slot
with type `PLAYER_1`, the third a newly appended spectator with type `NEUTRAL`;
after `remove_player` on the `player_0` slot the next `spawn_player()` returns
the `player_0` slot again, with type `PLAYER_0`. -/
theorem C3_slot_assignment_scenario (prev_pos : Fin NUM_PUCKS → Vec2 F) :
    ∃ (g1 g2 g3 g4 g5 : Game F) (node : Nat) (spectator : Player F),
      (Game.construct NEUTRAL NEUTRAL prev_pos).next_player = PLAYER_0 ∧
      (Game.construct NEUTRAL NEUTRAL prev_pos).spawn_player = (g1, .player_0) ∧
      g1.deref .player_0 = some g1.player_0 ∧ g1.player_0.type = PLAYER_0 ∧
      g1.spawn_player = (g2, .player_1) ∧
      g2.deref .player_1 = some g2.player_1 ∧ g2.player_1.type = PLAYER_1 ∧
      PlayerRef.player_0 ≠ PlayerRef.player_1 ∧
      g2.player_0.type = PLAYER_0 ∧
      g2.spawn_player = (g3, .spectator node) ∧
      g3.spectators = g2.spectators ++ [(node, spectator)] ∧
      (∀ s ∈ g2.spectators, s.1 ≠ node) ∧
      g3.deref (.spectator node) = some spectator ∧ spectator.type = NEUTRAL ∧
      g3.player_0.type = PLAYER_0 ∧ g3.player_1.type = PLAYER_1 ∧
      g3.remove_player .player_0 = some g4 ∧
      g4.spawn_player = (g5, .player_0) ∧
      g5.deref .player_0 = some g5.player_0 ∧ g5.player_0.type = PLAYER_0 := by
  refine ⟨_, _, _, _, _, _, _, rfl, rfl, rfl, rfl, rfl, rfl, rfl, by decide, rfl, rfl, rfl, ?_,
    ?_, rfl, rfl, rfl, rfl, rfl, rfl, rfl⟩
  · intro s hs
    simp [Game.spawn_player, Game.construct, Game.reset] at hs
  · simp [Game.deref, Game.spawn_player, Game.construct, Game.reset, fresh_node]

end Session

/-! ## Simulation: a tick of zero length -/

section ZeroTick

variable {F : Type} [LinearOrderedField F]

@[simp] theorem Vec2.add_x (a b : Vec2 F) : (a + b).x = a.x + b.x := rfl
@[simp] theorem Vec2.add_y (a b : Vec2 F) : (a + b).y = a.y + b.y := rfl
@[simp] theorem Vec2.sub_x (a b : Vec2 F) : (a - b).x = a.x - b.x := rfl
@[simp] theorem Vec2.sub_y (a b : Vec2 F) : (a - b).y = a.y - b.y := rfl
@[simp] theorem Vec2.scale_x (a : Vec2 F) (s : F) : (a.scale s).x = a.x * s := rfl
@[simp] theorem Vec2.scale_y (a : Vec2 F) (s : F) : (a.scale s).y = a.y * s := rfl

omit [LinearOrderedField F] in
theorem Vec2.ext_iff' (a b : Vec2 F) : a = b ↔ a.x = b.x ∧ a.y = b.y := by
  cases a; cases b; simp

theorem Vec2.add_scale_zero (a v : Vec2 F) : a + v.scale 0 = a := by
  rw [Vec2.ext_iff']; simp

theorem glm.length2_nonneg (a : Vec2 F) : 0 ≤ glm.length2 a := by
  unfold glm.length2 glm.dot
  exact add_nonneg (mul_self_nonneg _) (mul_self_nonneg _)

theorem FloatOps.Exact.lt_sqrt_iff {ops : FloatOps F} (hex : ops.Exact) (c x : F) (hc : 0 ≤ c)
    (hx : 0 ≤ x) : c < ops.sqrt x ↔ c * c < x := by
  have hs := hex.sqrt_nonneg x
  have hss := hex.sqrt_mul_self x hx
  constructor
  · intro h
    calc c * c < ops.sqrt x * ops.sqrt x := mul_self_lt_mul_self hc h
      _ = x := hss
  · intro h
    by_contra hcon
    have hle : ops.sqrt x ≤ c := not_lt.mp hcon
    have : ops.sqrt x * ops.sqrt x ≤ c * c := mul_self_le_mul_self hs hle
    rw [hss] at this
    exact absurd h (not_lt.mpr this)

/-- Recomposing a velocity from its components along a unit direction and
across it gives the velocity back. -/
theorem recompose_velocity (ops : FloatOps F) (hex : ops.Exact) (d v : Vec2 F)
    (hd : d ≠ ⟨0, 0⟩) :
    (glm.normalize ops d).scale (glm.dot v (glm.normalize ops d))
      + (⟨-(glm.normalize ops d).y, (glm.normalize ops d).x⟩ : Vec2 F).scale
          (glm.dot v ⟨-(glm.normalize ops d).y, (glm.normalize ops d).x⟩) = v := by
  have hpos : 0 < glm.dot d d := by
    unfold glm.dot
    rcases d with ⟨dx, dy⟩
    by_cases hx : dx = 0
    · have hy : dy ≠ 0 := by
        intro hy; exact hd (by rw [hx, hy])
      have := mul_self_pos.mpr hy
      have := mul_self_nonneg dx
      simp only
      linarith
    · have := mul_self_pos.mpr hx
      have := mul_self_nonneg dy
      simp only
      linarith
  have hss := hex.sqrt_mul_self _ hpos.le
  have hs0 : ops.sqrt (glm.dot d d) ≠ 0 := by
    intro h0
    rw [h0, mul_zero] at hss
    exact absurd hss.symm (ne_of_gt hpos)
  have hi : 1 / ops.sqrt (glm.dot d d) * (1 / ops.sqrt (glm.dot d d)) * (d.x * d.x + d.y * d.y)
      = 1 := by
    have : d.x * d.x + d.y * d.y = glm.dot d d := rfl
    rw [this]
    nth_rewrite 3 [← hss]
    field_simp
  unfold glm.normalize
  generalize 1 / ops.sqrt (glm.dot d d) = i at hi ⊢
  rw [Vec2.ext_iff']
  simp only [glm.dot, Vec2.add_x, Vec2.add_y, Vec2.scale_x, Vec2.scale_y]
  constructor
  · linear_combination v.x * hi
  · linear_combination v.y * hi

/-- The function `update_player` as the composition of its three blocks. -/
theorem update_player_eq (ops : FloatOps F) (p : Player F) (elapsed y_min y_max : F) :
    update_player ops p elapsed y_min y_max =
      player_clamp
        { controls := p.controls.reset,
          position := p.position
            + (player_steer ops p.velocity (player_input_dir p.controls) elapsed).scale elapsed,
          velocity := player_steer ops p.velocity (player_input_dir p.controls) elapsed,
          type := p.type,
          score := p.score } y_min y_max := by
  unfold update_player player_clamp player_steer player_input_dir
  simp only

theorem glm.mix2_zero_weight (x y : Vec2 F) : glm.mix2 x y 0 = x := by
  rw [Vec2.ext_iff']
  simp [glm.mix2]

theorem glm.mix_zero_weight (x y : F) : glm.mix x y 0 = x := by
  simp [glm.mix]

/-- With no time elapsed the velocity of a player is not changed by steering. -/
theorem player_steer_zero (ops : FloatOps F) (hex : ops.Exact) (v dir : Vec2 F) :
    player_steer ops v dir 0 = v := by
  unfold player_steer
  by_cases hd : dir = ⟨0, 0⟩
  · rw [if_pos hd]
    simp only [zero_div, hex.pow_zero, sub_self, glm.mix2_zero_weight]
  · rw [if_neg hd]
    simp only [zero_div, hex.pow_zero, sub_self, glm.mix_zero_weight, ite_self]
    exact recompose_velocity ops hex dir v hd

/-- A player inside its rectangle is not touched by the arena collisions. -/
theorem player_clamp_of_inBounds (p : Player F) (y_min y_max : F) (h : p.InBounds y_min y_max) :
    player_clamp p y_min y_max = p := by
  obtain ⟨h1, h2, h3, h4⟩ := h
  unfold player_clamp
  simp only [if_neg (not_lt.mpr h1), gt_iff_lt, if_neg (not_lt.mpr h2), if_neg (not_lt.mpr h3),
    if_neg (not_lt.mpr h4)]

/-- A zero-length `update_player` on a player inside its rectangle only clears
the tap counters. -/
theorem update_player_zero (ops : FloatOps F) (hex : ops.Exact) (p : Player F) (y_min y_max : F)
    (h : p.InBounds y_min y_max) :
    update_player ops p 0 y_min y_max = { p with controls := p.controls.reset } := by
  rw [update_player_eq, player_steer_zero ops hex, Vec2.add_scale_zero]
  exact player_clamp_of_inBounds _ _ _ h

theorem integrate_puck_zero_position (ops : FloatOps F) (q : Puck F) :
    (integrate_puck ops 0 q).position = q.position ∧
      (integrate_puck ops 0 q).prev_pos = q.position ∧
      (integrate_puck ops 0 q).last_hit = q.last_hit := by
  unfold integrate_puck
  simp only [Vec2.add_scale_zero]
  split_ifs <;> exact ⟨rfl, rfl, rfl⟩

/-- The speed test of `integrate_puck`, without the square root. -/
theorem speed_test_iff (ops : FloatOps F) (hex : ops.Exact) (v : Vec2 F) :
    (PuckSpeed : F) < ops.sqrt (glm.length2 v) ↔
      (PuckSpeed : F) * (PuckSpeed : F) < glm.length2 v :=
  hex.lt_sqrt_iff _ _ (by unfold PuckSpeed; norm_num) (glm.length2_nonneg v)

/-- A zero-length integration step of a puck within the speed cap only records
`prev_pos`. -/
theorem integrate_puck_zero (ops : FloatOps F) (hex : ops.Exact) (q : Puck F)
    (h : q.WithinSpeedCap) : integrate_puck ops 0 q = { q with prev_pos := q.position } := by
  unfold integrate_puck
  simp only [Vec2.add_scale_zero]
  rw [if_neg]
  rw [speed_test_iff ops hex]
  exact not_lt.mpr h

/-- A puck clear of a player does not collide with it. -/
theorem check_collision_of_clear (ops : FloatOps F) (hex : ops.Exact) (q : Puck F)
    (p : Player F) (h : q.Clear p) : check_collision ops q p = (false, q) := by
  unfold check_collision
  simp only
  rw [if_pos]
  rw [gt_iff_lt, hex.lt_sqrt_iff _ _ (by unfold PlayerRadius PuckRadius; norm_num)
    (glm.length2_nonneg _)]
  exact h

theorem collision_loop_of_clear (ops : FloatOps F) (hex : ops.Exact) (p0 p1 : Player F)
    (pucks : List (Puck F)) (i : Nat) (h : ∀ q ∈ pucks, q.Clear p0 ∧ q.Clear p1) :
    collision_loop ops p0 p1 pucks i = (pucks, none) := by
  induction pucks generalizing i with
  | nil => rfl
  | cons q qs ih =>
    have hq := h q (List.mem_cons_self _ _)
    unfold collision_loop
    rw [check_collision_of_clear ops hex q p0 hq.1]
    simp only
    rw [check_collision_of_clear ops hex q p1 hq.2]
    simp only
    rw [ih (i + 1) (fun q' hq' => h q' (List.mem_cons_of_mem _ hq'))]

/-- A puck inside the arena that has not moved since `prev_pos` was recorded is
not touched by the walls and posts. -/
theorem arena_collide_of_inArena (q : Puck F) (h : q.InArena) (hprev : q.prev_pos = q.position) :
    arena_collide q = q := by
  obtain ⟨h1, h2, h3, _, _⟩ := h
  unfold arena_collide
  simp only [if_neg (not_lt.mpr h1), gt_iff_lt, if_neg (not_lt.mpr h2), hprev]
  by_cases hx : q.position.x < -(GoalRadius : F) + (PuckRadius : F) ∨
      (GoalRadius : F) - (PuckRadius : F) < q.position.x
  · obtain ⟨h5, h6⟩ := h3 hx
    simp [not_lt.mpr h5, not_lt.mpr h6]
  · rw [not_or] at hx
    simp [hx.1, hx.2]

theorem arena_loop_of_inArena (pucks : List (Puck F)) (i : Nat)
    (h : ∀ q ∈ pucks, q.InArena ∧ q.prev_pos = q.position) :
    arena_loop pucks i = (pucks, none) := by
  induction pucks generalizing i with
  | nil => rfl
  | cons q qs ih =>
    obtain ⟨hq, hprev⟩ := h q (List.mem_cons_self _ _)
    unfold arena_loop
    simp only [arena_collide_of_inArena q hq hprev]
    rw [if_neg (not_lt.mpr hq.2.2.2.1), if_neg (not_lt.mpr hq.2.2.2.2),
      ih (i + 1) (fun q' hq' => h q' (List.mem_cons_of_mem _ hq'))]

theorem resolve_collisions_of_clear (ops : FloatOps F) (hex : ops.Exact) (g : Game F)
    (h : ∀ q ∈ g.pucks, q.Clear g.player_0 ∧ q.Clear g.player_1) :
    g.resolve_collisions ops = g := by
  unfold Game.resolve_collisions
  rw [collision_loop_of_clear ops hex _ _ _ 0 h]

theorem arena_collisions_of_inArena (g : Game F)
    (h : ∀ q ∈ g.pucks, q.InArena ∧ q.prev_pos = q.position) :
    g.arena_collisions = g := by
  unfold Game.arena_collisions
  rw [arena_loop_of_inArena _ 0 h]

/-- Outside a grace period `update` runs the physics of the tick on the state
as it is. -/
theorem update_of_not_grace (ops : FloatOps F) (g : Game F) (elapsed : F)
    (hgrace : ¬ 0 < g.grace_period) :
    g.update ops elapsed =
      Game.arena_collisions (Game.resolve_collisions ops
        { g with
          player_0 := update_player ops g.player_0 elapsed Player0Min Player0Max,
          player_1 := update_player ops g.player_1 elapsed Player1Min Player1Max,
          pucks := g.pucks.map (integrate_puck ops elapsed) }) := by
  unfold Game.update
  have hw : decide (g.grace_period > 0) = false := by simp [hgrace]
  rw [hw]
  dsimp only
  rw [if_neg (by decide : ¬ (false = true)), if_neg (by rwa [gt_iff_lt]),
    if_neg (by decide : ¬ (false = true))]

/-- While the grace period lasts beyond the tick, `update` only decrements it. -/
theorem update_of_grace_remaining (ops : FloatOps F) (g : Game F) (elapsed : F)
    (hgrace : 0 < g.grace_period) (hrem : 0 < g.grace_period - elapsed) :
    g.update ops elapsed = { g with grace_period := max 0 (g.grace_period - elapsed) } := by
  unfold Game.update
  have hw : decide (g.grace_period > 0) = true := by simp [hgrace]
  rw [hw]
  dsimp only
  rw [if_pos rfl, if_pos (by rw [gt_iff_lt]; exact lt_max_of_lt_right hrem)]

/-- Normal form of a zero-length tick outside a grace period when both players
are inside their rectangles and every puck is clear of them and inside the
arena: the players lose their tap counts and each puck goes through the
integration step, nothing else happens. -/
theorem update_zero_placed (ops : FloatOps F) (hex : ops.Exact) (g : Game F)
    (hgrace : ¬ 0 < g.grace_period)
    (h0 : g.player_0.InBounds Player0Min Player0Max)
    (h1 : g.player_1.InBounds Player1Min Player1Max)
    (hq : ∀ q ∈ g.pucks, q.Clear g.player_0 ∧ q.Clear g.player_1 ∧ q.InArena) :
    g.update ops 0 =
      { g with
        player_0 := { g.player_0 with controls := g.player_0.controls.reset },
        player_1 := { g.player_1 with controls := g.player_1.controls.reset },
        pucks := g.pucks.map (integrate_puck ops 0) } := by
  have hclear : ∀ q ∈ g.pucks.map (integrate_puck ops 0),
      q.Clear { g.player_0 with controls := g.player_0.controls.reset } ∧
      q.Clear { g.player_1 with controls := g.player_1.controls.reset } := by
    intro q hq'
    obtain ⟨q0, hq0, rfl⟩ := List.mem_map.mp hq'
    obtain ⟨c0, c1, _⟩ := hq q0 hq0
    unfold Puck.Clear at c0 c1 ⊢
    rw [(integrate_puck_zero_position ops q0).1]
    exact ⟨c0, c1⟩
  have harena : ∀ q ∈ g.pucks.map (integrate_puck ops 0), q.InArena ∧ q.prev_pos = q.position := by
    intro q hq'
    obtain ⟨q0, hq0, rfl⟩ := List.mem_map.mp hq'
    obtain ⟨_, _, a⟩ := hq q0 hq0
    obtain ⟨e1, e2, _⟩ := integrate_puck_zero_position ops q0
    unfold Puck.InArena at a ⊢
    rw [e1, e2]
    exact ⟨a, rfl⟩
  rw [update_of_not_grace ops g 0 hgrace, update_player_zero ops hex _ _ _ h0,
    update_player_zero ops hex _ _ _ h1, resolve_collisions_of_clear ops hex _ hclear,
    arena_collisions_of_inArena _ harena]

end ZeroTick

section ZeroTickClaim

variable {F : Type} [LinearOrderedField F]

/-- A zero-length integration step of a puck above the speed cap scales its
velocity. -/
theorem integrate_puck_zero_fast (ops : FloatOps F) (hex : ops.Exact) (q : Puck F)
    (h : (PuckSpeed : F) * (PuckSpeed : F) < glm.length2 q.velocity) :
    integrate_puck ops 0 q =
      { q with
        prev_pos := q.position,
        velocity := q.velocity.scale
          (((PuckSpeed : F) + (ops.sqrt (glm.length2 q.velocity) - (PuckSpeed : F))
            * (PuckRetain : F)) / ops.sqrt (glm.length2 q.velocity)) } := by
  unfold integrate_puck
  simp only [Vec2.add_scale_zero]
  rw [if_pos ((speed_test_iff ops hex _).mpr h)]

/-- The real square root, power, cosine and sine are exact. -/
theorem real_ops_exact :
    FloatOps.Exact (⟨Real.sqrt, fun b e => b ^ e, Real.cos, Real.sin, Real.pi⟩ : FloatOps ℝ) :=
  ⟨Real.sqrt_nonneg, fun _ hx => Real.mul_self_sqrt hx, fun b => Real.rpow_zero b⟩

/-- The state `centre_state v` has both players inside their rectangles and
every puck clear of the players and inside the arena. -/
theorem centre_state_placed (v : Vec2 F) :
    (centre_state v).player_0.InBounds Player0Min Player0Max ∧
    (centre_state v).player_1.InBounds Player1Min Player1Max ∧
    ∀ q ∈ (centre_state v).pucks,
      q.Clear (centre_state v).player_0 ∧ q.Clear (centre_state v).player_1 ∧ q.InArena := by
  refine ⟨?_, ?_, ?_⟩
  · simp only [Player.InBounds, centre_state, ArenaMin, ArenaMax, PlayerRadius, Player0Min,
      Player0Max, Player1Max]
    norm_num
  · simp only [Player.InBounds, centre_state, ArenaMin, ArenaMax, PlayerRadius, Player0Min,
      Player1Min, Player1Max]
    norm_num
  · intro q hq
    simp only [centre_state] at hq
    obtain rfl := (List.mem_replicate.mp hq).2
    simp only [Puck.Clear, Puck.InArena, centre_state, glm.length2, glm.dot, Vec2.sub_x,
      Vec2.sub_y, ArenaMin, ArenaMax, PlayerRadius, PuckRadius, GoalRadius, Player0Min,
      Player1Max]
    norm_num

end ZeroTickClaim

/-- C10, counterexample. In the state `centre_state (0, 4)` (players at home
and idle, no grace period, all pucks at the centre moving at speed 4) the call
`update(0.0)` changes every puck velocity to `(0, 3.75)`: the decay of speed
above `PuckSpeed` is applied once per call, whatever `elapsed` is. -/
theorem C10_counterexample :
    ((centre_state (⟨0, 4⟩ : Vec2 ℝ)).update
        ⟨Real.sqrt, fun b e => b ^ e, Real.cos, Real.sin, Real.pi⟩ 0).pucks.map
          (fun q => q.velocity)
      = List.replicate 5 (⟨0, 15 / 4⟩ : Vec2 ℝ) ∧
    ¬ (((centre_state (⟨0, 4⟩ : Vec2 ℝ)).update
        ⟨Real.sqrt, fun b e => b ^ e, Real.cos, Real.sin, Real.pi⟩ 0).pucks.map
          (fun q => (q.position, q.velocity))
      = (centre_state (⟨0, 4⟩ : Vec2 ℝ)).pucks.map (fun q => (q.position, q.velocity))) := by
  obtain ⟨h0, h1, hq⟩ := centre_state_placed (⟨0, 4⟩ : Vec2 ℝ)
  have hgrace : ¬ 0 < (centre_state (⟨0, 4⟩ : Vec2 ℝ)).grace_period := by
    simp [centre_state]
  have hsqrt : Real.sqrt (16 : ℝ) = 4 := by
    rw [show (16 : ℝ) = 4 * 4 by norm_num]
    exact Real.sqrt_mul_self (by norm_num)
  rw [update_zero_placed _ real_ops_exact _ hgrace h0 h1 hq]
  have hfast : integrate_puck (⟨Real.sqrt, fun b e => b ^ e, Real.cos, Real.sin, Real.pi⟩ :
      FloatOps ℝ) 0
      { position := ⟨0, 0⟩, velocity := ⟨0, 4⟩, prev_pos := ⟨0, 0⟩, last_hit := NEUTRAL }
      = { position := ⟨0, 0⟩, velocity := ⟨0, 15 / 4⟩, prev_pos := ⟨0, 0⟩,
          last_hit := NEUTRAL } := by
    rw [integrate_puck_zero_fast _ real_ops_exact _
      (by simp only [glm.length2, glm.dot, PuckSpeed]; norm_num)]
    simp only [glm.length2, glm.dot, PuckSpeed, PuckRetain, Vec2.scale]
    norm_num [hsqrt]
  simp only [centre_state, List.map_replicate, hfast]
  refine ⟨trivial, ?_⟩
  simp [List.replicate]
  norm_num

/-- C10, amended. Zero-time tick on a settled state (over exact arithmetic):
when a grace period is active, or when both players are inside their clamp
rectangles and every puck is within the speed cap, farther than
`PlayerRadius + PuckRadius` from both players, and inside the arena (between
the side walls, between the back walls unless inside the goal mouth, not past
a goal line), `update(0.0)` leaves the position and the velocity of
`player_0`, of `player_1` and of every puck unchanged. -/
theorem C10_zero_tick_identity_when_settled {F : Type} [LinearOrderedField F]
    (ops : FloatOps F) (hex : ops.Exact) (g : Game F) (h : 0 < g.grace_period ∨ g.Settled) :
    (g.update ops 0).player_0.position = g.player_0.position ∧
    (g.update ops 0).player_0.velocity = g.player_0.velocity ∧
    (g.update ops 0).player_1.position = g.player_1.position ∧
    (g.update ops 0).player_1.velocity = g.player_1.velocity ∧
    (g.update ops 0).pucks.map (fun q => (q.position, q.velocity))
      = g.pucks.map (fun q => (q.position, q.velocity)) := by
  by_cases hgrace : 0 < g.grace_period
  · rw [update_of_grace_remaining ops g 0 hgrace (by rwa [sub_zero])]
    exact ⟨rfl, rfl, rfl, rfl, rfl⟩
  · obtain h | ⟨h0, h1, hq⟩ := h
    · exact absurd h hgrace
    · rw [update_zero_placed ops hex g hgrace h0 h1 (fun q hq' => (hq q hq').2)]
      refine ⟨rfl, rfl, rfl, rfl, ?_⟩
      simp only [List.map_map]
      apply List.map_congr_left
      intro q hq'
      simp only [Function.comp_apply, integrate_puck_zero ops hex q (hq q hq').1]

/-- Witness of C10 (amended): the real functions are exact and
`centre_state (1, 2)` over the reals is settled. -/
theorem C10_zero_tick_identity_when_settled_witness :
    FloatOps.Exact (⟨Real.sqrt, fun b e => b ^ e, Real.cos, Real.sin, Real.pi⟩ : FloatOps ℝ) ∧
    (0 < (centre_state (⟨1, 2⟩ : Vec2 ℝ)).grace_period ∨
      (centre_state (⟨1, 2⟩ : Vec2 ℝ)).Settled) ∧
    (((centre_state (⟨1, 2⟩ : Vec2 ℝ)).update
        ⟨Real.sqrt, fun b e => b ^ e, Real.cos, Real.sin, Real.pi⟩ 0).player_0.position
      = (centre_state (⟨1, 2⟩ : Vec2 ℝ)).player_0.position ∧
    ((centre_state (⟨1, 2⟩ : Vec2 ℝ)).update
        ⟨Real.sqrt, fun b e => b ^ e, Real.cos, Real.sin, Real.pi⟩ 0).player_0.velocity
      = (centre_state (⟨1, 2⟩ : Vec2 ℝ)).player_0.velocity ∧
    ((centre_state (⟨1, 2⟩ : Vec2 ℝ)).update
        ⟨Real.sqrt, fun b e => b ^ e, Real.cos, Real.sin, Real.pi⟩ 0).player_1.position
      = (centre_state (⟨1, 2⟩ : Vec2 ℝ)).player_1.position ∧
    ((centre_state (⟨1, 2⟩ : Vec2 ℝ)).update
        ⟨Real.sqrt, fun b e => b ^ e, Real.cos, Real.sin, Real.pi⟩ 0).player_1.velocity
      = (centre_state (⟨1, 2⟩ : Vec2 ℝ)).player_1.velocity ∧
    ((centre_state (⟨1, 2⟩ : Vec2 ℝ)).update
        ⟨Real.sqrt, fun b e => b ^ e, Real.cos, Real.sin, Real.pi⟩ 0).pucks.map
          (fun q => (q.position, q.velocity))
      = (centre_state (⟨1, 2⟩ : Vec2 ℝ)).pucks.map (fun q => (q.position, q.velocity))) :=
  have hs : (centre_state (⟨1, 2⟩ : Vec2 ℝ)).Settled :=
    ⟨(centre_state_placed _).1, (centre_state_placed _).2.1, fun q hq =>
      ⟨by
        simp only [centre_state] at hq
        obtain rfl := (List.mem_replicate.mp hq).2
        simp only [Puck.WithinSpeedCap, glm.length2, glm.dot, PuckSpeed]
        norm_num,
       (centre_state_placed _).2.2 q hq⟩⟩
  ⟨real_ops_exact, Or.inr hs,
   C10_zero_tick_identity_when_settled _ real_ops_exact _ (Or.inr hs)⟩

/-! ## Simulation: grace period -/

section GracePeriod

variable {F : Type} [LinearOrderedField F]

/-- Outside a grace period `update` is the physics of the tick. -/
theorem update_eq_tick_physics (ops : FloatOps F) (g : Game F) (elapsed : F)
    (hgrace : ¬ 0 < g.grace_period) : g.update ops elapsed = g.tick_physics ops elapsed := by
  rw [update_of_not_grace ops g elapsed hgrace]
  rfl

/-- When the grace period expires in this tick, `update` resets the game and
then runs the physics of the tick on the reset state. -/
theorem update_of_grace_expired (ops : FloatOps F) (g : Game F) (elapsed : F)
    (hgrace : 0 < g.grace_period) (hexp : g.grace_period ≤ elapsed) :
    g.update ops elapsed
      = (({ g with grace_period := 0 } : Game F).reset g.to_serve).tick_physics ops elapsed := by
  have hmax : max 0 (g.grace_period - elapsed) = 0 := max_eq_left (by linarith)
  unfold Game.update
  have hw : decide (g.grace_period > 0) = true := by simp [hgrace]
  rw [hw]
  dsimp only
  rw [if_pos rfl, hmax, if_neg (by rw [gt_iff_lt]; exact lt_irrefl _), if_pos rfl]
  rfl

/-- A call of `update` that is not cut short by the grace period runs the
physics of the tick, on the state itself or on the reset state. -/
theorem update_of_not_cutShort (ops : FloatOps F) (g : Game F) (elapsed : F)
    (h : ¬ g.CutShort elapsed) :
    ∃ g0 : Game F, g.update ops elapsed = g0.tick_physics ops elapsed := by
  by_cases hgrace : 0 < g.grace_period
  · have hexp : g.grace_period ≤ elapsed := by
      by_contra hcon
      exact h ⟨hgrace, by linarith [not_le.mp hcon]⟩
    exact ⟨_, update_of_grace_expired ops g elapsed hgrace hexp⟩
  · exact ⟨_, update_eq_tick_physics ops g elapsed hgrace⟩

/-- C11. Grace-period freeze: when `grace_period = g > 0` and `g - elapsed > 0`,
`update(elapsed)` sets `grace_period` to `g - elapsed` and leaves every other
part of the game (players with controls and scores, pucks with `prev_pos`,
spectators, `next_player`, `to_serve`) as it was. -/
theorem C11_grace_period_freeze (ops : FloatOps F) (g : Game F) (elapsed : F)
    (hgrace : 0 < g.grace_period) (hrem : 0 < g.grace_period - elapsed) :
    g.update ops elapsed = { g with grace_period := g.grace_period - elapsed } := by
  rw [update_of_grace_remaining ops g elapsed hgrace hrem, max_eq_right hrem.le]

end GracePeriod

/-- Witness of C11: three seconds of grace, a tick of one second, over the
reals. -/
theorem C11_grace_period_freeze_witness :
    0 < (still_state (3 : ℝ) PLAYER_0 PLAYER_1 5 ⟨0, 0⟩ ⟨1, 1⟩).grace_period ∧
    0 < (still_state (3 : ℝ) PLAYER_0 PLAYER_1 5 ⟨0, 0⟩ ⟨1, 1⟩).grace_period - 1 ∧
    (still_state (3 : ℝ) PLAYER_0 PLAYER_1 5 ⟨0, 0⟩ ⟨1, 1⟩).update
        ⟨Real.sqrt, fun b e => b ^ e, Real.cos, Real.sin, Real.pi⟩ 1
      = { still_state (3 : ℝ) PLAYER_0 PLAYER_1 5 ⟨0, 0⟩ ⟨1, 1⟩ with
          grace_period := (still_state (3 : ℝ) PLAYER_0 PLAYER_1 5 ⟨0, 0⟩ ⟨1, 1⟩).grace_period
            - 1 } :=
  ⟨by simp [still_state], by simp [still_state],
   C11_grace_period_freeze _ _ 1 (by simp [still_state]) (by simp [still_state])⟩

section AtRest

variable {F : Type} [LinearOrderedField F]

theorem Vec2.add_scale_of_zero (a : Vec2 F) (s : F) : a + (⟨0, 0⟩ : Vec2 F).scale s = a := by
  rw [Vec2.ext_iff']; simp

/-- Steering leaves a player at rest with no input at rest. -/
theorem player_steer_at_rest (ops : FloatOps F) (elapsed : F) :
    player_steer ops ⟨0, 0⟩ ⟨0, 0⟩ elapsed = ⟨0, 0⟩ := by
  unfold player_steer
  rw [if_pos rfl, Vec2.ext_iff']
  simp [glm.mix2]

/-- A tick of any length only clears the tap counters of a player that is at
rest inside its rectangle and has no direction input. -/
theorem update_player_at_rest (ops : FloatOps F) (p : Player F) (elapsed y_min y_max : F)
    (hv : p.velocity = ⟨0, 0⟩) (hdir : player_input_dir p.controls = (⟨0, 0⟩ : Vec2 F))
    (h : p.InBounds y_min y_max) :
    update_player ops p elapsed y_min y_max = { p with controls := p.controls.reset } := by
  rw [update_player_eq, hv, hdir, player_steer_at_rest, Vec2.add_scale_of_zero]
  have := player_clamp_of_inBounds { p with controls := p.controls.reset } y_min y_max h
  rw [hv] at this
  exact this

/-- The integration step of a puck at rest only records `prev_pos`. -/
theorem integrate_puck_at_rest (ops : FloatOps F) (hex : ops.Exact) (elapsed : F) (q : Puck F)
    (hv : q.velocity = ⟨0, 0⟩) :
    integrate_puck ops elapsed q = { q with prev_pos := q.position } := by
  unfold integrate_puck
  simp only [hv, Vec2.add_scale_of_zero]
  rw [if_neg]
  rw [speed_test_iff ops hex]
  simp only [glm.length2, glm.dot, PuckSpeed]
  norm_num

/-- Normal form of the physics of a tick in which the players only lose their
tap counts, the integration step only records `prev_pos`, and every puck is
clear of the players and inside the arena. -/
theorem tick_physics_of_quiet (ops : FloatOps F) (hex : ops.Exact) (g : Game F) (elapsed : F)
    (h0 : update_player ops g.player_0 elapsed Player0Min Player0Max
      = { g.player_0 with controls := g.player_0.controls.reset })
    (h1 : update_player ops g.player_1 elapsed Player1Min Player1Max
      = { g.player_1 with controls := g.player_1.controls.reset })
    (hq : ∀ q ∈ g.pucks, integrate_puck ops elapsed q = { q with prev_pos := q.position } ∧
      q.Clear g.player_0 ∧ q.Clear g.player_1 ∧ q.InArena) :
    g.tick_physics ops elapsed =
      { g with
        player_0 := { g.player_0 with controls := g.player_0.controls.reset },
        player_1 := { g.player_1 with controls := g.player_1.controls.reset },
        pucks := g.pucks.map (fun q => { q with prev_pos := q.position }) } := by
  have hmap : g.pucks.map (integrate_puck ops elapsed)
      = g.pucks.map (fun q => { q with prev_pos := q.position }) :=
    List.map_congr_left (fun q hq' => (hq q hq').1)
  have hclear : ∀ q ∈ g.pucks.map (fun q => ({ q with prev_pos := q.position } : Puck F)),
      q.Clear { g.player_0 with controls := g.player_0.controls.reset } ∧
      q.Clear { g.player_1 with controls := g.player_1.controls.reset } := by
    intro q hq'
    obtain ⟨q0, hq0, rfl⟩ := List.mem_map.mp hq'
    exact ⟨(hq q0 hq0).2.1, (hq q0 hq0).2.2.1⟩
  have harena : ∀ q ∈ g.pucks.map (fun q => ({ q with prev_pos := q.position } : Puck F)),
      q.InArena ∧ q.prev_pos = q.position := by
    intro q hq'
    obtain ⟨q0, hq0, rfl⟩ := List.mem_map.mp hq'
    exact ⟨(hq q0 hq0).2.2.2, rfl⟩
  unfold Game.tick_physics Game.before_arena
  rw [h0, h1, hmap, resolve_collisions_of_clear ops hex _ hclear,
    arena_collisions_of_inArena _ harena]

end AtRest

/-- C12, counterexample. With one second of grace left, players at home and at
rest, pucks at rest at the centre with `prev_pos = (1, 1)`, the call
`update(1.0)` does not stop after the reset: the puck loop then records each
puck's new position in `prev_pos`, so the result is not the state that
`reset(to_serve)` produces. -/
theorem C12_counterexample :
    ((still_state (1 : ℝ) PLAYER_0 PLAYER_1 0 ⟨0, 0⟩ ⟨1, 1⟩).update
        ⟨Real.sqrt, fun b e => b ^ e, Real.cos, Real.sin, Real.pi⟩ 1).pucks.map
          (fun q => q.prev_pos)
      = List.replicate 5 (⟨0, -(75 / 100)⟩ : Vec2 ℝ) ∧
    (({ still_state (1 : ℝ) PLAYER_0 PLAYER_1 0 ⟨0, 0⟩ ⟨1, 1⟩ with grace_period := 0 } :
        Game ℝ).reset (still_state (1 : ℝ) PLAYER_0 PLAYER_1 0 ⟨0, 0⟩ ⟨1, 1⟩).to_serve).pucks.map
          (fun q => q.prev_pos)
      = List.replicate 5 (⟨1, 1⟩ : Vec2 ℝ) ∧
    (still_state (1 : ℝ) PLAYER_0 PLAYER_1 0 ⟨0, 0⟩ ⟨1, 1⟩).update
        ⟨Real.sqrt, fun b e => b ^ e, Real.cos, Real.sin, Real.pi⟩ 1
      ≠ ({ still_state (1 : ℝ) PLAYER_0 PLAYER_1 0 ⟨0, 0⟩ ⟨1, 1⟩ with grace_period := 0 } :
        Game ℝ).reset (still_state (1 : ℝ) PLAYER_0 PLAYER_1 0 ⟨0, 0⟩ ⟨1, 1⟩).to_serve := by
  have hupd : (still_state (1 : ℝ) PLAYER_0 PLAYER_1 0 ⟨0, 0⟩ ⟨1, 1⟩).update
        ⟨Real.sqrt, fun b e => b ^ e, Real.cos, Real.sin, Real.pi⟩ 1
      = still_state (0 : ℝ) PLAYER_0 PLAYER_1 0 ⟨0, -(75 / 100)⟩ ⟨0, -(75 / 100)⟩ := by
    rw [update_of_grace_expired _ _ 1 (by simp [still_state]) (by simp [still_state])]
    rw [tick_physics_of_quiet _ real_ops_exact]
    · simp [still_state, Game.reset, Controls.reset]
    · refine update_player_at_rest _ _ _ _ _ rfl rfl ?_
      simp only [Player.InBounds, still_state, Game.reset, ArenaMin, ArenaMax, PlayerRadius,
        Player0Min, Player0Max, Player1Max]
      norm_num
    · refine update_player_at_rest _ _ _ _ _ rfl rfl ?_
      simp only [Player.InBounds, still_state, Game.reset, ArenaMin, ArenaMax, PlayerRadius,
        Player0Min, Player1Min, Player1Max]
      norm_num
    · intro q hq
      simp only [still_state, Game.reset, List.map_replicate] at hq
      obtain rfl := (List.mem_replicate.mp hq).2
      refine ⟨integrate_puck_at_rest _ real_ops_exact _ _ rfl, ?_⟩
      simp only [Puck.Clear, Puck.InArena, still_state, Game.reset, glm.length2, glm.dot,
        Vec2.sub_x, Vec2.sub_y, ArenaMin, ArenaMax, PlayerRadius, PuckRadius, GoalRadius,
        Player0Min, Player1Max]
      norm_num
  refine ⟨?_, ?_, ?_⟩
  · rw [hupd]
    simp [still_state]
    rfl
  · simp [still_state, Game.reset]
    rfl
  · rw [hupd]
    intro h
    have h2 := congrArg (fun g : Game ℝ => g.pucks.map (fun q => q.prev_pos)) h
    simp [still_state, Game.reset, List.replicate] at h2

/-- C12, amended. Grace-period expiry tick: when `grace_period = g > 0` and
`elapsed ≥ g`, `update(elapsed)` sets `grace_period` to 0, performs
`reset(to_serve)` and then runs the physics of the tick (player movement, puck
integration, collisions, fork, walls and goals) on the reset state: the result
is exactly what that physics produces from `reset(to_serve)` applied to the
pre-call state with `grace_period = 0`. -/
theorem C12_grace_expiry_then_physics {F : Type} [LinearOrderedField F] (ops : FloatOps F)
    (g : Game F) (elapsed : F) (hgrace : 0 < g.grace_period) (hexp : g.grace_period ≤ elapsed) :
    g.update ops elapsed
      = (({ g with grace_period := 0 } : Game F).reset g.to_serve).tick_physics ops elapsed ∧
    (({ g with grace_period := 0 } : Game F).reset g.to_serve).grace_period = 0 ∧
    (({ g with grace_period := 0 } : Game F).reset g.to_serve).player_0.position
      = ⟨0, -(175 / 100)⟩ ∧
    (({ g with grace_period := 0 } : Game F).reset g.to_serve).player_1.position
      = ⟨0, 175 / 100⟩ ∧
    ∀ q ∈ (({ g with grace_period := 0 } : Game F).reset g.to_serve).pucks,
      q.position = ⟨0, if g.to_serve = PLAYER_0 then -(75 / 100) else 75 / 100⟩ := by
  refine ⟨update_of_grace_expired ops g elapsed hgrace hexp, rfl, rfl, rfl, ?_⟩
  intro q hq
  simp only [Game.reset, List.mem_map] at hq
  obtain ⟨q0, _, rfl⟩ := hq
  rfl

/-- Witness of C12 (amended): one second of grace left and a tick of one
second, over the reals. -/
theorem C12_grace_expiry_then_physics_witness :
    0 < (still_state (1 : ℝ) PLAYER_0 PLAYER_1 0 ⟨0, 0⟩ ⟨1, 1⟩).grace_period ∧
    (still_state (1 : ℝ) PLAYER_0 PLAYER_1 0 ⟨0, 0⟩ ⟨1, 1⟩).grace_period ≤ 1 ∧
    (still_state (1 : ℝ) PLAYER_0 PLAYER_1 0 ⟨0, 0⟩ ⟨1, 1⟩).update
        ⟨Real.sqrt, fun b e => b ^ e, Real.cos, Real.sin, Real.pi⟩ 1
      = (({ still_state (1 : ℝ) PLAYER_0 PLAYER_1 0 ⟨0, 0⟩ ⟨1, 1⟩ with grace_period := 0 } :
          Game ℝ).reset
            (still_state (1 : ℝ) PLAYER_0 PLAYER_1 0 ⟨0, 0⟩ ⟨1, 1⟩).to_serve).tick_physics
          ⟨Real.sqrt, fun b e => b ^ e, Real.cos, Real.sin, Real.pi⟩ 1 :=
  ⟨by simp [still_state], by simp [still_state],
   (C12_grace_expiry_then_physics _ _ 1 (by simp [still_state]) (by simp [still_state])).1⟩

/-! ## Scoring -/

section Scoring

variable {F : Type} [LinearOrderedField F]

/-- The three branches of `handle_scored` on a valid puck. -/
theorem handle_scored_eq (g : Game F) (i : Nat) (type : PlayerType) (s : Puck F)
    (hs : g.pucks[i]? = some s) :
    g.handle_scored i type =
      if type = PLAYER_0 then
        { g with
          grace_period := (GRACE_PERIOD : F),
          pucks := g.pucks.map fun puck => { puck with position := s.position, velocity := ⟨0, 0⟩ },
          player_0 := { g.player_0 with score := (g.player_0.score + 1) % 2 ^ 32 },
          to_serve := if g.player_1.type = NEUTRAL then PLAYER_0 else PLAYER_1 }
      else if type = PLAYER_1 then
        { g with
          grace_period := (GRACE_PERIOD : F),
          pucks := g.pucks.map fun puck => { puck with position := s.position, velocity := ⟨0, 0⟩ },
          player_1 := { g.player_1 with score := (g.player_1.score + 1) % 2 ^ 32 },
          to_serve := if g.player_0.type = NEUTRAL then PLAYER_1 else PLAYER_0 }
      else
        { g with
          grace_period := (GRACE_PERIOD : F),
          pucks := g.pucks.map fun puck =>
            { puck with position := s.position, velocity := ⟨0, 0⟩ } } := by
  unfold Game.handle_scored
  rw [hs]

/-- C15. Collapse on goal: for every game with its five pucks, every puck
index `i` and every scorer type, after `handle_scored` on puck `i` all five
pucks have the position puck `i` had before the call and velocity `(0, 0)`,
`grace_period` is 3, and the `last_hit` of the pucks and the positions,
velocities and types of the players are unchanged. -/
theorem C15_collapse_on_goal (g : Game F) (i : Nat) (type : PlayerType)
    (hn : g.pucks.length = NUM_PUCKS) (hi : i < NUM_PUCKS) :
    ∃ s, g.pucks[i]? = some s ∧
      (g.handle_scored i type).pucks.length = NUM_PUCKS ∧
      (∀ q ∈ (g.handle_scored i type).pucks, q.position = s.position ∧ q.velocity = ⟨0, 0⟩) ∧
      (g.handle_scored i type).grace_period = 3 ∧
      (g.handle_scored i type).pucks.map (fun q => q.last_hit)
        = g.pucks.map (fun q => q.last_hit) ∧
      (g.handle_scored i type).player_0.position = g.player_0.position ∧
      (g.handle_scored i type).player_0.velocity = g.player_0.velocity ∧
      (g.handle_scored i type).player_0.type = g.player_0.type ∧
      (g.handle_scored i type).player_1.position = g.player_1.position ∧
      (g.handle_scored i type).player_1.velocity = g.player_1.velocity ∧
      (g.handle_scored i type).player_1.type = g.player_1.type := by
  have hlt : i < g.pucks.length := by rw [hn]; exact hi
  have hs : g.pucks[i]? = some g.pucks[i] := List.getElem?_eq_getElem hlt
  refine ⟨g.pucks[i], hs, ?_⟩
  rw [handle_scored_eq g i type _ hs]
  split_ifs <;>
    simp only [List.length_map, hn, List.mem_map, List.map_map, GRACE_PERIOD, true_and,
      and_true] <;>
    refine ⟨?_, ?_⟩ <;>
    first
      | rfl
      | (rintro q ⟨q0, _, rfl⟩; exact ⟨rfl, rfl⟩)

/-- C14, amended. Score and serve on `handle_scored`: for every game and every
puck, `handle_scored(puck, PLAYER_0)` sets `player_0.score` to the old score
plus 1 modulo 2^32 (an increase by exactly 1 unless the score is 2^32 - 1),
leaves `player_1.score` unchanged, and sets `to_serve` to `PLAYER_1` when
`player_1.type` is not `NEUTRAL` and to `PLAYER_0` when it is; symmetrically
for `handle_scored(puck, PLAYER_1)`. -/
theorem C14_score_and_serve (g : Game F) (i : Nat) (hi : i < g.pucks.length) :
    ((g.handle_scored i PLAYER_0).player_0.score = (g.player_0.score + 1) % 2 ^ 32 ∧
      (g.player_0.score + 1 < 2 ^ 32 →
        (g.handle_scored i PLAYER_0).player_0.score = g.player_0.score + 1) ∧
      (g.handle_scored i PLAYER_0).player_1.score = g.player_1.score ∧
      (g.player_1.type ≠ NEUTRAL → (g.handle_scored i PLAYER_0).to_serve = PLAYER_1) ∧
      (g.player_1.type = NEUTRAL → (g.handle_scored i PLAYER_0).to_serve = PLAYER_0)) ∧
    ((g.handle_scored i PLAYER_1).player_1.score = (g.player_1.score + 1) % 2 ^ 32 ∧
      (g.player_1.score + 1 < 2 ^ 32 →
        (g.handle_scored i PLAYER_1).player_1.score = g.player_1.score + 1) ∧
      (g.handle_scored i PLAYER_1).player_0.score = g.player_0.score ∧
      (g.player_0.type ≠ NEUTRAL → (g.handle_scored i PLAYER_1).to_serve = PLAYER_0) ∧
      (g.player_0.type = NEUTRAL → (g.handle_scored i PLAYER_1).to_serve = PLAYER_1)) := by
  have hs : g.pucks[i]? = some g.pucks[i] := List.getElem?_eq_getElem hi
  have h0 := handle_scored_eq g i PLAYER_0 _ hs
  have h1 := handle_scored_eq g i PLAYER_1 _ hs
  rw [if_pos rfl] at h0
  rw [if_neg (show ¬ (PLAYER_1 = PLAYER_0) by decide), if_pos rfl] at h1
  rw [h0, h1]
  exact ⟨⟨rfl, fun h => Nat.mod_eq_of_lt h, rfl, fun h => if_neg h, fun h => if_pos h⟩,
    ⟨rfl, fun h => Nat.mod_eq_of_lt h, rfl, fun h => if_neg h, fun h => if_pos h⟩⟩

end Scoring

/-- C14, counterexample. With `player_0.score = 2^32 - 1` the call
`handle_scored(&pucks[0], PLAYER_0)` leaves `player_0.score = 0`: the
`unsigned int` wraps, the score is not increased by 1. -/
theorem C14_counterexample :
    ((still_state (0 : ℚ) PLAYER_0 PLAYER_1 4294967295 ⟨0, 0⟩ ⟨0, 0⟩).handle_scored 0
        PLAYER_0).player_0.score = 0 ∧
    ((still_state (0 : ℚ) PLAYER_0 PLAYER_1 4294967295 ⟨0, 0⟩ ⟨0, 0⟩).handle_scored 0
        PLAYER_0).player_0.score
      ≠ (still_state (0 : ℚ) PLAYER_0 PLAYER_1 4294967295 ⟨0, 0⟩ ⟨0, 0⟩).player_0.score + 1 := by
  constructor
  · rfl
  · decide

/-- Witness of C14 (amended): a goal for `PLAYER_0` with 7 points. -/
theorem C14_score_and_serve_witness :
    0 < (still_state (0 : ℚ) PLAYER_0 PLAYER_1 7 ⟨0, 0⟩ ⟨0, 0⟩).pucks.length ∧
    ((still_state (0 : ℚ) PLAYER_0 PLAYER_1 7 ⟨0, 0⟩ ⟨0, 0⟩).handle_scored 0
        PLAYER_0).player_0.score = 8 ∧
    ((still_state (0 : ℚ) PLAYER_0 PLAYER_1 7 ⟨0, 0⟩ ⟨0, 0⟩).handle_scored 0
        PLAYER_0).to_serve = PLAYER_1 :=
  ⟨by decide,
   (C14_score_and_serve (still_state (0 : ℚ) PLAYER_0 PLAYER_1 7 ⟨0, 0⟩ ⟨0, 0⟩) 0
      (by decide)).1.2.1 (by decide),
   (C14_score_and_serve (still_state (0 : ℚ) PLAYER_0 PLAYER_1 7 ⟨0, 0⟩ ⟨0, 0⟩) 0
      (by decide)).1.2.2.2.1 (by decide)⟩

/-- Witness of C15: a goal by the third puck, for any scorer. -/
theorem C15_collapse_on_goal_witness :
    (still_state (0 : ℚ) PLAYER_0 PLAYER_1 7 ⟨0, 2⟩ ⟨0, 0⟩).pucks.length = NUM_PUCKS ∧
    2 < NUM_PUCKS ∧
    ∃ s, (still_state (0 : ℚ) PLAYER_0 PLAYER_1 7 ⟨0, 2⟩ ⟨0, 0⟩).pucks[2]? = some s ∧
      ((still_state (0 : ℚ) PLAYER_0 PLAYER_1 7 ⟨0, 2⟩ ⟨0, 0⟩).handle_scored 2
        NEUTRAL).pucks.length = NUM_PUCKS ∧
      (∀ q ∈ ((still_state (0 : ℚ) PLAYER_0 PLAYER_1 7 ⟨0, 2⟩ ⟨0, 0⟩).handle_scored 2
        NEUTRAL).pucks, q.position = s.position ∧ q.velocity = ⟨0, 0⟩) ∧
      ((still_state (0 : ℚ) PLAYER_0 PLAYER_1 7 ⟨0, 2⟩ ⟨0, 0⟩).handle_scored 2
        NEUTRAL).grace_period = 3 :=
  ⟨by decide, by decide,
   (C15_collapse_on_goal (still_state (0 : ℚ) PLAYER_0 PLAYER_1 7 ⟨0, 2⟩ ⟨0, 0⟩) 2 NEUTRAL
      (by decide) (by decide)).imp
    fun _ h => ⟨h.1, h.2.1, h.2.2.1, h.2.2.2.1⟩⟩

/-! ## Goals during a tick -/

section GoalInTick

variable {F : Type} [LinearOrderedField F]

theorem update_player_type (ops : FloatOps F) (p : Player F) (elapsed y_min y_max : F) :
    (update_player ops p elapsed y_min y_max).type = p.type ∧
      (update_player ops p elapsed y_min y_max).score = p.score := by
  rw [update_player_eq]
  unfold player_clamp
  dsimp only
  split_ifs <;> exact ⟨rfl, rfl⟩

theorem fork_pucks_frame (ops : FloatOps F) (g : Game F) (root : Nat) :
    (g.fork_pucks ops root).player_0 = g.player_0 ∧
      (g.fork_pucks ops root).player_1 = g.player_1 ∧
      (g.fork_pucks ops root).to_serve = g.to_serve ∧
      (g.fork_pucks ops root).grace_period = g.grace_period := by
  unfold Game.fork_pucks
  split <;> exact ⟨rfl, rfl, rfl, rfl⟩

/-- Resolving collisions changes pucks only. -/
theorem resolve_collisions_frame (ops : FloatOps F) (g : Game F) :
    (g.resolve_collisions ops).player_0 = g.player_0 ∧
      (g.resolve_collisions ops).player_1 = g.player_1 ∧
      (g.resolve_collisions ops).to_serve = g.to_serve ∧
      (g.resolve_collisions ops).grace_period = g.grace_period := by
  unfold Game.resolve_collisions
  dsimp only
  split
  · exact fork_pucks_frame ops _ _
  · exact ⟨rfl, rfl, rfl, rfl⟩

/-- The players with which the arena loop starts. -/
theorem before_arena_players (ops : FloatOps F) (g : Game F) (elapsed : F) :
    (g.before_arena ops elapsed).player_0
        = update_player ops g.player_0 elapsed Player0Min Player0Max ∧
      (g.before_arena ops elapsed).player_1
        = update_player ops g.player_1 elapsed Player1Min Player1Max ∧
      (g.before_arena ops elapsed).to_serve = g.to_serve := by
  unfold Game.before_arena
  obtain ⟨h0, h1, h2, _⟩ := resolve_collisions_frame ops
    { g with
      player_0 := update_player ops g.player_0 elapsed Player0Min Player0Max,
      player_1 := update_player ops g.player_1 elapsed Player1Min Player1Max,
      pucks := g.pucks.map (integrate_puck ops elapsed) }
  exact ⟨h0, h1, h2⟩

/-- The arena loop keeps the number of pucks, and a puck at which it stops is
one of them. -/
theorem arena_loop_index (pucks : List (Puck F)) (start : Nat) :
    (arena_loop pucks start).1.length = pucks.length ∧
      ∀ i b, (arena_loop pucks start).2 = some (i, b) → start ≤ i ∧ i < start + pucks.length := by
  induction pucks generalizing start with
  | nil =>
    refine ⟨rfl, ?_⟩
    intro i b h
    simp [arena_loop] at h
  | cons q qs ih =>
    unfold arena_loop
    dsimp only
    split_ifs
    · refine ⟨rfl, ?_⟩
      intro i b h
      simp only [Option.some.injEq, Prod.mk.injEq] at h
      rw [← h.1, List.length_cons]
      omega
    · refine ⟨rfl, ?_⟩
      intro i b h
      simp only [Option.some.injEq, Prod.mk.injEq] at h
      rw [← h.1, List.length_cons]
      omega
    · obtain ⟨hl, hidx⟩ := ih (start + 1)
      refine ⟨by simp only [List.length_cons, hl], ?_⟩
      intro i b h
      have := hidx i b h
      rw [List.length_cons]
      omega

/-- When the arena loop stops at a goal, `handle_scored` is called on the
stopping puck for the player defending the other line. -/
theorem arena_collisions_of_goal (g : Game F) (i : Nat) (top : Bool)
    (h : (arena_loop g.pucks 0).2 = some (i, top)) :
    g.arena_collisions =
      ({ g with pucks := (arena_loop g.pucks 0).1 } : Game F).handle_scored i
        (if top then g.player_0.type else g.player_1.type) := by
  unfold Game.arena_collisions
  dsimp only
  rw [h]
  cases top <;> rfl

/-- What `handle_scored` does for the scorer `PLAYER_0`. -/
theorem handle_scored_PLAYER_0 (g : Game F) (i : Nat) (hi : i < g.pucks.length) :
    g.handle_scored i PLAYER_0 =
      { g with
        grace_period := (GRACE_PERIOD : F),
        pucks := g.pucks.map fun puck =>
          { puck with position := g.pucks[i].position, velocity := ⟨0, 0⟩ },
        player_0 := { g.player_0 with score := (g.player_0.score + 1) % 2 ^ 32 },
        to_serve := if g.player_1.type = NEUTRAL then PLAYER_0 else PLAYER_1 } := by
  rw [handle_scored_eq g i PLAYER_0 _ (List.getElem?_eq_getElem hi), if_pos rfl]

/-- The scores and `to_serve` after a tick in which the arena loop stops at a
goal, in terms of the `handle_scored` call it makes. -/
theorem tick_physics_of_goal (ops : FloatOps F) (g : Game F) (elapsed : F) (i : Nat)
    (top : Bool) (h : (arena_loop (g.before_arena ops elapsed).pucks 0).2 = some (i, top)) :
    ∃ g' : Game F, g'.player_0.score = g.player_0.score ∧ g'.player_1.score = g.player_1.score ∧
      g'.player_0.type = g.player_0.type ∧ g'.player_1.type = g.player_1.type ∧
      g'.to_serve = g.to_serve ∧ i < g'.pucks.length ∧
      g.tick_physics ops elapsed
        = g'.handle_scored i (if top then g.player_0.type else g.player_1.type) := by
  obtain ⟨h0, h1, h2⟩ := before_arena_players ops g elapsed
  obtain ⟨hl, hidx⟩ := arena_loop_index (g.before_arena ops elapsed).pucks 0
  have hi := (hidx i top h).2
  refine ⟨{ g.before_arena ops elapsed with
      pucks := (arena_loop (g.before_arena ops elapsed).pucks 0).1 }, ?_, ?_, ?_, ?_, h2, ?_, ?_⟩
  · show (g.before_arena ops elapsed).player_0.score = _
    rw [h0]; exact (update_player_type ops _ _ _ _).2
  · show (g.before_arena ops elapsed).player_1.score = _
    rw [h1]; exact (update_player_type ops _ _ _ _).2
  · show (g.before_arena ops elapsed).player_0.type = _
    rw [h0]; exact (update_player_type ops _ _ _ _).1
  · show (g.before_arena ops elapsed).player_1.type = _
    rw [h1]; exact (update_player_type ops _ _ _ _).1
  · show i < (arena_loop (g.before_arena ops elapsed).pucks 0).1.length
    rw [hl]; omega
  · have e0 : (g.before_arena ops elapsed).player_0.type = g.player_0.type := by
      rw [h0]; exact (update_player_type ops _ _ _ _).1
    have e1 : (g.before_arena ops elapsed).player_1.type = g.player_1.type := by
      rw [h1]; exact (update_player_type ops _ _ _ _).1
    unfold Game.tick_physics
    rw [arena_collisions_of_goal _ i top h, e0, e1]

/-- C13, amended. Goal at the top line during a tick: for every game with no
grace period active in which the arena loop of `update` stops at a puck past
the top goal line (the first puck in storage order found past a goal line has
`y > ArenaMax.y + PuckRadius`): if the `PLAYER_0` slot is occupied, the call
sets `player_0.score` to the old score plus 1 modulo 2^32, leaves
`player_1.score` unchanged and leaves `to_serve` equal to `PLAYER_1` if the
`PLAYER_1` slot is occupied and to `PLAYER_0` otherwise; if the `PLAYER_0` slot
is vacant, neither score changes. -/
theorem C13_goal_at_top_line (ops : FloatOps F) (g : Game F) (elapsed : F) (i : Nat)
    (hgrace : ¬ 0 < g.grace_period)
    (htop : (arena_loop (g.before_arena ops elapsed).pucks 0).2 = some (i, true)) :
    (g.player_0.type = PLAYER_0 →
      (g.update ops elapsed).player_0.score = (g.player_0.score + 1) % 2 ^ 32 ∧
      (g.update ops elapsed).player_1.score = g.player_1.score ∧
      (g.player_1.type ≠ NEUTRAL → (g.update ops elapsed).to_serve = PLAYER_1) ∧
      (g.player_1.type = NEUTRAL → (g.update ops elapsed).to_serve = PLAYER_0)) ∧
    (g.player_0.type = NEUTRAL →
      (g.update ops elapsed).player_0.score = g.player_0.score ∧
      (g.update ops elapsed).player_1.score = g.player_1.score) := by
  obtain ⟨g', hs0, hs1, _, ht1, _, hi, hphys⟩ := tick_physics_of_goal ops g elapsed i true htop
  rw [update_eq_tick_physics ops g elapsed hgrace, hphys]
  have hs : g'.pucks[i]? = some g'.pucks[i] := List.getElem?_eq_getElem hi
  constructor
  · intro h0
    rw [if_pos rfl, h0, handle_scored_PLAYER_0 g' i hi]
    refine ⟨?_, hs1, ?_, ?_⟩
    · show (g'.player_0.score + 1) % 2 ^ 32 = _
      rw [hs0]
    · intro h1
      show (if g'.player_1.type = NEUTRAL then PLAYER_0 else PLAYER_1) = PLAYER_1
      rw [ht1, if_neg h1]
    · intro h1
      show (if g'.player_1.type = NEUTRAL then PLAYER_0 else PLAYER_1) = PLAYER_0
      rw [ht1, if_pos h1]
  · intro h0
    rw [if_pos rfl, h0, handle_scored_eq g' i NEUTRAL _ hs,
      if_neg (show ¬ (NEUTRAL = PLAYER_0) by decide),
      if_neg (show ¬ (NEUTRAL = PLAYER_1) by decide)]
    exact ⟨hs0, hs1⟩

end GoalInTick

section GoalExamples

variable {F : Type} [LinearOrderedField F]

/-- The state in which the arena loop starts after a quiet first half of the
tick: the players only lose their tap counts, the integration step only
records `prev_pos`, no puck touches a player. -/
theorem before_arena_of_quiet (ops : FloatOps F) (hex : ops.Exact) (g : Game F) (elapsed : F)
    (h0 : update_player ops g.player_0 elapsed Player0Min Player0Max
      = { g.player_0 with controls := g.player_0.controls.reset })
    (h1 : update_player ops g.player_1 elapsed Player1Min Player1Max
      = { g.player_1 with controls := g.player_1.controls.reset })
    (hq : ∀ q ∈ g.pucks, integrate_puck ops elapsed q = { q with prev_pos := q.position } ∧
      q.Clear g.player_0 ∧ q.Clear g.player_1) :
    g.before_arena ops elapsed =
      { g with
        player_0 := { g.player_0 with controls := g.player_0.controls.reset },
        player_1 := { g.player_1 with controls := g.player_1.controls.reset },
        pucks := g.pucks.map (fun q => { q with prev_pos := q.position }) } := by
  have hmap : g.pucks.map (integrate_puck ops elapsed)
      = g.pucks.map (fun q => { q with prev_pos := q.position }) :=
    List.map_congr_left (fun q hq' => (hq q hq').1)
  have hclear : ∀ q ∈ g.pucks.map (fun q => ({ q with prev_pos := q.position } : Puck F)),
      q.Clear { g.player_0 with controls := g.player_0.controls.reset } ∧
      q.Clear { g.player_1 with controls := g.player_1.controls.reset } := by
    intro q hq'
    obtain ⟨q0, hq0, rfl⟩ := List.mem_map.mp hq'
    exact ⟨(hq q0 hq0).2.1, (hq q0 hq0).2.2⟩
  unfold Game.before_arena
  rw [h0, h1, hmap, resolve_collisions_of_clear ops hex _ hclear]

/-- A puck whose `x` is inside the goal mouth is not touched by the walls and
posts. -/
theorem arena_collide_in_mouth (q : Puck F)
    (h1 : -(GoalRadius : F) + (PuckRadius : F) ≤ q.position.x)
    (h2 : q.position.x ≤ (GoalRadius : F) - (PuckRadius : F)) : arena_collide q = q := by
  have hlo : ¬ q.position.x < (ArenaMin : Vec2 F).x + (PuckRadius : F) := by
    simp only [ArenaMin, PuckRadius, GoalRadius] at h1 ⊢
    linarith
  have hhi : ¬ (ArenaMax : Vec2 F).x - (PuckRadius : F) < q.position.x := by
    simp only [ArenaMax, PuckRadius, GoalRadius] at h2 ⊢
    linarith
  unfold arena_collide
  simp only [if_neg hlo, gt_iff_lt, if_neg hhi]
  simp [not_lt.mpr h1, not_lt.mpr h2]

/-- The state `still_state` with the pucks at `(0, 2.06)`, past the top goal
line, as the arena loop finds it in a tick of one thirtieth of a second. -/
theorem still_state_top_before_arena (ops : FloatOps F) (hex : ops.Exact)
    (type_0 type_1 : PlayerType) (score_0 : Nat) :
    (still_state (0 : F) type_0 type_1 score_0 ⟨0, 206 / 100⟩ ⟨0, 0⟩).before_arena ops (1 / 30)
      = still_state (0 : F) type_0 type_1 score_0 ⟨0, 206 / 100⟩ ⟨0, 206 / 100⟩ := by
  rw [before_arena_of_quiet ops hex]
  · simp [still_state, Controls.reset]
  · refine update_player_at_rest _ _ _ _ _ rfl rfl ?_
    simp only [Player.InBounds, still_state, ArenaMin, ArenaMax, PlayerRadius,
      Player0Min, Player0Max, Player1Max]
    norm_num
  · refine update_player_at_rest _ _ _ _ _ rfl rfl ?_
    simp only [Player.InBounds, still_state, ArenaMin, ArenaMax, PlayerRadius,
      Player0Min, Player1Min, Player1Max]
    norm_num
  · intro q hq
    simp only [still_state] at hq
    obtain rfl := (List.mem_replicate.mp hq).2
    refine ⟨integrate_puck_at_rest _ hex _ _ rfl, ?_⟩
    simp only [Puck.Clear, still_state, glm.length2, glm.dot,
      Vec2.sub_x, Vec2.sub_y, PlayerRadius, PuckRadius]
    norm_num

/-- In that state the arena loop stops at the first puck, past the top line. -/
theorem still_state_top_arena_loop (type_0 type_1 : PlayerType) (score_0 : Nat) :
    (arena_loop
        (still_state (0 : F) type_0 type_1 score_0 ⟨0, 206 / 100⟩ ⟨0, 206 / 100⟩).pucks 0).2
      = some (0, true) := by
  simp only [still_state, List.replicate]
  unfold arena_loop
  rw [arena_collide_in_mouth _ (by simp only [GoalRadius, PuckRadius]; norm_num)
    (by simp only [GoalRadius, PuckRadius]; norm_num)]
  dsimp only
  rw [if_neg (by simp only [ArenaMin, Player0Min, PuckRadius]; norm_num),
    if_pos (by simp only [ArenaMax, Player1Max, PuckRadius]; norm_num)]

end GoalExamples

/-- C13, counterexample. With no grace period, the `PLAYER_0` slot vacant, the
`PLAYER_1` slot occupied and all pucks at rest at `(0, 2.06)`, the arena loop
of `update(1/30)` stops at the first puck, past the top goal line, and
`player_0.score` stays 0: `handle_scored` is called with `player_0.type`, which
is `NEUTRAL`, and awards no point. -/
theorem C13_counterexample :
    ¬ 0 < (still_state (0 : ℝ) NEUTRAL PLAYER_1 0 ⟨0, 206 / 100⟩ ⟨0, 0⟩).grace_period ∧
    (arena_loop ((still_state (0 : ℝ) NEUTRAL PLAYER_1 0 ⟨0, 206 / 100⟩ ⟨0, 0⟩).before_arena
        ⟨Real.sqrt, fun b e => b ^ e, Real.cos, Real.sin, Real.pi⟩ (1 / 30)).pucks 0).2
      = some (0, true) ∧
    ((still_state (0 : ℝ) NEUTRAL PLAYER_1 0 ⟨0, 206 / 100⟩ ⟨0, 0⟩).update
        ⟨Real.sqrt, fun b e => b ^ e, Real.cos, Real.sin, Real.pi⟩ (1 / 30)).player_0.score = 0 ∧
    ((still_state (0 : ℝ) NEUTRAL PLAYER_1 0 ⟨0, 206 / 100⟩ ⟨0, 0⟩).update
        ⟨Real.sqrt, fun b e => b ^ e, Real.cos, Real.sin, Real.pi⟩ (1 / 30)).player_0.score
      ≠ (still_state (0 : ℝ) NEUTRAL PLAYER_1 0 ⟨0, 206 / 100⟩ ⟨0, 0⟩).player_0.score + 1 := by
  have hgrace : ¬ 0 < (still_state (0 : ℝ) NEUTRAL PLAYER_1 0 ⟨0, 206 / 100⟩ ⟨0, 0⟩).grace_period :=
    by simp [still_state]
  have htop : (arena_loop ((still_state (0 : ℝ) NEUTRAL PLAYER_1 0 ⟨0, 206 / 100⟩
      ⟨0, 0⟩).before_arena
        ⟨Real.sqrt, fun b e => b ^ e, Real.cos, Real.sin, Real.pi⟩ (1 / 30)).pucks 0).2
      = some (0, true) := by
    rw [still_state_top_before_arena _ real_ops_exact]
    exact still_state_top_arena_loop _ _ _
  obtain ⟨g', hs0, _, _, _, _, hi, hphys⟩ := tick_physics_of_goal _ _ _ 0 true htop
  have hscore : ((still_state (0 : ℝ) NEUTRAL PLAYER_1 0 ⟨0, 206 / 100⟩ ⟨0, 0⟩).update
        ⟨Real.sqrt, fun b e => b ^ e, Real.cos, Real.sin, Real.pi⟩ (1 / 30)).player_0.score
      = 0 := by
    rw [update_eq_tick_physics _ _ _ hgrace, hphys,
      handle_scored_eq g' 0 _ _ (List.getElem?_eq_getElem hi)]
    exact hs0
  refine ⟨hgrace, htop, hscore, ?_⟩
  rw [hscore]
  decide

/-- Witness of C13 (amended): the same tick with both slots occupied and
`player_0.score = 7`. -/
theorem C13_goal_at_top_line_witness :
    ¬ 0 < (still_state (0 : ℝ) PLAYER_0 PLAYER_1 7 ⟨0, 206 / 100⟩ ⟨0, 0⟩).grace_period ∧
    (arena_loop ((still_state (0 : ℝ) PLAYER_0 PLAYER_1 7 ⟨0, 206 / 100⟩ ⟨0, 0⟩).before_arena
        ⟨Real.sqrt, fun b e => b ^ e, Real.cos, Real.sin, Real.pi⟩ (1 / 30)).pucks 0).2
      = some (0, true) ∧
    (still_state (0 : ℝ) PLAYER_0 PLAYER_1 7 ⟨0, 206 / 100⟩ ⟨0, 0⟩).player_0.type = PLAYER_0 ∧
    ((still_state (0 : ℝ) PLAYER_0 PLAYER_1 7 ⟨0, 206 / 100⟩ ⟨0, 0⟩).update
        ⟨Real.sqrt, fun b e => b ^ e, Real.cos, Real.sin, Real.pi⟩ (1 / 30)).player_0.score
      = (7 + 1) % 2 ^ 32 ∧
    ((still_state (0 : ℝ) PLAYER_0 PLAYER_1 7 ⟨0, 206 / 100⟩ ⟨0, 0⟩).update
        ⟨Real.sqrt, fun b e => b ^ e, Real.cos, Real.sin, Real.pi⟩ (1 / 30)).to_serve
      = PLAYER_1 :=
  have hgrace : ¬ 0 < (still_state (0 : ℝ) PLAYER_0 PLAYER_1 7 ⟨0, 206 / 100⟩ ⟨0, 0⟩).grace_period :=
    by simp [still_state]
  have htop : (arena_loop ((still_state (0 : ℝ) PLAYER_0 PLAYER_1 7 ⟨0, 206 / 100⟩
      ⟨0, 0⟩).before_arena
        ⟨Real.sqrt, fun b e => b ^ e, Real.cos, Real.sin, Real.pi⟩ (1 / 30)).pucks 0).2
      = some (0, true) := by
    rw [still_state_top_before_arena _ real_ops_exact]
    exact still_state_top_arena_loop _ _ _
  ⟨hgrace, htop, rfl,
   ((C13_goal_at_top_line _ _ _ 0 hgrace htop).1 rfl).1,
   ((C13_goal_at_top_line _ _ _ 0 hgrace htop).1 rfl).2.2.1 (by decide)⟩

/-! ## Collision response -/

section Collision

variable {F : Type} [LinearOrderedField F]

@[simp] theorem Vec2.lscale_x (s : F) (a : Vec2 F) : (Vec2.lscale s a).x = s * a.x := rfl
@[simp] theorem Vec2.lscale_y (s : F) (a : Vec2 F) : (Vec2.lscale s a).y = s * a.y := rfl
@[simp] theorem Vec2.sdiv_x (a : Vec2 F) (s : F) : (a.sdiv s).x = a.x / s := rfl
@[simp] theorem Vec2.sdiv_y (a : Vec2 F) (s : F) : (a.sdiv s).y = a.y / s := rfl

/-- An exact square root gives back a non-negative number from its square. -/
theorem FloatOps.Exact.sqrt_mul_self_eq {ops : FloatOps F} (hex : ops.Exact) (c : F)
    (hc : 0 ≤ c) : ops.sqrt (c * c) = c := by
  have hs := hex.sqrt_nonneg (c * c)
  have hss := hex.sqrt_mul_self (c * c) (mul_self_nonneg c)
  nlinarith [mul_self_nonneg (ops.sqrt (c * c) - c), mul_nonneg hs hc]

/-- Two distinct points have positive squared distance. -/
theorem glm.length2_sub_pos (a b : Vec2 F) (h : a ≠ b) : 0 < glm.length2 (a - b) := by
  unfold glm.length2 glm.dot
  simp only [Vec2.sub_x, Vec2.sub_y]
  by_cases hx : a.x - b.x = 0
  · have hy : a.y - b.y ≠ 0 := by
      intro hy
      apply h
      rw [Vec2.ext_iff']
      exact ⟨sub_eq_zero.mp hx, sub_eq_zero.mp hy⟩
    have := mul_self_pos.mpr hy
    have := mul_self_nonneg (a.x - b.x)
    linarith
  · have := mul_self_pos.mpr hx
    have := mul_self_nonneg (a.y - b.y)
    linarith

/-- C16. Head-on collision response over exact arithmetic: for a puck and a
player at rest whose centres are distinct and at distance at most
`PlayerRadius + PuckRadius`, the velocity `v` of the puck being a positive
multiple of the vector from the puck's centre to the player's centre,
`check_collision` returns `true`, leaves the puck with velocity `-v` (which
points away from the player), and places the puck's centre at distance exactly
`PlayerRadius + PuckRadius + 0.01` from the player's centre, on the same side
as before; the player is an input only and is not changed. -/
theorem C16_head_on_collision (ops : FloatOps F) (hex : ops.Exact) (puck : Puck F)
    (player : Player F) (k : F)
    (hstill : player.velocity = ⟨0, 0⟩)
    (hdistinct : player.position ≠ puck.position)
    (hdist : ops.sqrt (glm.length2 (player.position - puck.position))
      ≤ (PlayerRadius : F) + (PuckRadius : F))
    (hk : 0 < k)
    (hv : puck.velocity = (player.position - puck.position).scale k) :
    (check_collision ops puck player).1 = true ∧
    (check_collision ops puck player).2.velocity = ⟨-puck.velocity.x, -puck.velocity.y⟩ ∧
    glm.dot (check_collision ops puck player).2.velocity (player.position - puck.position) < 0 ∧
    ops.sqrt (glm.length2 (player.position - (check_collision ops puck player).2.position))
      = (PlayerRadius : F) + (PuckRadius : F) + 1 / 100 ∧
    (∃ t : F, 0 < t ∧
      (check_collision ops puck player).2.position - player.position
        = (puck.position - player.position).scale t) := by
  have hD := glm.length2_sub_pos _ _ hdistinct
  have hs := hex.sqrt_nonneg (glm.length2 (player.position - puck.position))
  have hss := hex.sqrt_mul_self _ hD.le
  have hs0 : ops.sqrt (glm.length2 (player.position - puck.position)) ≠ 0 := by
    intro h0
    rw [h0, mul_zero] at hss
    exact absurd hss.symm (ne_of_gt hD)
  have hspos : 0 < ops.sqrt (glm.length2 (player.position - puck.position)) :=
    lt_of_le_of_ne hs (Ne.symm hs0)
  have hcc : check_collision ops puck player =
      (true,
        { puck with
          velocity := puck.velocity
            + (((player.position - puck.position).sdiv
                (ops.sqrt (glm.length2 (player.position - puck.position)))).scale
              (glm.dot ((player.position - puck.position).sdiv
                (ops.sqrt (glm.length2 (player.position - puck.position))))
                (player.velocity - puck.velocity))).scale 2,
          position := player.position
            - Vec2.lscale ((PlayerRadius : F) + (PuckRadius : F) + 1 / 100)
              ((player.position - puck.position).sdiv
                (ops.sqrt (glm.length2 (player.position - puck.position)))) }) := by
    unfold check_collision
    dsimp only
    rw [if_neg (not_lt.mpr hdist)]
  rw [hcc]
  dsimp only
  generalize ops.sqrt (glm.length2 (player.position - puck.position)) = s at *
  have hi : s⁻¹ * s⁻¹ * ((player.position.x - puck.position.x) * (player.position.x - puck.position.x)
      + (player.position.y - puck.position.y) * (player.position.y - puck.position.y)) = 1 := by
    have : (player.position.x - puck.position.x) * (player.position.x - puck.position.x)
      + (player.position.y - puck.position.y) * (player.position.y - puck.position.y) = s * s :=
      hss.symm
    rw [this]
    field_simp
  have hipos : 0 < s⁻¹ := inv_pos.mpr hspos
  have hDpos : 0 < (player.position.x - puck.position.x) * (player.position.x - puck.position.x)
      + (player.position.y - puck.position.y) * (player.position.y - puck.position.y) := hD
  have hc : (0 : F) ≤ (PlayerRadius : F) + (PuckRadius : F) + 1 / 100 := by
    simp only [PlayerRadius, PuckRadius]; norm_num
  have hcpos : (0 : F) < (PlayerRadius : F) + (PuckRadius : F) + 1 / 100 := by
    simp only [PlayerRadius, PuckRadius]; norm_num
  have hvel : puck.velocity
      + (((player.position - puck.position).sdiv s).scale
          (glm.dot ((player.position - puck.position).sdiv s)
            (player.velocity - puck.velocity))).scale 2
      = ⟨-puck.velocity.x, -puck.velocity.y⟩ := by
    rw [Vec2.ext_iff', hstill, hv]
    simp only [glm.dot, Vec2.add_x, Vec2.add_y, Vec2.sub_x, Vec2.sub_y, Vec2.scale_x,
      Vec2.scale_y, Vec2.sdiv_x, Vec2.sdiv_y, div_eq_mul_inv]
    constructor
    · linear_combination (-2 * k * (player.position.x - puck.position.x)) * hi
    · linear_combination (-2 * k * (player.position.y - puck.position.y)) * hi
  refine ⟨rfl, hvel, ?_, ?_, ?_⟩
  · rw [hvel, hv]
    simp only [glm.dot, Vec2.sub_x, Vec2.sub_y, Vec2.scale_x, Vec2.scale_y]
    have := mul_pos hk hDpos
    linarith
  · have hlen : glm.length2 (player.position
        - (player.position - Vec2.lscale ((PlayerRadius : F) + (PuckRadius : F) + 1 / 100)
            ((player.position - puck.position).sdiv s)))
        = ((PlayerRadius : F) + (PuckRadius : F) + 1 / 100)
          * ((PlayerRadius : F) + (PuckRadius : F) + 1 / 100) := by
      simp only [glm.length2, glm.dot, Vec2.sub_x, Vec2.sub_y, Vec2.lscale_x, Vec2.lscale_y,
        Vec2.sdiv_x, Vec2.sdiv_y, div_eq_mul_inv]
      linear_combination (((PlayerRadius : F) + (PuckRadius : F) + 1 / 100) ^ 2) * hi
    rw [hlen]
    exact hex.sqrt_mul_self_eq _ hc
  · refine ⟨((PlayerRadius : F) + (PuckRadius : F) + 1 / 100) * s⁻¹, mul_pos hcpos hipos, ?_⟩
    rw [Vec2.ext_iff']
    simp only [Vec2.sub_x, Vec2.sub_y, Vec2.lscale_x, Vec2.lscale_y, Vec2.sdiv_x, Vec2.sdiv_y,
      Vec2.scale_x, Vec2.scale_y, div_eq_mul_inv]
    constructor <;> ring

end Collision

/-- Witness of C16: a puck at distance 0.1 above a player at rest at the
origin, moving straight down at speed 1, over the reals. -/
theorem C16_head_on_collision_witness :
    (origin_player : Player ℝ).velocity = ⟨0, 0⟩ ∧
    (origin_player : Player ℝ).position ≠ (incoming_puck : Puck ℝ).position ∧
    Real.sqrt (glm.length2 ((origin_player : Player ℝ).position
        - (incoming_puck : Puck ℝ).position)) ≤ (PlayerRadius : ℝ) + (PuckRadius : ℝ) ∧
    (0 : ℝ) < 10 ∧
    (incoming_puck : Puck ℝ).velocity
      = ((origin_player : Player ℝ).position - (incoming_puck : Puck ℝ).position).scale 10 ∧
    (check_collision ⟨Real.sqrt, fun b e => b ^ e, Real.cos, Real.sin, Real.pi⟩
        (incoming_puck : Puck ℝ) origin_player).1 = true ∧
    (check_collision ⟨Real.sqrt, fun b e => b ^ e, Real.cos, Real.sin, Real.pi⟩
        (incoming_puck : Puck ℝ) origin_player).2.velocity
      = ⟨-(incoming_puck : Puck ℝ).velocity.x, -(incoming_puck : Puck ℝ).velocity.y⟩ ∧
    Real.sqrt (glm.length2 ((origin_player : Player ℝ).position
        - (check_collision ⟨Real.sqrt, fun b e => b ^ e, Real.cos, Real.sin, Real.pi⟩
            (incoming_puck : Puck ℝ) origin_player).2.position))
      = (PlayerRadius : ℝ) + (PuckRadius : ℝ) + 1 / 100 :=
  have hstill : (origin_player : Player ℝ).velocity = ⟨0, 0⟩ := rfl
  have hdistinct : (origin_player : Player ℝ).position ≠ (incoming_puck : Puck ℝ).position := by
    simp [origin_player, incoming_puck]
  have hdist : Real.sqrt (glm.length2 ((origin_player : Player ℝ).position
      - (incoming_puck : Puck ℝ).position)) ≤ (PlayerRadius : ℝ) + (PuckRadius : ℝ) := by
    rw [Real.sqrt_le_left (by simp only [PlayerRadius, PuckRadius]; norm_num)]
    simp only [origin_player, incoming_puck, glm.length2, glm.dot, Vec2.sub_x, Vec2.sub_y,
      PlayerRadius, PuckRadius]
    norm_num
  have hk : (0 : ℝ) < 10 := by norm_num
  have hv : (incoming_puck : Puck ℝ).velocity
      = ((origin_player : Player ℝ).position - (incoming_puck : Puck ℝ).position).scale 10 := by
    rw [Vec2.ext_iff']
    simp [origin_player, incoming_puck]
  ⟨hstill, hdistinct, hdist, hk, hv,
   (C16_head_on_collision _ real_ops_exact _ _ 10 hstill hdistinct hdist hk hv).1,
   (C16_head_on_collision _ real_ops_exact _ _ 10 hstill hdistinct hdist hk hv).2.1,
   (C16_head_on_collision _ real_ops_exact _ _ 10 hstill hdistinct hdist hk hv).2.2.2.1⟩

/-! ## Fork -/

section Fork

variable {F : Type} [LinearOrderedField F]

theorem list_of_length_five {α : Type} (l : List α) (h : l.length = 5) :
    ∃ a b c d e, l = [a, b, c, d, e] := by
  match l, h with
  | [a, b, c, d, e], _ => exact ⟨a, b, c, d, e, rfl⟩

/-- C17. Fork fan-out: for every game with its five pucks and every root index
`r` in 0..4, after `fork_pucks(&pucks[r])` the root puck is unchanged, the four
other pucks, taken in storage order, have the root's velocity rotated
counter-clockwise by -20, -10, +10 and +20 degrees (multipliers -2, -1, 1, 2 of
`PUCK_FAN_ANGLE`, whatever `r` is), and all five pucks have the root's position
and the root's `last_hit`. -/
theorem C17_fork_fan_out (ops : FloatOps F) (g : Game F) (r : Nat)
    (hn : g.pucks.length = NUM_PUCKS) (hr : r < NUM_PUCKS) :
    ∃ root, g.pucks[r]? = some root ∧
      (g.fork_pucks ops r).pucks[r]? = some root ∧
      (g.fork_pucks ops r).pucks.length = NUM_PUCKS ∧
      ((g.fork_pucks ops r).pucks.eraseIdx r).map (fun q => q.velocity)
        = [glm.rotate ops root.velocity (glm.radians ops (-20)),
           glm.rotate ops root.velocity (glm.radians ops (-10)),
           glm.rotate ops root.velocity (glm.radians ops 10),
           glm.rotate ops root.velocity (glm.radians ops 20)] ∧
      ∀ q ∈ (g.fork_pucks ops r).pucks,
        q.position = root.position ∧ q.last_hit = root.last_hit := by
  obtain ⟨a, b, c, d, e, hl⟩ := list_of_length_five g.pucks hn
  have hc : Int.tdiv (-((NUM_PUCKS : Int) - 1)) 2 = -2 := by decide
  unfold Game.fork_pucks
  rw [hl, hc]
  have hr5 : r < 5 := hr
  interval_cases r
  all_goals
    simp only [List.getElem?_cons_zero, List.getElem?_cons_succ, fork_loop]
    norm_num [PUCK_FAN_ANGLE]


/-- C17 witness: the centre state with every puck moving at (1, 2), forked
from the puck at index 3. -/
theorem C17_fork_fan_out_witness :
    ∃ root, (centre_state (⟨1, 2⟩ : Vec2 ℝ)).pucks[3]? = some root ∧
      ((centre_state (⟨1, 2⟩ : Vec2 ℝ)).fork_pucks
          ⟨Real.sqrt, fun b e => b ^ e, Real.cos, Real.sin, Real.pi⟩ 3).pucks[3]? = some root ∧
      ((centre_state (⟨1, 2⟩ : Vec2 ℝ)).fork_pucks
          ⟨Real.sqrt, fun b e => b ^ e, Real.cos, Real.sin, Real.pi⟩ 3).pucks.length = NUM_PUCKS ∧
      (((centre_state (⟨1, 2⟩ : Vec2 ℝ)).fork_pucks
          ⟨Real.sqrt, fun b e => b ^ e, Real.cos, Real.sin, Real.pi⟩ 3).pucks.eraseIdx 3).map
          (fun q => q.velocity)
        = [glm.rotate ⟨Real.sqrt, fun b e => b ^ e, Real.cos, Real.sin, Real.pi⟩ root.velocity
             (glm.radians ⟨Real.sqrt, fun b e => b ^ e, Real.cos, Real.sin, Real.pi⟩ (-20)),
           glm.rotate ⟨Real.sqrt, fun b e => b ^ e, Real.cos, Real.sin, Real.pi⟩ root.velocity
             (glm.radians ⟨Real.sqrt, fun b e => b ^ e, Real.cos, Real.sin, Real.pi⟩ (-10)),
           glm.rotate ⟨Real.sqrt, fun b e => b ^ e, Real.cos, Real.sin, Real.pi⟩ root.velocity
             (glm.radians ⟨Real.sqrt, fun b e => b ^ e, Real.cos, Real.sin, Real.pi⟩ 10),
           glm.rotate ⟨Real.sqrt, fun b e => b ^ e, Real.cos, Real.sin, Real.pi⟩ root.velocity
             (glm.radians ⟨Real.sqrt, fun b e => b ^ e, Real.cos, Real.sin, Real.pi⟩ 20)] ∧
      ∀ q ∈ ((centre_state (⟨1, 2⟩ : Vec2 ℝ)).fork_pucks
          ⟨Real.sqrt, fun b e => b ^ e, Real.cos, Real.sin, Real.pi⟩ 3).pucks,
        q.position = root.position ∧ q.last_hit = root.last_hit :=
  C17_fork_fan_out ⟨Real.sqrt, fun b e => b ^ e, Real.cos, Real.sin, Real.pi⟩
    (centre_state (⟨1, 2⟩ : Vec2 ℝ)) 3 rfl (by decide)

end Fork

/-! ## Slot bookkeeping -/

section SlotLists

variable {F : Type}

theorem le_foldr_max (l : List Nat) (n : Nat) (h : n ∈ l) : n ≤ l.foldr max 0 := by
  induction l with
  | nil => simp at h
  | cons a l ih =>
    rcases List.mem_cons.1 h with h | h
    · subst h; exact le_max_left _ _
    · exact le_trans (ih h) (le_max_right _ _)

theorem fresh_node_not_mem (spectators : List (Nat × Player F)) :
    fresh_node spectators ∉ spectators.map Prod.fst := by
  intro h
  have := le_foldr_max _ _ h
  unfold fresh_node at this
  omega

theorem erase_spectator_keeps (node : Nat) :
    ∀ (l l' : List (Nat × Player F)), erase_spectator node l = some l' →
      ∀ n, n ≠ node → n ∈ l.map Prod.fst → n ∈ l'.map Prod.fst := by
  intro l
  induction l with
  | nil => intro l' h; simp [erase_spectator] at h
  | cons s rest ih =>
    intro l' h n hn hmem
    unfold erase_spectator at h
    by_cases hs : s.1 = node
    · rw [if_pos hs] at h
      cases h
      simp only [List.map_cons, List.mem_cons] at hmem
      rcases hmem with hmem | hmem
      · exact absurd (hmem.trans hs) hn
      · exact hmem
    · rw [if_neg hs] at h
      cases he : erase_spectator node rest with
      | none => rw [he] at h; simp at h
      | some r =>
        rw [he] at h
        simp only [Option.map_some'] at h
        cases h
        simp only [List.map_cons, List.mem_cons] at hmem ⊢
        rcases hmem with hmem | hmem
        · exact Or.inl hmem
        · exact Or.inr (ih r he n hn hmem)

theorem slotInvariant_remove (g g' : Game F) (live : List PlayerRef) (p : PlayerRef)
    (h : g.SlotInvariant live) (hp : p ∈ live) (hr : g.remove_player p = some g') :
    g'.SlotInvariant (live.erase p) := by
  obtain ⟨t0, t1, np, full, v0, v1, l0, l1, nd, nodes⟩ := h
  have hgone : p ∉ live.erase p := fun hm => (List.Nodup.mem_erase_iff nd).1 hm |>.1 rfl
  have hkeep : ∀ q, q ≠ p → (q ∈ live.erase p ↔ q ∈ live) := fun q hq => by
    rw [List.Nodup.mem_erase_iff nd]; simp [hq]
  cases p with
  | player_0 =>
    simp only [Game.remove_player, Option.some.injEq] at hr
    subst hr
    constructor
    · exact Or.inl rfl
    · exact t1
    · exact Or.inr (Or.inl rfl)
    · simp
    · intro _; rfl
    · intro h; exact absurd (show (PLAYER_0 : Nat) = PLAYER_1 from h) (by decide)
    · simp [hgone]
    · rw [hkeep _ (by decide)]; exact l1
    · exact nd.erase _
    · intro node hm
      exact nodes node ((hkeep _ (by simp)).1 hm)
  | player_1 =>
    simp only [Game.remove_player, Option.some.injEq] at hr
    subst hr
    constructor
    · exact t0
    · exact Or.inl rfl
    · exact Or.inr (Or.inr rfl)
    · simp
    · intro h; exact absurd (show (PLAYER_1 : Nat) = PLAYER_0 from h) (by decide)
    · intro _; rfl
    · rw [hkeep _ (by decide)]; exact l0
    · simp [hgone]
    · exact nd.erase _
    · intro node hm
      exact nodes node ((hkeep _ (by simp)).1 hm)
  | spectator n =>
    simp only [Game.remove_player] at hr
    cases he : erase_spectator n g.spectators with
    | none => rw [he] at hr; simp at hr
    | some r =>
      rw [he] at hr
      simp only [Option.map_some', Option.some.injEq] at hr
      subst hr
      constructor
      · exact t0
      · exact t1
      · exact np
      · exact full
      · exact v0
      · exact v1
      · rw [hkeep _ (by simp)]; exact l0
      · rw [hkeep _ (by simp)]; exact l1
      · exact nd.erase _
      · intro node hm
        have hne : node ≠ n := fun e => hgone (e ▸ hm)
        have hm' : PlayerRef.spectator node ∈ live := (List.Nodup.mem_erase_iff nd).1 hm |>.2
        exact erase_spectator_keeps n _ _ he node hne (nodes node hm')

end SlotLists

section Slots

variable {F : Type} [LinearOrderedField F]

theorem spawn_player_PLAYER_0 (g : Game F) (h : g.next_player = PLAYER_0) :
    g.spawn_player =
      ({ g with player_0 := { g.player_0 with type := PLAYER_0 },
                next_player := if g.player_1.type = PLAYER_1 then NEUTRAL else PLAYER_1 },
       .player_0) := by
  simp [Game.spawn_player, h]

theorem spawn_player_PLAYER_1 (g : Game F) (h : g.next_player = PLAYER_1) :
    g.spawn_player =
      ({ g with player_1 := { g.player_1 with type := PLAYER_1 },
                next_player := if g.player_0.type = PLAYER_0 then NEUTRAL else PLAYER_0 },
       .player_1) := by
  simp [Game.spawn_player, h]

theorem spawn_player_NEUTRAL (g : Game F) (h : g.next_player = NEUTRAL) :
    g.spawn_player =
      ({ g with spectators := g.spectators ++
          [(fresh_node g.spectators,
            { controls := {}, position := ⟨0, 0⟩, velocity := ⟨0, 0⟩, type := NEUTRAL,
              score := 0 })] },
       .spectator (fresh_node g.spectators)) := by
  simp [Game.spawn_player, h]

theorem slotInvariant_fresh (prev_pos : Fin NUM_PUCKS → Vec2 F) :
    (Game.construct NEUTRAL NEUTRAL prev_pos).SlotInvariant [] := by
  constructor <;> simp [Game.construct, Game.reset]

theorem slotInvariant_spawn (g : Game F) (live : List PlayerRef) (h : g.SlotInvariant live) :
    g.spawn_player.1.SlotInvariant (g.spawn_player.2 :: live) := by
  obtain ⟨t0, t1, np, full, v0, v1, l0, l1, nd, nodes⟩ := h
  rcases np with hn | hn | hn
  · rw [spawn_player_NEUTRAL g hn]
    have hfresh : PlayerRef.spectator (fresh_node g.spectators) ∉ live :=
      fun hm => fresh_node_not_mem _ (nodes _ hm)
    constructor
    · exact t0
    · exact t1
    · exact Or.inl hn
    · exact full
    · exact v0
    · exact v1
    · simpa using l0
    · simpa using l1
    · exact List.nodup_cons.2 ⟨hfresh, nd⟩
    · intro node hm
      simp only [List.mem_cons, PlayerRef.spectator.injEq] at hm
      simp only [List.map_append, List.mem_append, List.map_cons, List.map_nil,
        List.mem_singleton]
      rcases hm with hm | hm
      · exact Or.inr hm
      · exact Or.inl (nodes _ hm)
  · rw [spawn_player_PLAYER_0 g hn]
    have hv := v0 hn
    have hnot : PlayerRef.player_0 ∉ live := fun hm => by
      have := l0.1 hm; rw [hv] at this; exact absurd this (by decide)
    constructor
    · exact Or.inr rfl
    · exact t1
    · show (if _ then _ else _) = _ ∨ _
      split_ifs <;> simp
    · show (if _ then _ else _) = _ ↔ _
      split_ifs with h1 <;> simp [h1]
    · show (if _ then _ else _) = _ → _
      split_ifs <;> simp
    · show (if _ then _ else _) = _ → _
      rcases t1 with h1 | h1 <;> simp [h1]
    · simp
    · simpa using l1
    · exact List.nodup_cons.2 ⟨hnot, nd⟩
    · intro node hm
      simp only [List.mem_cons] at hm
      rcases hm with hm | hm
      · cases hm
      · exact nodes _ hm
  · rw [spawn_player_PLAYER_1 g hn]
    have hv := v1 hn
    have hnot : PlayerRef.player_1 ∉ live := fun hm => by
      have := l1.1 hm; rw [hv] at this; exact absurd this (by decide)
    constructor
    · exact t0
    · exact Or.inr rfl
    · show (if _ then _ else _) = _ ∨ _
      split_ifs <;> simp
    · show (if _ then _ else _) = _ ↔ _
      split_ifs with h1 <;> simp [h1]
    · show (if _ then _ else _) = _ → _
      rcases t0 with h0 | h0 <;> simp [h0]
    · show (if _ then _ else _) = _ → _
      split_ifs <;> simp
    · simpa using l0
    · simp
    · exact List.nodup_cons.2 ⟨hnot, nd⟩
    · intro node hm
      simp only [List.mem_cons] at hm
      rcases hm with hm | hm
      · cases hm
      · exact nodes _ hm

theorem slotInvariant_of_reachableFrom (g0 g : Game F) (live : List PlayerRef)
    (h0 : g0.SlotInvariant []) (h : Game.ReachableFrom g0 g live) : g.SlotInvariant live := by
  induction h with
  | start => exact h0
  | spawn _ ih => exact slotInvariant_spawn _ _ ih
  | remove _ hp hr ih => exact slotInvariant_remove _ _ _ _ ih hp hr

/-- The slot bookkeeping of `spawn_player` and `remove_player` when the game is
constructed in memory that holds `NEUTRAL` in `Player::type` of both slots: in
every state reachable from it each slot is vacant or occupied, `next_player` is
`NEUTRAL` exactly when both slots are occupied, `next_player = PLAYER_k` implies
slot `k` is vacant, `spawn_player` hands out a slot only when it is vacant and
never a live pointer, and it appends a spectator if and only if both slots are
occupied. -/
theorem slot_bookkeeping_of_vacant_start (prev_pos : Fin NUM_PUCKS → Vec2 F) (g : Game F)
    (live : List PlayerRef)
    (h : Game.ReachableFrom (Game.construct NEUTRAL NEUTRAL prev_pos) g live) :
    (g.player_0.type = NEUTRAL ∨ g.player_0.type = PLAYER_0) ∧
    (g.player_1.type = NEUTRAL ∨ g.player_1.type = PLAYER_1) ∧
    (g.next_player = NEUTRAL ↔ (g.player_0.type = PLAYER_0 ∧ g.player_1.type = PLAYER_1)) ∧
    (g.next_player = PLAYER_0 → g.player_0.type = NEUTRAL) ∧
    (g.next_player = PLAYER_1 → g.player_1.type = NEUTRAL) ∧
    (g.spawn_player.2 = .player_0 → g.player_0.type = NEUTRAL) ∧
    (g.spawn_player.2 = .player_1 → g.player_1.type = NEUTRAL) ∧
    g.spawn_player.2 ∉ live ∧
    ((g.player_0.type = PLAYER_0 ∧ g.player_1.type = PLAYER_1) →
      ∃ node player, g.spawn_player.2 = .spectator node ∧
        g.spawn_player.1.spectators = g.spectators ++ [(node, player)]) ∧
    (¬ (g.player_0.type = PLAYER_0 ∧ g.player_1.type = PLAYER_1) →
      g.spawn_player.1.spectators = g.spectators) := by
  have inv := slotInvariant_of_reachableFrom _ g live (slotInvariant_fresh prev_pos) h
  have inv' := slotInvariant_spawn g live inv
  refine ⟨inv.type_0, inv.type_1, inv.full, inv.vacant_0, inv.vacant_1, ?_, ?_,
    (List.nodup_cons.1 inv'.nodup).1, ?_, ?_⟩
  · intro hs
    rcases inv.next with hn | hn | hn
    · rw [spawn_player_NEUTRAL g hn] at hs; cases hs
    · exact inv.vacant_0 hn
    · rw [spawn_player_PLAYER_1 g hn] at hs; cases hs
  · intro hs
    rcases inv.next with hn | hn | hn
    · rw [spawn_player_NEUTRAL g hn] at hs; cases hs
    · rw [spawn_player_PLAYER_0 g hn] at hs; cases hs
    · exact inv.vacant_1 hn
  · intro hb
    rw [spawn_player_NEUTRAL g (inv.full.2 hb)]
    exact ⟨_, _, rfl, rfl⟩
  · intro hb
    rcases inv.next with hn | hn | hn
    · exact absurd (inv.full.1 hn) hb
    · rw [spawn_player_PLAYER_0 g hn]
    · rw [spawn_player_PLAYER_1 g hn]

/-- C18, the code at the failing input. `Game::Game()` does not initialise
`Player::type`. A game constructed in memory that holds `PLAYER_0` in
`player_0.type` is, with no player spawned yet, a reachable state in which
`next_player = PLAYER_0` although slot 0 is occupied, not vacant, and
`spawn_player` hands out that occupied slot. Constructed in memory that also
holds `PLAYER_1` in `player_1.type`, both slots are occupied but `next_player`
is not `NEUTRAL`, and `spawn_player` appends no spectator. -/
theorem C18_fresh_slot_occupied :
    Game.Reachable (Game.construct PLAYER_0 NEUTRAL (fun _ => ⟨0, 0⟩) : Game ℚ) [] ∧
    (Game.construct PLAYER_0 NEUTRAL (fun _ => ⟨0, 0⟩) : Game ℚ).next_player = PLAYER_0 ∧
    (Game.construct PLAYER_0 NEUTRAL (fun _ => ⟨0, 0⟩) : Game ℚ).player_0.type = PLAYER_0 ∧
    (Game.construct PLAYER_0 NEUTRAL (fun _ => ⟨0, 0⟩) : Game ℚ).player_0.type ≠ NEUTRAL ∧
    (Game.construct PLAYER_0 NEUTRAL (fun _ => ⟨0, 0⟩) : Game ℚ).spawn_player.2
      = PlayerRef.player_0 ∧
    Game.Reachable (Game.construct PLAYER_0 PLAYER_1 (fun _ => ⟨0, 0⟩) : Game ℚ) [] ∧
    ((Game.construct PLAYER_0 PLAYER_1 (fun _ => ⟨0, 0⟩) : Game ℚ).player_0.type = PLAYER_0 ∧
      (Game.construct PLAYER_0 PLAYER_1 (fun _ => ⟨0, 0⟩) : Game ℚ).player_1.type = PLAYER_1) ∧
    (Game.construct PLAYER_0 PLAYER_1 (fun _ => ⟨0, 0⟩) : Game ℚ).next_player ≠ NEUTRAL ∧
    (Game.construct PLAYER_0 PLAYER_1 (fun _ => ⟨0, 0⟩) : Game ℚ).spawn_player.1.spectators
      = (Game.construct PLAYER_0 PLAYER_1 (fun _ => ⟨0, 0⟩) : Game ℚ).spectators :=
  ⟨⟨_, _, _, Game.ReachableFrom.start⟩, rfl, rfl,
   show (PLAYER_0 : Nat) ≠ NEUTRAL by decide, rfl,
   ⟨_, _, _, Game.ReachableFrom.start⟩, ⟨rfl, rfl⟩,
   show (PLAYER_0 : Nat) ≠ NEUTRAL by decide, rfl⟩

end Slots

/-! ## Walls -/

section Walls

variable {F : Type} [LinearOrderedField F]

theorem player_clamp_inBounds (p : Player F) (y_min y_max : F)
    (hy : y_min + (PlayerRadius : F) ≤ y_max - (PlayerRadius : F)) :
    (player_clamp p y_min y_max).InBounds y_min y_max := by
  have hx : (ArenaMin : Vec2 F).x + (PlayerRadius : F) ≤ (ArenaMax : Vec2 F).x - (PlayerRadius : F) := by
    simp only [ArenaMin, ArenaMax, PlayerRadius]; norm_num
  unfold player_clamp Player.InBounds
  dsimp only
  split_ifs <;> (try dsimp only at *) <;> refine ⟨?_, ?_, ?_, ?_⟩ <;> linarith

/-- The arena loop body up to the goal test, block by block. -/
theorem arena_collide_eq (q : Puck F) :
    arena_collide q =
      goal_posts
        (decide ((side_walls q).position.x < -(GoalRadius : F) + (PuckRadius : F)))
        (decide ((side_walls q).position.x > (GoalRadius : F) - (PuckRadius : F)))
        (decide ((side_walls q).position.y < (ArenaMin : Vec2 F).y + (PuckRadius : F)))
        (decide ((side_walls q).position.y > (ArenaMax : Vec2 F).y - (PuckRadius : F)))
        (back_walls
          (decide ((side_walls q).position.x < -(GoalRadius : F) + (PuckRadius : F)))
          (decide ((side_walls q).position.x > (GoalRadius : F) - (PuckRadius : F)))
          (decide ((side_walls q).position.y < (ArenaMin : Vec2 F).y + (PuckRadius : F)))
          (decide ((side_walls q).position.y > (ArenaMax : Vec2 F).y - (PuckRadius : F)))
          (side_walls q)) := rfl

theorem side_walls_x (q : Puck F) :
    (ArenaMin : Vec2 F).x + (PuckRadius : F) ≤ (side_walls q).position.x ∧
      (side_walls q).position.x ≤ (ArenaMax : Vec2 F).x - (PuckRadius : F) := by
  have hx : (ArenaMin : Vec2 F).x + (PuckRadius : F) ≤ (ArenaMax : Vec2 F).x - (PuckRadius : F) := by
    simp only [ArenaMin, ArenaMax, PuckRadius]; norm_num
  unfold side_walls
  dsimp only
  split_ifs <;> (try dsimp only at *) <;> refine ⟨?_, ?_⟩ <;> linarith

theorem back_walls_position (p : Puck F) (a b : Bool) :
    (back_walls a b
        (decide (p.position.y < (ArenaMin : Vec2 F).y + (PuckRadius : F)))
        (decide (p.position.y > (ArenaMax : Vec2 F).y - (PuckRadius : F))) p).position.x
        = p.position.x ∧
      ((a || b) = true →
        (ArenaMin : Vec2 F).y + (PuckRadius : F) ≤
          (back_walls a b
            (decide (p.position.y < (ArenaMin : Vec2 F).y + (PuckRadius : F)))
            (decide (p.position.y > (ArenaMax : Vec2 F).y - (PuckRadius : F))) p).position.y ∧
        (back_walls a b
            (decide (p.position.y < (ArenaMin : Vec2 F).y + (PuckRadius : F)))
            (decide (p.position.y > (ArenaMax : Vec2 F).y - (PuckRadius : F))) p).position.y
          ≤ (ArenaMax : Vec2 F).y - (PuckRadius : F)) := by
  have hy : (ArenaMin : Vec2 F).y + (PuckRadius : F) ≤ (ArenaMax : Vec2 F).y - (PuckRadius : F) := by
    simp only [ArenaMin, ArenaMax, PuckRadius, Player0Min, Player1Max]; norm_num
  unfold back_walls
  simp only [decide_eq_true_eq, gt_iff_lt]
  split_ifs with hab h1 h2 h2 <;> (try dsimp only at *) <;> refine ⟨rfl, fun h => ?_⟩ <;>
    first
      | exact absurd h hab
      | (constructor <;> linarith)

theorem goal_posts_position (p : Puck F) (a b c d : Bool) :
    (goal_posts a b c d p).position.y = p.position.y ∧
      ((goal_posts a b c d p).position.x = p.position.x ∨
        (goal_posts a b c d p).position.x = -(GoalRadius : F) + (PuckRadius : F) ∨
        (goal_posts a b c d p).position.x = (GoalRadius : F) - (PuckRadius : F)) ∧
      ((a || b) = false → (goal_posts a b c d p).position.x = p.position.x) := by
  unfold goal_posts
  cases a <;> cases b <;> cases c <;> cases d <;>
    simp only [Bool.or_false, Bool.or_true, Bool.or_self, Bool.false_and, Bool.true_and,
      Bool.false_eq_true, if_false, if_true, decide_eq_true_eq, reduceCtorEq, false_implies,
      implies_true, and_true, true_or, true_and] <;>
    split_ifs <;> simp

theorem arena_collide_withinWalls (q : Puck F) : (arena_collide q).WithinWalls := by
  obtain ⟨h1, h2⟩ := side_walls_x q
  rw [arena_collide_eq]
  generalize side_walls q = p at h1 h2 ⊢
  obtain ⟨bx, by_⟩ := back_walls_position p
    (decide (p.position.x < -(GoalRadius : F) + (PuckRadius : F)))
    (decide (p.position.x > (GoalRadius : F) - (PuckRadius : F)))
  generalize hB : back_walls
    (decide (p.position.x < -(GoalRadius : F) + (PuckRadius : F)))
    (decide (p.position.x > (GoalRadius : F) - (PuckRadius : F)))
    (decide (p.position.y < (ArenaMin : Vec2 F).y + (PuckRadius : F)))
    (decide (p.position.y > (ArenaMax : Vec2 F).y - (PuckRadius : F))) p = B at bx by_ ⊢
  obtain ⟨gy, gx, gn⟩ := goal_posts_position B
    (decide (p.position.x < -(GoalRadius : F) + (PuckRadius : F)))
    (decide (p.position.x > (GoalRadius : F) - (PuckRadius : F)))
    (decide (p.position.y < (ArenaMin : Vec2 F).y + (PuckRadius : F)))
    (decide (p.position.y > (ArenaMax : Vec2 F).y - (PuckRadius : F)))
  generalize goal_posts
    (decide (p.position.x < -(GoalRadius : F) + (PuckRadius : F)))
    (decide (p.position.x > (GoalRadius : F) - (PuckRadius : F)))
    (decide (p.position.y < (ArenaMin : Vec2 F).y + (PuckRadius : F)))
    (decide (p.position.y > (ArenaMax : Vec2 F).y - (PuckRadius : F))) B = G at gy gx gn ⊢
  unfold Puck.WithinWalls
  simp only [ArenaMin, ArenaMax, GoalRadius, PuckRadius, Player0Min, Player1Max,
    Bool.or_eq_true, Bool.or_eq_false_iff, decide_eq_true_eq, decide_eq_false_iff_not,
    gt_iff_lt] at *
  refine ⟨?_, fun h => ?_⟩
  · rcases gx with gx | gx | gx <;> rw [gx]
    · rw [bx]; exact ⟨h1, h2⟩
    · constructor <;> norm_num
    · constructor <;> norm_num
  · have hx : G.position.x = p.position.x := by
      rcases gx with gx | gx | gx
      · rw [gx, bx]
      · rw [gx] at h; norm_num at h
      · rw [gx] at h; norm_num at h
    rw [hx] at h
    rw [gy]
    exact by_ h

end Walls

/-! ## Players and pucks stay inside -/

section Inside

variable {F : Type} [LinearOrderedField F]

theorem update_player_eq_clamp (ops : FloatOps F) (p : Player F) (elapsed y_min y_max : F) :
    update_player ops p elapsed y_min y_max = player_clamp (player_move ops p elapsed) y_min y_max :=
  update_player_eq ops p elapsed y_min y_max

theorem player_clamp_reflects (p : Player F) (y_min y_max : F)
    (hy : y_min + (PlayerRadius : F) ≤ y_max - (PlayerRadius : F)) :
    p.ClampReflects (player_clamp p y_min y_max) y_min y_max := by
  have hx : (ArenaMin : Vec2 F).x + (PlayerRadius : F) ≤ (ArenaMax : Vec2 F).x - (PlayerRadius : F) := by
    simp only [ArenaMin, ArenaMax, PlayerRadius]; norm_num
  unfold player_clamp Player.ClampReflects
  dsimp only
  split_ifs <;> (try dsimp only at *) <;>
    refine ⟨fun h => ?_, fun h => ?_, fun h => ?_, fun h => ?_⟩ <;>
    first
      | (exfalso; linarith)
      | exact ⟨rfl, abs_abs _, abs_nonneg _⟩
      | exact ⟨rfl, (abs_neg _).trans (abs_abs _), neg_nonpos.2 (abs_nonneg _)⟩

theorem handle_scored_positions (g : Game F) (i : Nat) (type : PlayerType) :
    (g.handle_scored i type).player_0.position = g.player_0.position ∧
      (g.handle_scored i type).player_1.position = g.player_1.position := by
  unfold Game.handle_scored
  split
  · exact ⟨rfl, rfl⟩
  · dsimp only
    split_ifs <;> exact ⟨rfl, rfl⟩

theorem arena_collisions_positions (g : Game F) :
    g.arena_collisions.player_0.position = g.player_0.position ∧
      g.arena_collisions.player_1.position = g.player_1.position := by
  unfold Game.arena_collisions
  dsimp only
  split
  · exact handle_scored_positions _ _ _
  · exact handle_scored_positions _ _ _
  · exact ⟨rfl, rfl⟩

theorem tick_physics_inBounds (ops : FloatOps F) (g : Game F) (elapsed : F) :
    (g.tick_physics ops elapsed).player_0.InBounds Player0Min Player0Max ∧
      (g.tick_physics ops elapsed).player_1.InBounds Player1Min Player1Max := by
  obtain ⟨a0, a1⟩ := arena_collisions_positions (g.before_arena ops elapsed)
  obtain ⟨b0, b1, _⟩ := before_arena_players ops g elapsed
  have h0 : (Player0Min : F) + (PlayerRadius : F) ≤ (Player0Max : F) - (PlayerRadius : F) := by
    simp only [Player0Min, Player0Max, PlayerRadius]; norm_num
  have h1 : (Player1Min : F) + (PlayerRadius : F) ≤ (Player1Max : F) - (PlayerRadius : F) := by
    simp only [Player1Min, Player1Max, PlayerRadius]; norm_num
  have c0 := player_clamp_inBounds (player_move ops g.player_0 elapsed) _ _ h0
  have c1 := player_clamp_inBounds (player_move ops g.player_1 elapsed) _ _ h1
  rw [← update_player_eq_clamp, ← b0] at c0
  rw [← update_player_eq_clamp, ← b1] at c1
  unfold Game.tick_physics Player.InBounds at *
  rw [a0, a1]
  exact ⟨c0, c1⟩

/-- C19. Players stay in their own half: for every game state (so every
combination of held buttons) and every `elapsed`, after an `update` call that
is not cut short by an active grace period, `player_0` is inside
`[ArenaMin.x + PlayerRadius, ArenaMax.x - PlayerRadius]` by
`[Player0Min + PlayerRadius, Player0Max - PlayerRadius]` and `player_1` inside
the same `x` range by `[Player1Min + PlayerRadius, Player1Max - PlayerRadius]`;
and for every player `p`, whenever `update_player` (called as `update` calls
it, for either slot) clamps a coordinate, the matching velocity component keeps
its magnitude and points back into the allowed region. -/
theorem C19_players_stay_in_half (ops : FloatOps F) (g : Game F) (elapsed : F)
    (p : Player F) (e : F) (h : ¬ g.CutShort elapsed) :
    (g.update ops elapsed).player_0.InBounds Player0Min Player0Max ∧
    (g.update ops elapsed).player_1.InBounds Player1Min Player1Max ∧
    (player_move ops p e).ClampReflects (update_player ops p e Player0Min Player0Max)
      Player0Min Player0Max ∧
    (player_move ops p e).ClampReflects (update_player ops p e Player1Min Player1Max)
      Player1Min Player1Max := by
  obtain ⟨g0, hg0⟩ := update_of_not_cutShort ops g elapsed h
  rw [hg0]
  refine ⟨(tick_physics_inBounds ops g0 elapsed).1, (tick_physics_inBounds ops g0 elapsed).2,
    ?_, ?_⟩
  · rw [update_player_eq_clamp]
    apply player_clamp_reflects
    simp only [Player0Min, Player0Max, PlayerRadius]; norm_num
  · rw [update_player_eq_clamp]
    apply player_clamp_reflects
    simp only [Player1Min, Player1Max, PlayerRadius]; norm_num

/-- Witness of C19: a tick of 1/30 s from the centre state with the pucks
moving at (1, 2), and a stray player for the clamps. -/
theorem C19_players_stay_in_half_witness :
    ¬ (centre_state (⟨1, 2⟩ : Vec2 ℝ)).CutShort (1 / 30) ∧
    ((centre_state (⟨1, 2⟩ : Vec2 ℝ)).update
        ⟨Real.sqrt, fun b e => b ^ e, Real.cos, Real.sin, Real.pi⟩ (1 / 30)).player_0.InBounds
      Player0Min Player0Max ∧
    ((centre_state (⟨1, 2⟩ : Vec2 ℝ)).update
        ⟨Real.sqrt, fun b e => b ^ e, Real.cos, Real.sin, Real.pi⟩ (1 / 30)).player_1.InBounds
      Player1Min Player1Max ∧
    (player_move ⟨Real.sqrt, fun b e => b ^ e, Real.cos, Real.sin, Real.pi⟩
        (stray_player : Player ℝ) (1 / 30)).ClampReflects
      (update_player ⟨Real.sqrt, fun b e => b ^ e, Real.cos, Real.sin, Real.pi⟩
        (stray_player : Player ℝ) (1 / 30) Player0Min Player0Max) Player0Min Player0Max ∧
    (player_move ⟨Real.sqrt, fun b e => b ^ e, Real.cos, Real.sin, Real.pi⟩
        (stray_player : Player ℝ) (1 / 30)).ClampReflects
      (update_player ⟨Real.sqrt, fun b e => b ^ e, Real.cos, Real.sin, Real.pi⟩
        (stray_player : Player ℝ) (1 / 30) Player1Min Player1Max) Player1Min Player1Max :=
  have hcut : ¬ (centre_state (⟨1, 2⟩ : Vec2 ℝ)).CutShort (1 / 30) := by
    simp [Game.CutShort, centre_state]
  ⟨hcut, C19_players_stay_in_half _ _ _ _ _ hcut⟩

theorem withinWalls_of_position (q s : Puck F) (h : q.position = s.position)
    (hs : s.WithinWalls) : q.WithinWalls := by
  unfold Puck.WithinWalls at *
  rw [h]
  exact hs

theorem handle_scored_pucks (g : Game F) (i : Nat) (type : PlayerType) (s : Puck F)
    (hs : g.pucks[i]? = some s) :
    ∀ q ∈ (g.handle_scored i type).pucks, q.position = s.position := by
  rw [handle_scored_eq g i type s hs]
  intro q hq
  split_ifs at hq <;>
    (simp only [List.mem_map] at hq
     obtain ⟨_, _, rfl⟩ := hq
     rfl)

/-- Every puck the arena loop has gone through is within the walls: all of
them when the loop runs to its end, the scoring puck when it stops at a goal. -/
theorem arena_loop_withinWalls (pucks : List (Puck F)) (start : Nat) :
    ((arena_loop pucks start).2 = none → ∀ q ∈ (arena_loop pucks start).1, q.WithinWalls) ∧
      ∀ i b, (arena_loop pucks start).2 = some (i, b) →
        ∃ s, (arena_loop pucks start).1[i - start]? = some s ∧ s.WithinWalls := by
  induction pucks generalizing start with
  | nil =>
    refine ⟨fun _ q hq => ?_, fun i b h => ?_⟩
    · simp [arena_loop] at hq
    · simp [arena_loop] at h
  | cons q qs ih =>
    unfold arena_loop
    dsimp only
    split_ifs
    · refine ⟨fun h => by simp at h, fun i b h => ?_⟩
      simp only [Option.some.injEq, Prod.mk.injEq] at h
      obtain ⟨rfl, _⟩ := h
      exact ⟨arena_collide q, by simp, arena_collide_withinWalls q⟩
    · refine ⟨fun h => by simp at h, fun i b h => ?_⟩
      simp only [Option.some.injEq, Prod.mk.injEq] at h
      obtain ⟨rfl, _⟩ := h
      exact ⟨arena_collide q, by simp, arena_collide_withinWalls q⟩
    · obtain ⟨ih1, ih2⟩ := ih (start + 1)
      refine ⟨fun h q' hq' => ?_, fun i b h => ?_⟩
      · rcases List.mem_cons.1 hq' with rfl | hq'
        · exact arena_collide_withinWalls q
        · exact ih1 h q' hq'
      · obtain ⟨s, hs, hw⟩ := ih2 i b h
        have hlt := ((arena_loop_index qs (start + 1)).2 i b h).1
        refine ⟨s, ?_, hw⟩
        have e : i - start = (i - (start + 1)) + 1 := by omega
        rw [e, List.getElem?_cons_succ]
        exact hs

theorem arena_collisions_withinWalls (g : Game F) :
    ∀ q ∈ g.arena_collisions.pucks, q.WithinWalls := by
  obtain ⟨h1, h2⟩ := arena_loop_withinWalls g.pucks 0
  cases hl : (arena_loop g.pucks 0).2 with
  | none =>
    have e : g.arena_collisions = { g with pucks := (arena_loop g.pucks 0).1 } := by
      unfold Game.arena_collisions
      dsimp only
      rw [hl]
    rw [e]
    exact h1 hl
  | some r =>
    obtain ⟨i, top⟩ := r
    obtain ⟨s, hs, hw⟩ := h2 i top hl
    rw [arena_collisions_of_goal g i top hl]
    intro q hq
    exact withinWalls_of_position q s
      (handle_scored_pucks ({ g with pucks := (arena_loop g.pucks 0).1 } : Game F) i _ s
        (by simpa using hs) q hq) hw

theorem collision_loop_length (ops : FloatOps F) (p0 p1 : Player F) (pucks : List (Puck F))
    (i : Nat) : (collision_loop ops p0 p1 pucks i).1.length = pucks.length := by
  induction pucks generalizing i with
  | nil => rfl
  | cons q qs ih =>
    unfold collision_loop
    split
    · rfl
    · split
      · rfl
      · simp only [List.length_cons, ih (i + 1)]

theorem fork_loop_length (ops : FloatOps F) (root : Puck F) (root_index : Nat)
    (pucks : List (Puck F)) (i : Nat) (cnt : Int) :
    (fork_loop ops root root_index pucks i cnt).length = pucks.length := by
  induction pucks generalizing i cnt with
  | nil => rfl
  | cons q qs ih =>
    unfold fork_loop
    split_ifs <;> simp only [List.length_cons, ih]

theorem resolve_collisions_length (ops : FloatOps F) (g : Game F) :
    (g.resolve_collisions ops).pucks.length = g.pucks.length := by
  unfold Game.resolve_collisions
  dsimp only
  split
  · unfold Game.fork_pucks
    split
    · exact collision_loop_length ops _ _ _ _
    · dsimp only
      rw [fork_loop_length]
      exact collision_loop_length ops _ _ _ _
  · exact collision_loop_length ops _ _ _ _

theorem handle_scored_length (g : Game F) (i : Nat) (type : PlayerType) :
    (g.handle_scored i type).pucks.length = g.pucks.length := by
  unfold Game.handle_scored
  split
  · rfl
  · dsimp only
    split_ifs <;> exact List.length_map _ _

theorem arena_collisions_length (g : Game F) :
    g.arena_collisions.pucks.length = g.pucks.length := by
  have hl := (arena_loop_index g.pucks 0).1
  unfold Game.arena_collisions
  dsimp only
  split
  · rw [handle_scored_length]; exact hl
  · rw [handle_scored_length]; exact hl
  · exact hl

theorem tick_physics_length (ops : FloatOps F) (g : Game F) (elapsed : F) :
    (g.tick_physics ops elapsed).pucks.length = g.pucks.length := by
  unfold Game.tick_physics
  rw [arena_collisions_length]
  unfold Game.before_arena
  rw [resolve_collisions_length]
  exact List.length_map _ _

/-- Every `update` call keeps the number of pucks. -/
theorem update_length (ops : FloatOps F) (g : Game F) (elapsed : F) :
    (g.update ops elapsed).pucks.length = g.pucks.length := by
  by_cases hgrace : 0 < g.grace_period
  · by_cases hrem : 0 < g.grace_period - elapsed
    · rw [update_of_grace_remaining ops g elapsed hgrace hrem]
    · rw [update_of_grace_expired ops g elapsed hgrace (by linarith [not_lt.mp hrem]),
        tick_physics_length]
      exact List.length_map _ _
  · rw [update_eq_tick_physics ops g elapsed hgrace, tick_physics_length]

/-- Outside a grace period, `update` divides by zero exactly when the physics
of the tick on the state as it is does. -/
theorem update_zero_divisor_of_not_grace (ops : FloatOps F) (g : Game F) (elapsed : F)
    (hgrace : ¬ 0 < g.grace_period) :
    g.update_zero_divisor ops elapsed = g.tick_zero_divisor ops elapsed := by
  unfold Game.update_zero_divisor
  have hw : decide (g.grace_period > 0) = false := by simp [hgrace]
  rw [hw]
  dsimp only
  rw [if_neg (by decide : ¬ (false = true)), if_neg (by rwa [gt_iff_lt]),
    if_neg (by decide : ¬ (false = true))]

/-- A puck whose centre is on the player's centre makes `check_collision`
divide by zero. -/
theorem check_collision_zero_divisor_of_coincident (ops : FloatOps F) (hex : ops.Exact)
    (puck : Puck F) (player : Player F) (h : puck.position = player.position) :
    check_collision_zero_divisor ops puck player = true := by
  have hz : glm.length2 (player.position - puck.position) = 0 := by
    rw [h]
    simp [glm.length2, glm.dot, Vec2.sub_x, Vec2.sub_y]
  have hs : ops.sqrt 0 = 0 := by
    have := hex.sqrt_mul_self 0 (le_refl 0)
    exact mul_self_eq_zero.mp this
  unfold check_collision_zero_divisor
  dsimp only
  rw [hz, hs, if_neg]
  · simp
  · simp only [PlayerRadius, PuckRadius]
    norm_num

/-- Pucks leave the arena only through a goal mouth, as far as the arithmetic
of the tick is defined: after an `update` call that is not cut short by an
active grace period and does not divide by zero in `check_collision`, every
puck is between the side walls and, unless its `x` is inside the goal mouth,
between the back walls, and the number of pucks is unchanged. -/
theorem pucks_within_walls_of_no_zero_divisor (ops : FloatOps F) (g : Game F) (elapsed : F)
    (h : ¬ g.CutShort elapsed) (_hz : g.update_zero_divisor ops elapsed = false) :
    (g.update ops elapsed).pucks.length = g.pucks.length ∧
    ∀ q ∈ (g.update ops elapsed).pucks,
      ((ArenaMin : Vec2 F).x + (PuckRadius : F) ≤ q.position.x ∧
        q.position.x ≤ (ArenaMax : Vec2 F).x - (PuckRadius : F)) ∧
      ((q.position.x < -(GoalRadius : F) + (PuckRadius : F) ∨
          (GoalRadius : F) - (PuckRadius : F) < q.position.x) →
        (ArenaMin : Vec2 F).y + (PuckRadius : F) ≤ q.position.y ∧
        q.position.y ≤ (ArenaMax : Vec2 F).y - (PuckRadius : F)) := by
  refine ⟨update_length ops g elapsed, ?_⟩
  obtain ⟨g0, hg0⟩ := update_of_not_cutShort ops g elapsed h
  rw [hg0]
  exact arena_collisions_withinWalls (g0.before_arena ops elapsed)

/-- C20, the code at the failing input. With no grace period, both players at
home and at rest and the five pucks at rest on the centre of `player_0`, at
`(0, -1.75)`, the call `update(1/30)` is not cut short, and its first call of
`check_collision` finds the puck still on the player's centre, so `dist` is 0
and it divides `disp` by zero: where the code computes `0 / 0`, no wall test
holds of the result and the pucks are not kept within the walls. -/
theorem C20_division_by_zero :
    ¬ (still_state (0 : ℝ) PLAYER_0 PLAYER_1 0 ⟨0, -(175 / 100)⟩ ⟨0, 0⟩).CutShort (1 / 30) ∧
    (∀ q ∈ (still_state (0 : ℝ) PLAYER_0 PLAYER_1 0 ⟨0, -(175 / 100)⟩ ⟨0, 0⟩).pucks,
      (integrate_puck ⟨Real.sqrt, fun b e => b ^ e, Real.cos, Real.sin, Real.pi⟩
          (1 / 30) q).position
        = (update_player ⟨Real.sqrt, fun b e => b ^ e, Real.cos, Real.sin, Real.pi⟩
            (still_state (0 : ℝ) PLAYER_0 PLAYER_1 0 ⟨0, -(175 / 100)⟩ ⟨0, 0⟩).player_0
            (1 / 30) Player0Min Player0Max).position ∧
      FloatOps.sqrt ⟨Real.sqrt, fun b e => b ^ e, Real.cos, Real.sin, Real.pi⟩
        (glm.length2
          ((update_player ⟨Real.sqrt, fun b e => b ^ e, Real.cos, Real.sin, Real.pi⟩
              (still_state (0 : ℝ) PLAYER_0 PLAYER_1 0 ⟨0, -(175 / 100)⟩ ⟨0, 0⟩).player_0
              (1 / 30) Player0Min Player0Max).position
            - (integrate_puck ⟨Real.sqrt, fun b e => b ^ e, Real.cos, Real.sin, Real.pi⟩
                (1 / 30) q).position)) = 0) ∧
    (still_state (0 : ℝ) PLAYER_0 PLAYER_1 0 ⟨0, -(175 / 100)⟩ ⟨0, 0⟩).update_zero_divisor
      ⟨Real.sqrt, fun b e => b ^ e, Real.cos, Real.sin, Real.pi⟩ (1 / 30) = true := by
  have hp : update_player ⟨Real.sqrt, fun b e => b ^ e, Real.cos, Real.sin, Real.pi⟩
      (still_state (0 : ℝ) PLAYER_0 PLAYER_1 0 ⟨0, -(175 / 100)⟩ ⟨0, 0⟩).player_0
      (1 / 30) Player0Min Player0Max
      = { (still_state (0 : ℝ) PLAYER_0 PLAYER_1 0 ⟨0, -(175 / 100)⟩ ⟨0, 0⟩).player_0 with
          controls := (still_state (0 : ℝ) PLAYER_0 PLAYER_1 0 ⟨0, -(175 / 100)⟩
            ⟨0, 0⟩).player_0.controls.reset } := by
    refine update_player_at_rest _ _ _ _ _ rfl rfl ?_
    simp only [Player.InBounds, still_state, ArenaMin, ArenaMax, PlayerRadius,
      Player0Min, Player0Max, Player1Max]
    norm_num
  have hq : ∀ q ∈ (still_state (0 : ℝ) PLAYER_0 PLAYER_1 0 ⟨0, -(175 / 100)⟩ ⟨0, 0⟩).pucks,
      integrate_puck ⟨Real.sqrt, fun b e => b ^ e, Real.cos, Real.sin, Real.pi⟩ (1 / 30) q
        = ⟨⟨0, -(175 / 100)⟩, ⟨0, 0⟩, ⟨0, -(175 / 100)⟩, NEUTRAL⟩ := by
    intro q hq
    simp only [still_state] at hq
    obtain rfl := (List.mem_replicate.mp hq).2
    exact integrate_puck_at_rest _ real_ops_exact _ _ rfl
  have hgrace : ¬ 0 < (still_state (0 : ℝ) PLAYER_0 PLAYER_1 0 ⟨0, -(175 / 100)⟩
      ⟨0, 0⟩).grace_period := by
    simp [still_state]
  refine ⟨fun hc => hgrace hc.1, ?_, ?_⟩
  · intro q hq'
    rw [hp, hq q hq']
    refine ⟨rfl, ?_⟩
    show Real.sqrt _ = 0
    simp [still_state, glm.length2, glm.dot, Vec2.sub_x, Vec2.sub_y]
  · rw [update_zero_divisor_of_not_grace _ _ _ hgrace]
    unfold Game.tick_zero_divisor
    rw [hp]
    have hmap : (still_state (0 : ℝ) PLAYER_0 PLAYER_1 0 ⟨0, -(175 / 100)⟩ ⟨0, 0⟩).pucks.map
        (integrate_puck ⟨Real.sqrt, fun b e => b ^ e, Real.cos, Real.sin, Real.pi⟩ (1 / 30))
        = List.replicate 5 ⟨⟨0, -(175 / 100)⟩, ⟨0, 0⟩, ⟨0, -(175 / 100)⟩, NEUTRAL⟩ := by
      rw [List.map_congr_left hq]
      simp [still_state]
      rfl
    rw [hmap]
    simp only [List.replicate]
    unfold collision_loop_zero_divisor
    rw [if_pos]
    exact check_collision_zero_divisor_of_coincident _ real_ops_exact _ _ rfl

end Inside

/-! ## Reset -/

section Reset

variable {F : Type} [LinearOrderedField F]

/-- C23. Reset postcondition: for every game and every serving side `t`,
`reset(t)` puts `player_0` at (0, -1.75) and `player_1` at (0, 1.75), sets the
`downs` counter of all five buttons of both players to 0 and leaves every
`pressed` flag as it was, puts every puck at (0, -0.75) when `t = PLAYER_0` and
at (0, 0.75) otherwise, with `last_hit = NEUTRAL`; the number of pucks, their
velocities (and `prev_pos`), the players' velocities, types and scores,
`grace_period`, `to_serve`, `next_player` and the spectators are unchanged. -/
theorem C23_reset_postcondition (g : Game F) (t : PlayerType) :
    (g.reset t).player_0.position = ⟨0, -(175 / 100)⟩ ∧
    (g.reset t).player_1.position = ⟨0, 175 / 100⟩ ∧
    ((g.reset t).player_0.controls.left.downs = 0 ∧
      (g.reset t).player_0.controls.right.downs = 0 ∧
      (g.reset t).player_0.controls.up.downs = 0 ∧
      (g.reset t).player_0.controls.down.downs = 0 ∧
      (g.reset t).player_0.controls.jump.downs = 0) ∧
    ((g.reset t).player_1.controls.left.downs = 0 ∧
      (g.reset t).player_1.controls.right.downs = 0 ∧
      (g.reset t).player_1.controls.up.downs = 0 ∧
      (g.reset t).player_1.controls.down.downs = 0 ∧
      (g.reset t).player_1.controls.jump.downs = 0) ∧
    ((g.reset t).player_0.controls.left.pressed = g.player_0.controls.left.pressed ∧
      (g.reset t).player_0.controls.right.pressed = g.player_0.controls.right.pressed ∧
      (g.reset t).player_0.controls.up.pressed = g.player_0.controls.up.pressed ∧
      (g.reset t).player_0.controls.down.pressed = g.player_0.controls.down.pressed ∧
      (g.reset t).player_0.controls.jump.pressed = g.player_0.controls.jump.pressed) ∧
    ((g.reset t).player_1.controls.left.pressed = g.player_1.controls.left.pressed ∧
      (g.reset t).player_1.controls.right.pressed = g.player_1.controls.right.pressed ∧
      (g.reset t).player_1.controls.up.pressed = g.player_1.controls.up.pressed ∧
      (g.reset t).player_1.controls.down.pressed = g.player_1.controls.down.pressed ∧
      (g.reset t).player_1.controls.jump.pressed = g.player_1.controls.jump.pressed) ∧
    (∀ q ∈ (g.reset t).pucks,
      q.position = ⟨0, if t = PLAYER_0 then -(75 / 100) else 75 / 100⟩ ∧
      q.last_hit = NEUTRAL) ∧
    (g.reset t).pucks.length = g.pucks.length ∧
    (g.reset t).pucks.map (fun q => q.velocity) = g.pucks.map (fun q => q.velocity) ∧
    (g.reset t).pucks.map (fun q => q.prev_pos) = g.pucks.map (fun q => q.prev_pos) ∧
    ((g.reset t).player_0.velocity = g.player_0.velocity ∧
      (g.reset t).player_0.type = g.player_0.type ∧
      (g.reset t).player_0.score = g.player_0.score) ∧
    ((g.reset t).player_1.velocity = g.player_1.velocity ∧
      (g.reset t).player_1.type = g.player_1.type ∧
      (g.reset t).player_1.score = g.player_1.score) ∧
    (g.reset t).grace_period = g.grace_period ∧
    (g.reset t).to_serve = g.to_serve ∧
    (g.reset t).next_player = g.next_player ∧
    (g.reset t).spectators = g.spectators := by
  refine ⟨rfl, rfl, ⟨rfl, rfl, rfl, rfl, rfl⟩, ⟨rfl, rfl, rfl, rfl, rfl⟩,
    ⟨rfl, rfl, rfl, rfl, rfl⟩, ⟨rfl, rfl, rfl, rfl, rfl⟩, ?_, ?_, ?_, ?_,
    ⟨rfl, rfl, rfl⟩, ⟨rfl, rfl, rfl⟩, rfl, rfl, rfl, rfl⟩
  · intro q hq
    simp only [Game.reset, List.mem_map] at hq
    obtain ⟨q0, _, rfl⟩ := hq
    exact ⟨rfl, rfl⟩
  · simp only [Game.reset, List.length_map]
  · simp only [Game.reset, List.map_map]
    rfl
  · simp only [Game.reset, List.map_map]
    rfl

end Reset

/-! ## Client input -/

/-- What a key-down does to a button: `pressed` becomes true and `downs`
becomes the old count plus 1 modulo 256. -/
theorem Button.key_down_eq (b : Button) :
    b.key_down.pressed = true ∧ b.key_down.downs.val = (b.downs.val + 1) % 256 :=
  ⟨rfl, rfl⟩

/-- A non-repeat key-down event for `A`, `D`, `W`, `S` or `Space` is handled by
`Button.key_down` on the matching button, and `handle_event` returns true. -/
theorem handle_event_key_down (controls : Controls) :
    PlayMode.handle_event controls ⟨SDL_KEYDOWN, 0, SDLK_a⟩
      = ({ controls with left := controls.left.key_down }, true) ∧
    PlayMode.handle_event controls ⟨SDL_KEYDOWN, 0, SDLK_d⟩
      = ({ controls with right := controls.right.key_down }, true) ∧
    PlayMode.handle_event controls ⟨SDL_KEYDOWN, 0, SDLK_w⟩
      = ({ controls with up := controls.up.key_down }, true) ∧
    PlayMode.handle_event controls ⟨SDL_KEYDOWN, 0, SDLK_s⟩
      = ({ controls with down := controls.down.key_down }, true) ∧
    PlayMode.handle_event controls ⟨SDL_KEYDOWN, 0, SDLK_SPACE⟩
      = ({ controls with jump := controls.jump.key_down }, true) :=
  ⟨rfl, rfl, rfl, rfl, rfl⟩

/-- Below 255 a key-down counts up by one, as a saturating counter would. -/
theorem Button.key_down_of_lt (b : Button) (h : b.downs.val < 255) :
    b.key_down.downs.val = min 255 (b.downs.val + 1) := by
  rw [(Button.key_down_eq b).2]
  omega

/-- C24, the code at the failing input. With `left.downs = 255`, a non-repeat
key-down event for `A` makes `handle_event` return true with `left.pressed`
true and `left.downs = 0`: the `uint8_t` counter wraps, it is not
`min(255, 255 + 1) = 255`. -/
theorem C24_tap_counter_wraps :
    (PlayMode.handle_event tapped_out ⟨SDL_KEYDOWN, 0, SDLK_a⟩).2 = true ∧
    (PlayMode.handle_event tapped_out ⟨SDL_KEYDOWN, 0, SDLK_a⟩).1.left.pressed = true ∧
    (PlayMode.handle_event tapped_out ⟨SDL_KEYDOWN, 0, SDLK_a⟩).1.left.downs.val = 0 ∧
    (PlayMode.handle_event tapped_out ⟨SDL_KEYDOWN, 0, SDLK_a⟩).1.left.downs.val
      ≠ min 255 (tapped_out.left.downs.val + 1) := by
  decide

/-! ## Soft speed cap -/

section SpeedCap

variable {F : Type} [LinearOrderedField F]

theorem glm.length2_scale (v : Vec2 F) (f : F) :
    glm.length2 (v.scale f) = (f * f) * glm.length2 v := by
  unfold glm.length2 glm.dot
  simp only [Vec2.scale_x, Vec2.scale_y]
  ring

/-- The position and `prev_pos` after the integration step. -/
theorem integrate_puck_position (ops : FloatOps F) (elapsed : F) (q : Puck F) :
    (integrate_puck ops elapsed q).position = q.position + q.velocity.scale elapsed ∧
      (integrate_puck ops elapsed q).prev_pos = q.position ∧
      (integrate_puck ops elapsed q).last_hit = q.last_hit := by
  unfold integrate_puck
  dsimp only
  split_ifs <;> exact ⟨rfl, rfl, rfl⟩

/-- C22. Soft speed cap (over exact real arithmetic): in the integration step
of `update`, a puck whose speed `s` before the step exceeds `PuckSpeed = 3`
gets its velocity multiplied by a positive factor (same direction), with speed
exactly `3 + (s - 3) * 0.75`, which is strictly between 3 and `s`; a puck with
`s <= 3` keeps its velocity; the position is advanced by the velocity before
the decay times `elapsed`, and `prev_pos` records the position before the
step. -/
theorem C22_soft_speed_cap (ops : FloatOps F) (hex : ops.Exact) (elapsed : F) (q : Puck F) :
    (PuckSpeed : F) = 3 ∧ (PuckRetain : F) = 75 / 100 ∧
    ((PuckSpeed : F) < ops.sqrt (glm.length2 q.velocity) →
      (∃ f : F, 0 < f ∧ (integrate_puck ops elapsed q).velocity = q.velocity.scale f) ∧
      ops.sqrt (glm.length2 (integrate_puck ops elapsed q).velocity)
        = 3 + (ops.sqrt (glm.length2 q.velocity) - 3) * (75 / 100) ∧
      3 < ops.sqrt (glm.length2 (integrate_puck ops elapsed q).velocity) ∧
      ops.sqrt (glm.length2 (integrate_puck ops elapsed q).velocity)
        < ops.sqrt (glm.length2 q.velocity)) ∧
    (ops.sqrt (glm.length2 q.velocity) ≤ (PuckSpeed : F) →
      (integrate_puck ops elapsed q).velocity = q.velocity) ∧
    (integrate_puck ops elapsed q).position = q.position + q.velocity.scale elapsed ∧
    (integrate_puck ops elapsed q).prev_pos = q.position := by
  refine ⟨rfl, rfl, ?_, ?_, (integrate_puck_position ops elapsed q).1,
    (integrate_puck_position ops elapsed q).2.1⟩
  · intro hs
    have h3 : (3 : F) < ops.sqrt (glm.length2 q.velocity) := hs
    have hpos : 0 < ops.sqrt (glm.length2 q.velocity) := by linarith
    have hv : (integrate_puck ops elapsed q).velocity
        = q.velocity.scale (((PuckSpeed : F)
            + (ops.sqrt (glm.length2 q.velocity) - (PuckSpeed : F)) * (PuckRetain : F))
            / ops.sqrt (glm.length2 q.velocity)) := by
      unfold integrate_puck
      dsimp only
      rw [if_pos hs]
    have hnum : 0 < (PuckSpeed : F)
        + (ops.sqrt (glm.length2 q.velocity) - (PuckSpeed : F)) * (PuckRetain : F) := by
      simp only [PuckSpeed, PuckRetain]
      linarith
    have hf := div_pos hnum hpos
    have hspeed : ops.sqrt (glm.length2 (integrate_puck ops elapsed q).velocity)
        = 3 + (ops.sqrt (glm.length2 q.velocity) - 3) * (75 / 100) := by
      rw [hv, glm.length2_scale]
      have hss := hex.sqrt_mul_self _ (glm.length2_nonneg q.velocity)
      have e : ((PuckSpeed : F)
            + (ops.sqrt (glm.length2 q.velocity) - (PuckSpeed : F)) * (PuckRetain : F))
            / ops.sqrt (glm.length2 q.velocity)
          * (((PuckSpeed : F)
            + (ops.sqrt (glm.length2 q.velocity) - (PuckSpeed : F)) * (PuckRetain : F))
            / ops.sqrt (glm.length2 q.velocity)) * glm.length2 q.velocity
          = ((PuckSpeed : F)
            + (ops.sqrt (glm.length2 q.velocity) - (PuckSpeed : F)) * (PuckRetain : F))
            * ((PuckSpeed : F)
            + (ops.sqrt (glm.length2 q.velocity) - (PuckSpeed : F)) * (PuckRetain : F)) := by
        nth_rewrite 5 [← hss]
        field_simp
      rw [e, hex.sqrt_mul_self_eq _ (le_of_lt hnum)]
      simp only [PuckSpeed, PuckRetain]
    refine ⟨⟨_, hf, hv⟩, hspeed, ?_, ?_⟩
    · rw [hspeed]; linarith
    · rw [hspeed]; linarith
  · intro hs
    unfold integrate_puck
    dsimp only
    rw [if_neg (not_lt.mpr hs)]

/-- Witness of C22: a puck with velocity (3, 4), above the cap, in a tick of
1/30 s, over the reals. -/
theorem C22_soft_speed_cap_witness :
    (PuckSpeed : ℝ) < FloatOps.sqrt ⟨Real.sqrt, fun b e => b ^ e, Real.cos, Real.sin, Real.pi⟩
        (glm.length2 (⟨⟨0, 0⟩, ⟨3, 4⟩, ⟨1, 1⟩, NEUTRAL⟩ : Puck ℝ).velocity) ∧
    FloatOps.sqrt ⟨Real.sqrt, fun b e => b ^ e, Real.cos, Real.sin, Real.pi⟩
        (glm.length2 (integrate_puck ⟨Real.sqrt, fun b e => b ^ e, Real.cos, Real.sin, Real.pi⟩
          (1 / 30) (⟨⟨0, 0⟩, ⟨3, 4⟩, ⟨1, 1⟩, NEUTRAL⟩ : Puck ℝ)).velocity)
      = 3 + (FloatOps.sqrt ⟨Real.sqrt, fun b e => b ^ e, Real.cos, Real.sin, Real.pi⟩
          (glm.length2 (⟨⟨0, 0⟩, ⟨3, 4⟩, ⟨1, 1⟩, NEUTRAL⟩ : Puck ℝ).velocity) - 3) * (75 / 100) ∧
    (integrate_puck ⟨Real.sqrt, fun b e => b ^ e, Real.cos, Real.sin, Real.pi⟩ (1 / 30)
        (⟨⟨0, 0⟩, ⟨3, 4⟩, ⟨1, 1⟩, NEUTRAL⟩ : Puck ℝ)).position
      = (⟨0, 0⟩ : Vec2 ℝ) + (⟨3, 4⟩ : Vec2 ℝ).scale (1 / 30) ∧
    (integrate_puck ⟨Real.sqrt, fun b e => b ^ e, Real.cos, Real.sin, Real.pi⟩ (1 / 30)
        (⟨⟨0, 0⟩, ⟨3, 4⟩, ⟨1, 1⟩, NEUTRAL⟩ : Puck ℝ)).prev_pos = ⟨0, 0⟩ :=
  have hfast : (PuckSpeed : ℝ) < FloatOps.sqrt ⟨Real.sqrt, fun b e => b ^ e, Real.cos, Real.sin, Real.pi⟩
      (glm.length2 (⟨⟨0, 0⟩, ⟨3, 4⟩, ⟨1, 1⟩, NEUTRAL⟩ : Puck ℝ).velocity) :=
    (speed_test_iff ⟨Real.sqrt, fun b e => b ^ e, Real.cos, Real.sin, Real.pi⟩ real_ops_exact _).mpr
      (by simp only [PuckSpeed, glm.length2, glm.dot]; norm_num)
  ⟨hfast,
   ((C22_soft_speed_cap ⟨Real.sqrt, fun b e => b ^ e, Real.cos, Real.sin, Real.pi⟩
      real_ops_exact (1 / 30) (⟨⟨0, 0⟩, ⟨3, 4⟩, ⟨1, 1⟩, NEUTRAL⟩ : Puck ℝ)).2.2.1 hfast).2.1,
   (C22_soft_speed_cap ⟨Real.sqrt, fun b e => b ^ e, Real.cos, Real.sin, Real.pi⟩
      real_ops_exact (1 / 30) (⟨⟨0, 0⟩, ⟨3, 4⟩, ⟨1, 1⟩, NEUTRAL⟩ : Puck ℝ)).2.2.2.2⟩

end SpeedCap

/-! ## One goal per tick -/

section OneGoal

variable {F : Type} [LinearOrderedField F]

/-- A call of `handle_scored` changes at most one score, by one step of the
`unsigned int` counter. -/
theorem handle_scored_scores (g : Game F) (i : Nat) (type : PlayerType) :
    ((g.handle_scored i type).player_0.score = g.player_0.score ∧
        (g.handle_scored i type).player_1.score = g.player_1.score) ∨
      ((g.handle_scored i type).player_0.score = (g.player_0.score + 1) % 2 ^ 32 ∧
        (g.handle_scored i type).player_1.score = g.player_1.score) ∨
      ((g.handle_scored i type).player_0.score = g.player_0.score ∧
        (g.handle_scored i type).player_1.score = (g.player_1.score + 1) % 2 ^ 32) := by
  unfold Game.handle_scored
  split
  · exact Or.inl ⟨rfl, rfl⟩
  · dsimp only
    split_ifs <;>
      first
        | exact Or.inl ⟨rfl, rfl⟩
        | exact Or.inr (Or.inl ⟨rfl, rfl⟩)
        | exact Or.inr (Or.inr ⟨rfl, rfl⟩)

/-- The physics of a tick ends in a state with the scores it started from, to
which `handle_scored` has been applied at most once. -/
theorem tick_physics_shape (ops : FloatOps F) (g : Game F) (elapsed : F) :
    ∃ g1 : Game F, g1.player_0.score = g.player_0.score ∧
      g1.player_1.score = g.player_1.score ∧
      (g.tick_physics ops elapsed = g1 ∨
        ∃ i type, g.tick_physics ops elapsed = g1.handle_scored i type) := by
  cases hl : (arena_loop (g.before_arena ops elapsed).pucks 0).2 with
  | none =>
    obtain ⟨h0, h1, _⟩ := before_arena_players ops g elapsed
    refine ⟨{ g.before_arena ops elapsed with
        pucks := (arena_loop (g.before_arena ops elapsed).pucks 0).1 }, ?_, ?_, Or.inl ?_⟩
    · show (g.before_arena ops elapsed).player_0.score = _
      rw [h0]; exact (update_player_type ops _ _ _ _).2
    · show (g.before_arena ops elapsed).player_1.score = _
      rw [h1]; exact (update_player_type ops _ _ _ _).2
    · unfold Game.tick_physics Game.arena_collisions
      dsimp only
      rw [hl]
  | some r =>
    obtain ⟨i, top⟩ := r
    obtain ⟨g', hs0, hs1, _, _, _, _, hphys⟩ := tick_physics_of_goal ops g elapsed i top hl
    exact ⟨g', hs0, hs1, Or.inr ⟨i, _, hphys⟩⟩

/-- Every `update` call ends in a state with the scores it started from, to
which `handle_scored` has been applied at most once. -/
theorem update_shape (ops : FloatOps F) (g : Game F) (elapsed : F) :
    ∃ g1 : Game F, g1.player_0.score = g.player_0.score ∧
      g1.player_1.score = g.player_1.score ∧
      (g.update ops elapsed = g1 ∨
        ∃ i type, g.update ops elapsed = g1.handle_scored i type) := by
  by_cases hgrace : 0 < g.grace_period
  · by_cases hrem : 0 < g.grace_period - elapsed
    · exact ⟨{ g with grace_period := max 0 (g.grace_period - elapsed) }, rfl, rfl,
        Or.inl (update_of_grace_remaining ops g elapsed hgrace hrem)⟩
    · rw [update_of_grace_expired ops g elapsed hgrace (by linarith [not_lt.mp hrem])]
      obtain ⟨g1, h0, h1, h⟩ := tick_physics_shape ops
        (({ g with grace_period := 0 } : Game F).reset g.to_serve) elapsed
      exact ⟨g1, h0, h1, h⟩
  · rw [update_eq_tick_physics ops g elapsed hgrace]
    exact tick_physics_shape ops g elapsed

/-- The scores after the tick of 1/30 s in which the pucks of `still_state`,
all at rest past the top goal line, score for an occupied `PLAYER_0` slot. -/
theorem still_state_top_scores (ops : FloatOps F) (hex : ops.Exact) (type_1 : PlayerType)
    (score_0 : Nat) :
    ((still_state (0 : F) PLAYER_0 type_1 score_0 ⟨0, 206 / 100⟩ ⟨0, 0⟩).update ops
        (1 / 30)).player_0.score = (score_0 + 1) % 2 ^ 32 ∧
    ((still_state (0 : F) PLAYER_0 type_1 score_0 ⟨0, 206 / 100⟩ ⟨0, 0⟩).update ops
        (1 / 30)).player_1.score = 0 := by
  have hgrace : ¬ 0 < (still_state (0 : F) PLAYER_0 type_1 score_0 ⟨0, 206 / 100⟩
      ⟨0, 0⟩).grace_period := by
    simp [still_state]
  have htop : (arena_loop ((still_state (0 : F) PLAYER_0 type_1 score_0 ⟨0, 206 / 100⟩
      ⟨0, 0⟩).before_arena ops (1 / 30)).pucks 0).2 = some (0, true) := by
    rw [still_state_top_before_arena ops hex]
    exact still_state_top_arena_loop _ _ _
  obtain ⟨g', hs0, hs1, _, _, _, hi, hphys⟩ := tick_physics_of_goal ops _ _ 0 true htop
  rw [update_eq_tick_physics ops _ _ hgrace, hphys, if_pos rfl]
  have ht : (still_state (0 : F) PLAYER_0 type_1 score_0 ⟨0, 206 / 100⟩ ⟨0, 0⟩).player_0.type
      = PLAYER_0 := rfl
  rw [ht, handle_scored_PLAYER_0 g' 0 hi]
  refine ⟨?_, ?_⟩
  · show (g'.player_0.score + 1) % 2 ^ 32 = _
    rw [hs0]; rfl
  · show g'.player_1.score = _
    rw [hs1]; rfl

/-- C21, amended. At most one goal per tick: for every game and every
`elapsed`, the state after `update` is a state with the scores from before the
call to which `handle_scored` has been applied at most once; so at most one
score changes, and the one that changes becomes its old value plus 1 modulo
2^32; while both scores are below 2^32 - 1, `player_0.score + player_1.score`
after the call exceeds its value before by at most 1 and neither score
decreases, however many pucks are past a goal line in the tick. -/
theorem C21_at_most_one_goal (ops : FloatOps F) (g : Game F) (elapsed : F) :
    (∃ g1 : Game F, g1.player_0.score = g.player_0.score ∧
      g1.player_1.score = g.player_1.score ∧
      (g.update ops elapsed = g1 ∨
        ∃ i type, g.update ops elapsed = g1.handle_scored i type)) ∧
    (((g.update ops elapsed).player_0.score = g.player_0.score ∧
        (g.update ops elapsed).player_1.score = g.player_1.score) ∨
      ((g.update ops elapsed).player_0.score = (g.player_0.score + 1) % 2 ^ 32 ∧
        (g.update ops elapsed).player_1.score = g.player_1.score) ∨
      ((g.update ops elapsed).player_0.score = g.player_0.score ∧
        (g.update ops elapsed).player_1.score = (g.player_1.score + 1) % 2 ^ 32)) ∧
    (g.player_0.score + 1 < 2 ^ 32 → g.player_1.score + 1 < 2 ^ 32 →
      (g.update ops elapsed).player_0.score + (g.update ops elapsed).player_1.score
        ≤ g.player_0.score + g.player_1.score + 1 ∧
      g.player_0.score ≤ (g.update ops elapsed).player_0.score ∧
      g.player_1.score ≤ (g.update ops elapsed).player_1.score) := by
  have hshape := update_shape ops g elapsed
  have hscores : ((g.update ops elapsed).player_0.score = g.player_0.score ∧
        (g.update ops elapsed).player_1.score = g.player_1.score) ∨
      ((g.update ops elapsed).player_0.score = (g.player_0.score + 1) % 2 ^ 32 ∧
        (g.update ops elapsed).player_1.score = g.player_1.score) ∨
      ((g.update ops elapsed).player_0.score = g.player_0.score ∧
        (g.update ops elapsed).player_1.score = (g.player_1.score + 1) % 2 ^ 32) := by
    obtain ⟨g1, h0, h1, h | ⟨i, type, h⟩⟩ := hshape
    · rw [h]; exact Or.inl ⟨h0, h1⟩
    · rw [h, ← h0, ← h1]; exact handle_scored_scores g1 i type
  refine ⟨hshape, hscores, ?_⟩
  intro hb0 hb1
  rcases hscores with ⟨e0, e1⟩ | ⟨e0, e1⟩ | ⟨e0, e1⟩
  · rw [e0, e1]; omega
  · rw [e0, e1, Nat.mod_eq_of_lt hb0]; omega
  · rw [e0, e1, Nat.mod_eq_of_lt hb1]; omega

end OneGoal

/-- C21, counterexample. With no grace period, both slots occupied,
`player_0.score = 2^32 - 1` and all five pucks at rest at `(0, 2.06)`, past the
top goal line, `update(1/30)` leaves `player_0.score = 0`: the score
decreases. -/
theorem C21_counterexample :
    ((still_state (0 : ℝ) PLAYER_0 PLAYER_1 4294967295 ⟨0, 206 / 100⟩ ⟨0, 0⟩).update
        ⟨Real.sqrt, fun b e => b ^ e, Real.cos, Real.sin, Real.pi⟩ (1 / 30)).player_0.score
      = 0 ∧
    ¬ ((still_state (0 : ℝ) PLAYER_0 PLAYER_1 4294967295 ⟨0, 206 / 100⟩ ⟨0, 0⟩).player_0.score
      ≤ ((still_state (0 : ℝ) PLAYER_0 PLAYER_1 4294967295 ⟨0, 206 / 100⟩ ⟨0, 0⟩).update
        ⟨Real.sqrt, fun b e => b ^ e, Real.cos, Real.sin, Real.pi⟩
        (1 / 30)).player_0.score) := by
  have h := (still_state_top_scores ⟨Real.sqrt, fun b e => b ^ e, Real.cos, Real.sin, Real.pi⟩
    real_ops_exact PLAYER_1 4294967295).1
  have e : (4294967295 + 1) % 2 ^ 32 = 0 := by decide
  rw [e] at h
  refine ⟨h, ?_⟩
  rw [h]
  show ¬ (4294967295 ≤ 0)
  decide

/-- Witness of C21 (amended): the tick of 1/30 s in which all five pucks are
past the top goal line, with 7 points for `player_0`: the scores go up by 1
in total. -/
theorem C21_at_most_one_goal_witness :
    (still_state (0 : ℝ) PLAYER_0 PLAYER_1 7 ⟨0, 206 / 100⟩ ⟨0, 0⟩).player_0.score + 1
      < 2 ^ 32 ∧
    (still_state (0 : ℝ) PLAYER_0 PLAYER_1 7 ⟨0, 206 / 100⟩ ⟨0, 0⟩).player_1.score + 1
      < 2 ^ 32 ∧
    ((still_state (0 : ℝ) PLAYER_0 PLAYER_1 7 ⟨0, 206 / 100⟩ ⟨0, 0⟩).update
        ⟨Real.sqrt, fun b e => b ^ e, Real.cos, Real.sin, Real.pi⟩ (1 / 30)).player_0.score
      + ((still_state (0 : ℝ) PLAYER_0 PLAYER_1 7 ⟨0, 206 / 100⟩ ⟨0, 0⟩).update
        ⟨Real.sqrt, fun b e => b ^ e, Real.cos, Real.sin, Real.pi⟩ (1 / 30)).player_1.score
      ≤ (still_state (0 : ℝ) PLAYER_0 PLAYER_1 7 ⟨0, 206 / 100⟩ ⟨0, 0⟩).player_0.score
        + (still_state (0 : ℝ) PLAYER_0 PLAYER_1 7 ⟨0, 206 / 100⟩ ⟨0, 0⟩).player_1.score + 1 :=
  have hb0 : (still_state (0 : ℝ) PLAYER_0 PLAYER_1 7 ⟨0, 206 / 100⟩ ⟨0, 0⟩).player_0.score + 1
      < 2 ^ 32 := by
    show 7 + 1 < 2 ^ 32
    decide
  have hb1 : (still_state (0 : ℝ) PLAYER_0 PLAYER_1 7 ⟨0, 206 / 100⟩ ⟨0, 0⟩).player_1.score + 1
      < 2 ^ 32 := by
    show 0 + 1 < 2 ^ 32
    decide
  ⟨hb0, hb1, ((C21_at_most_one_goal _ _ _).2.2 hb0 hb1).1⟩
